import Mathlib

/-!
# Adapter / queue negotiation and swap-chain configuration of `HelloTriangleApplication`

A shallow embedding of `src/shaderModules/src/main.cpp` (and of the earlier stage
`src/v3_pre_swapChain.cpp` where it differs).  The Vulkan driver and the GLFW window
system are an explicit `Driver` record of answers; every member function that talks to
them returns, next to its value, the list of calls it issued, in order.  Functions that
can throw return an `Outcome` carrying the application state at the point of the throw.

Conventions
* handles (`VkInstance`, `VkPhysicalDevice`, ...) are natural numbers, `VK_NULL_HANDLE` is `0`;
* `uint32_t` values are natural numbers, reduced modulo `2 ^ 32` where the source can wrap;
* the loop counter `int i` of `findQueueFamilies` is a natural number: it only counts up
  from `0` over a vector, so it agrees with the source wherever the source is defined;
* text written to `std::cout` / `std::cerr` is not modelled.
-/

set_option autoImplicit false

namespace HelloTriangleApplication

/-! ## Values taken from the Vulkan and GLFW headers -/

abbrev VkResult := Int
abbrev VkBool32 := Nat
abbrev VkPhysicalDevice := Nat
abbrev VkFormat := Nat
abbrev VkColorSpaceKHR := Nat
abbrev VkPresentModeKHR := Nat

def VK_SUCCESS : VkResult := 0
def VK_ERROR_EXTENSION_NOT_PRESENT : VkResult := -7
def VK_TRUE : VkBool32 := 1
def VK_FALSE : VkBool32 := 0
def VK_NULL_HANDLE : Nat := 0
def VK_QUEUE_GRAPHICS_BIT : Nat := 1
def VK_FORMAT_B8G8R8A8_SRGB : VkFormat := 50
def VK_COLOR_SPACE_SRGB_NONLINEAR_KHR : VkColorSpaceKHR := 0
def VK_PRESENT_MODE_MAILBOX_KHR : VkPresentModeKHR := 1
def VK_PRESENT_MODE_FIFO_KHR : VkPresentModeKHR := 2
def VK_SHARING_MODE_EXCLUSIVE : Nat := 0
def VK_SHARING_MODE_CONCURRENT : Nat := 1
def VK_IMAGE_USAGE_COLOR_ATTACHMENT_BIT : Nat := 16
def VK_COMPOSITE_ALPHA_OPAQUE_BIT_KHR : Nat := 1
def VK_IMAGE_VIEW_TYPE_2D : Nat := 1
def VK_COMPONENT_SWIZZLE_IDENTITY : Nat := 0
def VK_IMAGE_ASPECT_COLOR_BIT : Nat := 1
def VK_API_VERSION_1_3 : Nat := 4206592
def VK_SHADER_STAGE_VERTEX_BIT : Nat := 1
def VK_SHADER_STAGE_FRAGMENT_BIT : Nat := 16
def VK_DEBUG_UTILS_MESSAGE_SEVERITY_WARNING_BIT_EXT : Nat := 256
def VK_DEBUG_UTILS_MESSAGE_SEVERITY_ERROR_BIT_EXT : Nat := 4096
def VK_DEBUG_UTILS_MESSAGE_TYPE_GENERAL_BIT_EXT : Nat := 1
def VK_DEBUG_UTILS_MESSAGE_TYPE_VALIDATION_BIT_EXT : Nat := 2
def VK_DEBUG_UTILS_MESSAGE_TYPE_PERFORMANCE_BIT_EXT : Nat := 4
def VK_KHR_SWAPCHAIN_EXTENSION_NAME : String := "VK_KHR_swapchain"
def VK_EXT_DEBUG_UTILS_EXTENSION_NAME : String := "VK_EXT_debug_utils"
def GLFW_CLIENT_API : Nat := 139265
def GLFW_NO_API : Nat := 0
def GLFW_RESIZABLE : Nat := 131075
def GLFW_FALSE : Nat := 0
def EXIT_SUCCESS : Nat := 0
def EXIT_FAILURE : Nat := 1

/-- The value of `std::numeric_limits<uint32_t>::max()`. -/
def UINT32_MAX : Nat := 4294967295

/-- The conversion `static_cast<uint32_t>(x)` of a signed `int`. -/
def toUint32 (x : Int) : Nat := (x % 4294967296).toNat

/-! ## Globals of `main.cpp` -/

def WIDTH : Nat := 800
def HEIGHT : Nat := 600

/-- The file-scope constants.  `enableValidationLayers` depends on `NDEBUG`, so it is a
field; the two name lists are fields as well and `globals` gives them the source's values. -/
structure Globals where
  validationLayers : List String
  deviceExtensions : List String
  enableValidationLayers : Bool
  deriving DecidableEq, Repr

/-- The constants as `main.cpp` defines them, for either setting of `NDEBUG`. -/
def globals (enableValidationLayers : Bool) : Globals :=
  ⟨["VK_LAYER_KHRONOS_validation"], [VK_KHR_SWAPCHAIN_EXTENSION_NAME], enableValidationLayers⟩

/-! ## Data passed to and from the driver -/

structure VkQueueFamilyProperties where
  queueFlags : Nat
  queueCount : Nat
  deriving DecidableEq, Repr

structure VkExtent2D where
  width : Nat
  height : Nat
  deriving DecidableEq, Repr

structure VkSurfaceCapabilitiesKHR where
  minImageCount : Nat
  maxImageCount : Nat
  currentExtent : VkExtent2D
  minImageExtent : VkExtent2D
  maxImageExtent : VkExtent2D
  currentTransform : Nat
  deriving DecidableEq, Repr

structure VkSurfaceFormatKHR where
  format : VkFormat
  colorSpace : VkColorSpaceKHR
  deriving DecidableEq, Repr

structure VkApplicationInfo where
  pApplicationName : String
  applicationVersion : Nat
  pEngineName : String
  engineVersion : Nat
  apiVersion : Nat
  deriving DecidableEq, Repr

structure VkDebugUtilsMessengerCreateInfoEXT where
  messageSeverity : Nat
  messageType : Nat
  deriving DecidableEq, Repr

structure VkInstanceCreateInfo where
  pApplicationInfo : VkApplicationInfo
  ppEnabledExtensionNames : List String
  ppEnabledLayerNames : List String
  pNext : Option VkDebugUtilsMessengerCreateInfoEXT
  deriving DecidableEq, Repr

structure VkDeviceQueueCreateInfo where
  queueFamilyIndex : Nat
  queueCount : Nat
  pQueuePriorities : List Rat
  deriving DecidableEq, Repr

structure VkDeviceCreateInfo where
  pQueueCreateInfos : List VkDeviceQueueCreateInfo
  ppEnabledExtensionNames : List String
  ppEnabledLayerNames : List String
  deriving DecidableEq, Repr

structure VkSwapchainCreateInfoKHR where
  surface : Nat
  minImageCount : Nat
  imageFormat : VkFormat
  imageColorSpace : VkColorSpaceKHR
  imageExtent : VkExtent2D
  imageArrayLayers : Nat
  imageUsage : Nat
  imageSharingMode : Nat
  queueFamilyIndexCount : Nat
  pQueueFamilyIndices : Option (List Nat)
  preTransform : Nat
  compositeAlpha : Nat
  presentMode : VkPresentModeKHR
  clipped : VkBool32
  oldSwapchain : Nat
  deriving DecidableEq, Repr

structure VkComponentMapping where
  r : Nat
  g : Nat
  b : Nat
  a : Nat
  deriving DecidableEq, Repr

structure VkImageSubresourceRange where
  aspectMask : Nat
  baseMipLevel : Nat
  levelCount : Nat
  baseArrayLayer : Nat
  layerCount : Nat
  deriving DecidableEq, Repr

structure VkImageViewCreateInfo where
  image : Nat
  viewType : Nat
  format : VkFormat
  components : VkComponentMapping
  subresourceRange : VkImageSubresourceRange
  deriving DecidableEq, Repr

/-- What the driver answers to a "count, then fill" query: `count` is the number written by
the call made with a null array, `items` are the entries the driver holds when the fill
call is made.  A driver whose two answers agree has `count = items.length`. -/
structure Enumeration (α : Type) where
  count : Nat
  items : List α

/-- A fill call on a vector `v` that is already sized: the driver overwrites the leading
elements with its entries, at most `v.size()` of them, and leaves the others as they are. -/
def writeInto {α : Type} (v items : List α) : List α :=
  items.take v.length ++ v.drop items.length

/-- The method `std::vector::resize(n)`: keep the first `n` elements, pad with
value-initialised (`zero`) elements. -/
def vectorResize {α : Type} (zero : α) (v : List α) (n : Nat) : List α :=
  v.take n ++ List.replicate (n - v.length) zero

/-- The container after `std::vector<T> v(count); query(&count, v.data());`: it keeps the
`count` elements it was sized with; the fill call writes at most `count` of the driver's
entries and leaves the remaining elements value-initialised (`zero`). -/
def Enumeration.fill {α : Type} (zero : α) (e : Enumeration α) : List α :=
  writeInto (List.replicate e.count zero) e.items

/-- Every call into Vulkan, GLFW or the file system that the program can issue. -/
inductive VkCall where
  | glfwInit
  | glfwWindowHint (hint value : Nat)
  | glfwCreateWindow (width height : Nat) (title : String)
  | vkEnumerateInstanceLayerProperties (fill : Bool)
  | glfwGetRequiredInstanceExtensions
  | vkCreateInstance (createInfo : VkInstanceCreateInfo)
  | vkGetInstanceProcAddr (inst : Nat) (name : String)
  | vkCreateDebugUtilsMessengerEXT (inst : Nat) (createInfo : VkDebugUtilsMessengerCreateInfoEXT)
  | glfwCreateWindowSurface (inst window : Nat)
  | vkEnumeratePhysicalDevices (inst : Nat) (fill : Bool)
  | vkGetPhysicalDeviceQueueFamilyProperties (device : VkPhysicalDevice) (fill : Bool)
  | vkGetPhysicalDeviceSurfaceSupportKHR (device : VkPhysicalDevice) (queueFamilyIndex surface : Nat)
  | vkEnumerateDeviceExtensionProperties (device : VkPhysicalDevice) (fill : Bool)
  | vkGetPhysicalDeviceSurfaceCapabilitiesKHR (device : VkPhysicalDevice) (surface : Nat)
  | vkGetPhysicalDeviceSurfaceFormatsKHR (device : VkPhysicalDevice) (surface : Nat) (fill : Bool)
  | vkGetPhysicalDeviceSurfacePresentModesKHR (device : VkPhysicalDevice) (surface : Nat) (fill : Bool)
  | vkCreateDevice (physicalDevice : VkPhysicalDevice) (createInfo : VkDeviceCreateInfo)
  | vkGetDeviceQueue (device queueFamilyIndex queueIndex : Nat)
  | glfwGetFramebufferSize (window : Nat)
  | vkCreateSwapchainKHR (device : Nat) (createInfo : VkSwapchainCreateInfoKHR)
  | vkGetSwapchainImagesKHR (device swapChain : Nat) (fill : Bool)
  | vkCreateImageView (device : Nat) (createInfo : VkImageViewCreateInfo)
  | readFile (filename : String)
  | vkCreateShaderModule (device : Nat) (code : List Nat)
  | vkDestroyShaderModule (device shaderModule : Nat)
  | glfwWindowShouldClose (window : Nat)
  | glfwPollEvents
  | vkDestroyImageView (device imageView : Nat)
  | vkDestroySwapchainKHR (device swapChain : Nat)
  | vkDestroyDebugUtilsMessengerEXT (inst debugMessenger : Nat)
  | vkDestroyDevice (device : Nat)
  | vkDestroySurfaceKHR (inst surface : Nat)
  | vkDestroyInstance (inst : Nat)
  | glfwDestroyWindow (window : Nat)
  | glfwTerminate
  deriving DecidableEq, Repr

/-- The environment: what the Vulkan loader and driver, GLFW and the file system answer.
Creation calls answer with a result code and the handle they write. -/
structure Driver where
  glfwCreateWindow : Nat
  glfwGetRequiredInstanceExtensions : List String
  glfwCreateWindowSurface : Nat → Nat → VkResult × Nat
  glfwGetFramebufferSize : Nat → Int × Int
  /-- Number of `glfwPollEvents` rounds after which `glfwWindowShouldClose` answers true;
  `none` when the window is never closed. -/
  windowShouldCloseAfter : Option Nat
  vkEnumerateInstanceLayerProperties : Enumeration String
  vkCreateInstance : VkInstanceCreateInfo → VkResult × Nat
  /-- Whether `vkGetInstanceProcAddr` finds the named function (answers non-null). -/
  vkGetInstanceProcAddr : Nat → String → Bool
  vkCreateDebugUtilsMessengerEXT : Nat → VkDebugUtilsMessengerCreateInfoEXT → VkResult × Nat
  vkEnumeratePhysicalDevices : Nat → Enumeration VkPhysicalDevice
  vkGetPhysicalDeviceQueueFamilyProperties : VkPhysicalDevice → Enumeration VkQueueFamilyProperties
  /-- The value left in `presentSupport` by the call for a device, family index and surface. -/
  vkGetPhysicalDeviceSurfaceSupportKHR : VkPhysicalDevice → Nat → Nat → VkBool32
  /-- Extension names (`extensionName`) of a device. -/
  vkEnumerateDeviceExtensionProperties : VkPhysicalDevice → Enumeration String
  vkGetPhysicalDeviceSurfaceCapabilitiesKHR : VkPhysicalDevice → Nat → VkSurfaceCapabilitiesKHR
  vkGetPhysicalDeviceSurfaceFormatsKHR : VkPhysicalDevice → Nat → Enumeration VkSurfaceFormatKHR
  vkGetPhysicalDeviceSurfacePresentModesKHR : VkPhysicalDevice → Nat → Enumeration VkPresentModeKHR
  vkCreateDevice : VkPhysicalDevice → VkDeviceCreateInfo → VkResult × Nat
  vkGetDeviceQueue : Nat → Nat → Nat → Nat
  vkCreateSwapchainKHR : Nat → VkSwapchainCreateInfoKHR → VkResult × Nat
  vkGetSwapchainImagesKHR : Nat → Nat → Enumeration Nat
  vkCreateImageView : Nat → VkImageViewCreateInfo → VkResult × Nat
  /-- File contents as bytes, `none` when the file cannot be opened. -/
  readFile : String → Option (List Nat)
  vkCreateShaderModule : Nat → List Nat → VkResult × Nat

/-! ## The application object -/

/-- The struct `QueueFamilyIndices`: two `std::optional<uint32_t>`. -/
structure QueueFamilyIndices where
  graphicsFamily : Option Nat
  presentFamily : Option Nat
  deriving DecidableEq, Repr

def QueueFamilyIndices.isComplete (indices : QueueFamilyIndices) : Bool :=
  indices.graphicsFamily.isSome && indices.presentFamily.isSome

structure SwapChainSupportDetails where
  capabilities : VkSurfaceCapabilitiesKHR
  formats : List VkSurfaceFormatKHR
  presentModes : List VkPresentModeKHR
  deriving DecidableEq, Repr

/-- The data members of `HelloTriangleApplication`, and `calls`, the calls issued so far
(oldest first). -/
structure App where
  window : Nat
  inst : Nat
  debugMessenger : Nat
  physicalDevice : VkPhysicalDevice
  device : Nat
  graphicsQueue : Nat
  presentQueue : Nat
  surface : Nat
  swapChain : Nat
  swapChainImages : List Nat
  swapChainImageFormat : VkFormat
  swapChainExtent : VkExtent2D
  swapChainImageViews : List Nat
  calls : List VkCall
  deriving DecidableEq, Repr

/-- A freshly constructed application object: `physicalDevice = VK_NULL_HANDLE` by its member
initialiser, the vectors empty, no call issued yet. -/
def App.fresh : App :=
  ⟨0, 0, 0, VK_NULL_HANDLE, 0, 0, 0, 0, 0, [], 0, ⟨0, 0⟩, [], []⟩

/-- Append calls to the log of the application. -/
def App.log (app : App) (cs : List VkCall) : App :=
  { app with calls := app.calls ++ cs }

/-- How a `void` member function ends: it returns, an exception leaves it, it reaches
undefined behaviour, or (only `mainLoop`) it never returns. -/
inductive Outcome where
  | ok (app : App)
  | thrown (what : String) (app : App)
  | undefinedBehaviour (app : App)
  | diverges (app : App)
  deriving DecidableEq, Repr

/-- Sequencing of statements: the next statement runs only after a normal return. -/
def Outcome.andThen (o : Outcome) (next : App → Outcome) : Outcome :=
  match o with
  | .ok app => next app
  | other => other

/-- The application state at the end, however the function ended. -/
def Outcome.app : Outcome → App
  | .ok app => app
  | .thrown _ app => app
  | .undefinedBehaviour app => app
  | .diverges app => app

/-! ## `findQueueFamilies` -/

/-- The range-`for` of `findQueueFamilies`, from family index `i` on: the presentation query
for index `i` is issued for every family visited, both assignments are unconditional, and
the loop is left as soon as both optionals hold a value. -/
def findQueueFamiliesLoop (drv : Driver) (app : App) (device : VkPhysicalDevice) :
    List VkQueueFamilyProperties → Nat → QueueFamilyIndices → QueueFamilyIndices × List VkCall
  | [], _, indices => (indices, [])
  | queueFamily :: rest, i, indices =>
    let presentSupport : VkBool32 := drv.vkGetPhysicalDeviceSurfaceSupportKHR device i app.surface
    let indices : QueueFamilyIndices :=
      if queueFamily.queueFlags &&& VK_QUEUE_GRAPHICS_BIT ≠ 0 then
        { indices with graphicsFamily := some i }
      else indices
    let indices : QueueFamilyIndices :=
      if presentSupport ≠ 0 then { indices with presentFamily := some i } else indices
    if indices.isComplete then
      (indices, [.vkGetPhysicalDeviceSurfaceSupportKHR device i app.surface])
    else
      let r := findQueueFamiliesLoop drv app device rest (i + 1) indices
      (r.1, .vkGetPhysicalDeviceSurfaceSupportKHR device i app.surface :: r.2)

/-- The vector `queueFamilies` that `findQueueFamilies` iterates over. -/
def queueFamiliesOf (drv : Driver) (device : VkPhysicalDevice) : List VkQueueFamilyProperties :=
  (drv.vkGetPhysicalDeviceQueueFamilyProperties device).fill ⟨0, 0⟩

/-- The member `findQueueFamilies(device)` of `src/shaderModules/src/main.cpp`. -/
def findQueueFamilies (drv : Driver) (app : App) (device : VkPhysicalDevice) :
    QueueFamilyIndices × List VkCall :=
  let indices : QueueFamilyIndices := ⟨none, none⟩
  let queueFamilies := queueFamiliesOf drv device
  let r := findQueueFamiliesLoop drv app device queueFamilies 0 indices
  (r.1,
   [.vkGetPhysicalDeviceQueueFamilyProperties device false,
    .vkGetPhysicalDeviceQueueFamilyProperties device true] ++ r.2)

/-! ## Adapter suitability and selection -/

/-- The vector `availableExtensions` (extension names) that `checkDeviceExtensionSupport`
iterates over. -/
def availableExtensionsOf (drv : Driver) (device : VkPhysicalDevice) : List String :=
  (drv.vkEnumerateDeviceExtensionProperties device).fill ""

/-- The member `checkDeviceExtensionSupport(device)`.  The `std::set<std::string>` of
required names is a duplicate-free list; only its emptiness is observed. -/
def checkDeviceExtensionSupport (drv : Driver) (g : Globals) (device : VkPhysicalDevice) :
    Bool × List VkCall :=
  let availableExtensions := availableExtensionsOf drv device
  let requiredExtensions : List String := g.deviceExtensions.dedup
  let requiredExtensions :=
    availableExtensions.foldl (fun required extension => required.erase extension) requiredExtensions
  (requiredExtensions.isEmpty,
   [.vkEnumerateDeviceExtensionProperties device false,
    .vkEnumerateDeviceExtensionProperties device true])

/-- The member `querySwapChainSupport(device)`: each list is filled only when the count
reported by the first call is not zero. -/
def querySwapChainSupport (drv : Driver) (app : App) (device : VkPhysicalDevice) :
    SwapChainSupportDetails × List VkCall :=
  let capabilities := drv.vkGetPhysicalDeviceSurfaceCapabilitiesKHR device app.surface
  let formatCount := (drv.vkGetPhysicalDeviceSurfaceFormatsKHR device app.surface).count
  let formats : List VkSurfaceFormatKHR × List VkCall :=
    if formatCount ≠ 0 then
      ((drv.vkGetPhysicalDeviceSurfaceFormatsKHR device app.surface).fill ⟨0, 0⟩,
       [.vkGetPhysicalDeviceSurfaceFormatsKHR device app.surface true])
    else ([], [])
  let presentModeCount := (drv.vkGetPhysicalDeviceSurfacePresentModesKHR device app.surface).count
  let presentModes : List VkPresentModeKHR × List VkCall :=
    if presentModeCount ≠ 0 then
      ((drv.vkGetPhysicalDeviceSurfacePresentModesKHR device app.surface).fill 0,
       [.vkGetPhysicalDeviceSurfacePresentModesKHR device app.surface true])
    else ([], [])
  (⟨capabilities, formats.1, presentModes.1⟩,
   [.vkGetPhysicalDeviceSurfaceCapabilitiesKHR device app.surface,
    .vkGetPhysicalDeviceSurfaceFormatsKHR device app.surface false] ++ formats.2 ++
   [.vkGetPhysicalDeviceSurfacePresentModesKHR device app.surface false] ++ presentModes.2)

/-- The member `isDeviceSuitable(device)` of `src/shaderModules/src/main.cpp`. -/
def isDeviceSuitable (drv : Driver) (g : Globals) (app : App) (device : VkPhysicalDevice) :
    Bool × List VkCall :=
  let indices := findQueueFamilies drv app device
  let extensionsSupported := checkDeviceExtensionSupport drv g device
  let swapChainAdequate : Bool × List VkCall :=
    if extensionsSupported.1 then
      let swapChainSupport := querySwapChainSupport drv app device
      (!swapChainSupport.1.formats.isEmpty && !swapChainSupport.1.presentModes.isEmpty,
       swapChainSupport.2)
    else (false, [])
  (indices.1.isComplete && extensionsSupported.1 && swapChainAdequate.1,
   indices.2 ++ extensionsSupported.2 ++ swapChainAdequate.2)

/-- The range-`for` of `pickPhysicalDevice`: the first suitable device is stored and the
loop is left; `physicalDevice` keeps its value when no device is suitable. -/
def pickPhysicalDeviceLoop (drv : Driver) (g : Globals) (app : App) :
    List VkPhysicalDevice → VkPhysicalDevice → VkPhysicalDevice × List VkCall
  | [], physicalDevice => (physicalDevice, [])
  | device :: rest, physicalDevice =>
    let suitable := isDeviceSuitable drv g app device
    if suitable.1 then (device, suitable.2)
    else
      let r := pickPhysicalDeviceLoop drv g app rest physicalDevice
      (r.1, suitable.2 ++ r.2)

/-- The vector `devices` that `pickPhysicalDevice` iterates over. -/
def devicesOf (drv : Driver) (app : App) : List VkPhysicalDevice :=
  (drv.vkEnumeratePhysicalDevices app.inst).fill VK_NULL_HANDLE

/-- The member `pickPhysicalDevice()`. -/
def pickPhysicalDevice (drv : Driver) (g : Globals) (app : App) : Outcome :=
  let deviceCount := (drv.vkEnumeratePhysicalDevices app.inst).count
  if deviceCount = 0 then
    .thrown "Could not find GPUs with Vulkan support!"
      (app.log [.vkEnumeratePhysicalDevices app.inst false])
  else
    let devices := devicesOf drv app
    let r := pickPhysicalDeviceLoop drv g app devices app.physicalDevice
    let picked : App :=
      { app.log ([.vkEnumeratePhysicalDevices app.inst false,
                  .vkEnumeratePhysicalDevices app.inst true] ++ r.2) with
        physicalDevice := r.1 }
    if picked.physicalDevice = VK_NULL_HANDLE then
      .thrown "Failed to find a suitable GPU!" picked
    else .ok picked

/-! ## Swap-chain settings -/

/-- The member `chooseSwapSurfaceFormat`; `none` is the out-of-bounds read
`availableFormats[0]` on an empty vector. -/
def chooseSwapSurfaceFormat (availableFormats : List VkSurfaceFormatKHR) :
    Option VkSurfaceFormatKHR :=
  match availableFormats.find? (fun availableFormat =>
      availableFormat.format == VK_FORMAT_B8G8R8A8_SRGB &&
        availableFormat.colorSpace == VK_COLOR_SPACE_SRGB_NONLINEAR_KHR) with
  | some availableFormat => some availableFormat
  | none => availableFormats[0]?

/-- The member `chooseSwapPresentMode`. -/
def chooseSwapPresentMode (availablePresentModes : List VkPresentModeKHR) : VkPresentModeKHR :=
  match availablePresentModes.find? (fun availablePresentMode =>
      availablePresentMode == VK_PRESENT_MODE_MAILBOX_KHR) with
  | some availablePresentMode => availablePresentMode
  | none => VK_PRESENT_MODE_FIFO_KHR

/-- The function `std::clamp(v, lo, hi)` as the standard library implements it:
`(v < lo) ? lo : (hi < v) ? hi : v`. -/
def stdClamp (v lo hi : Nat) : Nat :=
  if v < lo then lo else if hi < v then hi else v

/-- The member `chooseSwapExtent(capabilities)`. -/
def chooseSwapExtent (drv : Driver) (app : App) (capabilities : VkSurfaceCapabilitiesKHR) :
    VkExtent2D × List VkCall :=
  if capabilities.currentExtent.width ≠ UINT32_MAX then
    (capabilities.currentExtent, [])
  else
    let size := drv.glfwGetFramebufferSize app.window
    let actualExtent : VkExtent2D := ⟨toUint32 size.1, toUint32 size.2⟩
    let actualExtent : VkExtent2D :=
      { actualExtent with
        width := stdClamp actualExtent.width capabilities.minImageExtent.width
          capabilities.maxImageExtent.width }
    let actualExtent : VkExtent2D :=
      { actualExtent with
        height := stdClamp actualExtent.height capabilities.minImageExtent.height
          capabilities.maxImageExtent.height }
    (actualExtent, [.glfwGetFramebufferSize app.window])

/-! ## Instance, debug messenger, surface -/

/-- The member `checkValidationLayerSupport()`. -/
def checkValidationLayerSupport (drv : Driver) (g : Globals) : Bool × List VkCall :=
  let availableLayers := drv.vkEnumerateInstanceLayerProperties.fill ""
  (g.validationLayers.all (fun layerName =>
      availableLayers.any (fun layerProperties => layerName == layerProperties)),
   [.vkEnumerateInstanceLayerProperties false, .vkEnumerateInstanceLayerProperties true])

/-- The member `populateDebugMessengerCreateInfo`. -/
def populateDebugMessengerCreateInfo : VkDebugUtilsMessengerCreateInfoEXT :=
  ⟨VK_DEBUG_UTILS_MESSAGE_SEVERITY_WARNING_BIT_EXT ||| VK_DEBUG_UTILS_MESSAGE_SEVERITY_ERROR_BIT_EXT,
   VK_DEBUG_UTILS_MESSAGE_TYPE_GENERAL_BIT_EXT ||| VK_DEBUG_UTILS_MESSAGE_TYPE_VALIDATION_BIT_EXT |||
     VK_DEBUG_UTILS_MESSAGE_TYPE_PERFORMANCE_BIT_EXT⟩

/-- The member `getRequiredExtensions()`. -/
def getRequiredExtensions (drv : Driver) (g : Globals) : List String × List VkCall :=
  let extensions := drv.glfwGetRequiredInstanceExtensions
  let extensions :=
    if g.enableValidationLayers then extensions ++ [VK_EXT_DEBUG_UTILS_EXTENSION_NAME]
    else extensions
  (extensions, [.glfwGetRequiredInstanceExtensions])

/-- The member `createInstance()`.  The layer check is only evaluated when
`enableValidationLayers` holds (`&&` short-circuits). -/
def createInstance (drv : Driver) (g : Globals) (app : App) : Outcome :=
  let check : Bool × List VkCall :=
    if g.enableValidationLayers then checkValidationLayerSupport drv g else (true, [])
  let app := app.log check.2
  if g.enableValidationLayers && !check.1 then
    .thrown "Validation layers requested, but not available" app
  else
    let appInfo : VkApplicationInfo := ⟨"Hello triangle", 1, "No engine", 1, VK_API_VERSION_1_3⟩
    let extensions := getRequiredExtensions drv g
    let app := app.log extensions.2
    let createInfo : VkInstanceCreateInfo :=
      if g.enableValidationLayers then
        ⟨appInfo, extensions.1, g.validationLayers, some populateDebugMessengerCreateInfo⟩
      else ⟨appInfo, extensions.1, [], none⟩
    let r := drv.vkCreateInstance createInfo
    let app := { app.log [.vkCreateInstance createInfo] with inst := r.2 }
    if r.1 ≠ VK_SUCCESS then .thrown "Failed to create an instance!" app else .ok app

/-- The proxy `CreateDebugUtilsMessengerEXT`: result code, handle written (unchanged when the
function is not found) and the calls made. -/
def CreateDebugUtilsMessengerEXT (drv : Driver) (inst : Nat)
    (createInfo : VkDebugUtilsMessengerCreateInfoEXT) (debugMessenger : Nat) :
    VkResult × Nat × List VkCall :=
  if drv.vkGetInstanceProcAddr inst "vkCreateDebugUtilsMessengerEXT" then
    let r := drv.vkCreateDebugUtilsMessengerEXT inst createInfo
    (r.1, r.2, [.vkGetInstanceProcAddr inst "vkCreateDebugUtilsMessengerEXT",
      .vkCreateDebugUtilsMessengerEXT inst createInfo])
  else
    (VK_ERROR_EXTENSION_NOT_PRESENT, debugMessenger,
      [.vkGetInstanceProcAddr inst "vkCreateDebugUtilsMessengerEXT"])

/-- The proxy `DestroyDebugUtilsMessengerEXT`: the calls it makes. -/
def DestroyDebugUtilsMessengerEXT (drv : Driver) (inst debugMessenger : Nat) : List VkCall :=
  if drv.vkGetInstanceProcAddr inst "vkDestroyDebugUtilsMessengerEXT" then
    [.vkGetInstanceProcAddr inst "vkDestroyDebugUtilsMessengerEXT",
     .vkDestroyDebugUtilsMessengerEXT inst debugMessenger]
  else [.vkGetInstanceProcAddr inst "vkDestroyDebugUtilsMessengerEXT"]

/-- The member `setupDebugMessenger()`. -/
def setupDebugMessenger (drv : Driver) (g : Globals) (app : App) : Outcome :=
  if !g.enableValidationLayers then .ok app
  else
    let createInfo := populateDebugMessengerCreateInfo
    let r := CreateDebugUtilsMessengerEXT drv app.inst createInfo app.debugMessenger
    let app := { app.log r.2.2 with debugMessenger := r.2.1 }
    if r.1 ≠ VK_SUCCESS then .thrown "failed to set up debug messenger!" app else .ok app

/-- The member `createSurface()`. -/
def createSurface (drv : Driver) (app : App) : Outcome :=
  let r := drv.glfwCreateWindowSurface app.inst app.window
  let app := { app.log [.glfwCreateWindowSurface app.inst app.window] with surface := r.2 }
  if r.1 ≠ VK_SUCCESS then .thrown "Could not create a window Surface!" app else .ok app

/-! ## Logical device -/

/-- The text of `std::bad_optional_access::what()`, thrown by `value()` on an empty optional. -/
def badOptionalAccess : String := "bad optional access"

/-- The `std::set<uint32_t>` built from `{graphicsFamily, presentFamily}`, in iteration
(ascending) order. -/
def uniqueQueueFamiliesOf (graphicsFamily presentFamily : Nat) : List Nat :=
  if graphicsFamily = presentFamily then [graphicsFamily]
  else if graphicsFamily < presentFamily then [graphicsFamily, presentFamily]
  else [presentFamily, graphicsFamily]

/-- The member `createLogicDevice()`. -/
def createLogicDevice (drv : Driver) (g : Globals) (app : App) : Outcome :=
  let indices := findQueueFamilies drv app app.physicalDevice
  let app := app.log indices.2
  match indices.1.graphicsFamily, indices.1.presentFamily with
  | some graphicsFamily, some presentFamily =>
    let uniqueQueueFamilies := uniqueQueueFamiliesOf graphicsFamily presentFamily
    let queuePriority : Rat := 1
    let queueCreateInfos : List VkDeviceQueueCreateInfo :=
      uniqueQueueFamilies.map (fun queueFamily => ⟨queueFamily, 1, [queuePriority]⟩)
    let createInfo : VkDeviceCreateInfo :=
      ⟨queueCreateInfos, g.deviceExtensions,
       if g.enableValidationLayers then g.validationLayers else []⟩
    let r := drv.vkCreateDevice app.physicalDevice createInfo
    let app := { app.log [.vkCreateDevice app.physicalDevice createInfo] with device := r.2 }
    if r.1 ≠ VK_SUCCESS then .thrown "Failed to create logical device!" app
    else
      let app := { app.log [.vkGetDeviceQueue app.device graphicsFamily 0] with
        graphicsQueue := drv.vkGetDeviceQueue app.device graphicsFamily 0 }
      let app := { app.log [.vkGetDeviceQueue app.device presentFamily 0] with
        presentQueue := drv.vkGetDeviceQueue app.device presentFamily 0 }
      .ok app
  | _, _ => .thrown badOptionalAccess app

/-! ## Swap chain and image views -/

/-- The image count `createSwapChain` asks for: `minImageCount + 1` in `uint32_t`
arithmetic, lowered to a non-zero `maxImageCount` that it exceeds. -/
def requestedImageCount (capabilities : VkSurfaceCapabilitiesKHR) : Nat :=
  let imageCount := (capabilities.minImageCount + 1) % 4294967296
  if capabilities.maxImageCount > 0 ∧ imageCount > capabilities.maxImageCount then
    capabilities.maxImageCount
  else imageCount

/-- The member `createSwapChain()`. -/
def createSwapChain (drv : Driver) (app : App) : Outcome :=
  let swapChainSupport := querySwapChainSupport drv app app.physicalDevice
  let app := app.log swapChainSupport.2
  match chooseSwapSurfaceFormat swapChainSupport.1.formats with
  | none => .undefinedBehaviour app
  | some surfaceFormat =>
    let presentMode := chooseSwapPresentMode swapChainSupport.1.presentModes
    let extent := chooseSwapExtent drv app swapChainSupport.1.capabilities
    let app := app.log extent.2
    let imageCount := requestedImageCount swapChainSupport.1.capabilities
    let indices := findQueueFamilies drv app app.physicalDevice
    let app := app.log indices.2
    match indices.1.graphicsFamily, indices.1.presentFamily with
    | some graphicsFamily, some presentFamily =>
      let queueFamilyIndices := [graphicsFamily, presentFamily]
      let sharing : Nat × Nat × Option (List Nat) :=
        if indices.1.graphicsFamily ≠ indices.1.presentFamily then
          (VK_SHARING_MODE_CONCURRENT, 2, some queueFamilyIndices)
        else (VK_SHARING_MODE_EXCLUSIVE, 0, none)
      let createInfo : VkSwapchainCreateInfoKHR :=
        ⟨app.surface, imageCount, surfaceFormat.format, surfaceFormat.colorSpace, extent.1, 1,
         VK_IMAGE_USAGE_COLOR_ATTACHMENT_BIT, sharing.1, sharing.2.1, sharing.2.2,
         swapChainSupport.1.capabilities.currentTransform, VK_COMPOSITE_ALPHA_OPAQUE_BIT_KHR,
         presentMode, VK_TRUE, VK_NULL_HANDLE⟩
      let r := drv.vkCreateSwapchainKHR app.device createInfo
      let app := { app.log [.vkCreateSwapchainKHR app.device createInfo] with swapChain := r.2 }
      if r.1 ≠ VK_SUCCESS then .thrown "\n\tCould not create SwapChain!" app
      else
        let images := drv.vkGetSwapchainImagesKHR app.device app.swapChain
        let app :=
          { app.log [.vkGetSwapchainImagesKHR app.device app.swapChain false,
                     .vkGetSwapchainImagesKHR app.device app.swapChain true] with
            swapChainImages := writeInto (vectorResize 0 app.swapChainImages images.count) images.items }
        .ok { app with swapChainImageFormat := surfaceFormat.format, swapChainExtent := extent.1 }
    | _, _ => .thrown badOptionalAccess app

/-- The create info `createImageViews` builds for one swap-chain image. -/
def imageViewCreateInfo (image : Nat) (format : VkFormat) : VkImageViewCreateInfo :=
  ⟨image, VK_IMAGE_VIEW_TYPE_2D, format,
   ⟨VK_COMPONENT_SWIZZLE_IDENTITY, VK_COMPONENT_SWIZZLE_IDENTITY, VK_COMPONENT_SWIZZLE_IDENTITY,
    VK_COMPONENT_SWIZZLE_IDENTITY⟩,
   ⟨VK_IMAGE_ASPECT_COLOR_BIT, 0, 1, 0, 1⟩⟩

/-- The `for` loop of `createImageViews`, from index `i` on; `images` are the swap-chain
images not yet visited. -/
def createImageViewsLoop (drv : Driver) : List Nat → Nat → App → Outcome
  | [], _, app => .ok app
  | image :: rest, i, app =>
    let createInfo := imageViewCreateInfo image app.swapChainImageFormat
    let r := drv.vkCreateImageView app.device createInfo
    let app := { app.log [.vkCreateImageView app.device createInfo] with
      swapChainImageViews := app.swapChainImageViews.set i r.2 }
    if r.1 ≠ VK_SUCCESS then .thrown "Failed to create image views!" app
    else createImageViewsLoop drv rest (i + 1) app

/-- The member `createImageViews()`. -/
def createImageViews (drv : Driver) (app : App) : Outcome :=
  let app := { app with
    swapChainImageViews := vectorResize 0 app.swapChainImageViews app.swapChainImages.length }
  createImageViewsLoop drv app.swapChainImages 0 app

/-! ## Shader modules -/

/-- The function `readFile(filename)`: the bytes, or the message of the exception. -/
def readFile (drv : Driver) (filename : String) : Except String (List Nat) × List VkCall :=
  match drv.readFile filename with
  | none => (.error "failed to open file!", [.readFile filename])
  | some buffer => (.ok buffer, [.readFile filename])

/-- The member `createShaderModule(code)`: the module, or the message of the exception. -/
def createShaderModule (drv : Driver) (app : App) (code : List Nat) :
    Except String Nat × List VkCall :=
  let r := drv.vkCreateShaderModule app.device code
  if r.1 ≠ VK_SUCCESS then
    (.error "Failed to create shader module!", [.vkCreateShaderModule app.device code])
  else (.ok r.2, [.vkCreateShaderModule app.device code])

/-- The member `createGraphicsPipeline()`. -/
def createGraphicsPipeline (drv : Driver) (app : App) : Outcome :=
  let vert := readFile drv "../shaders/vert.spv"
  let app := app.log vert.2
  match vert.1 with
  | .error what => .thrown what app
  | .ok vertShaderCode =>
    let frag := readFile drv "../shaders/frag.spv"
    let app := app.log frag.2
    match frag.1 with
    | .error what => .thrown what app
    | .ok fragShaderCode =>
      let vertModule := createShaderModule drv app vertShaderCode
      let app := app.log vertModule.2
      match vertModule.1 with
      | .error what => .thrown what app
      | .ok vertShaderModule =>
        let fragModule := createShaderModule drv app fragShaderCode
        let app := app.log fragModule.2
        match fragModule.1 with
        | .error what => .thrown what app
        | .ok fragShaderModule =>
          .ok (app.log [.vkDestroyShaderModule app.device fragShaderModule,
                        .vkDestroyShaderModule app.device vertShaderModule])

/-! ## The life cycle -/

/-- The member `initWindow()`. -/
def initWindow (drv : Driver) (app : App) : App :=
  { app.log [.glfwInit, .glfwWindowHint GLFW_CLIENT_API GLFW_NO_API,
             .glfwWindowHint GLFW_RESIZABLE GLFW_FALSE, .glfwCreateWindow WIDTH HEIGHT "Vulkan"] with
    window := drv.glfwCreateWindow }

/-- The member `initVulkan()` of `src/shaderModules/src/main.cpp`. -/
def initVulkan (drv : Driver) (g : Globals) (app : App) : Outcome :=
  (((((((createInstance drv g app).andThen
    (setupDebugMessenger drv g)).andThen
    (createSurface drv)).andThen
    (pickPhysicalDevice drv g)).andThen
    (createLogicDevice drv g)).andThen
    (createSwapChain drv)).andThen
    (createImageViews drv)).andThen
    (createGraphicsPipeline drv)

/-- The calls of `mainLoop()` when the window closes after `n` rounds of event polling. -/
def mainLoopCalls (window : Nat) : Nat → List VkCall
  | 0 => [.glfwWindowShouldClose window]
  | n + 1 => .glfwWindowShouldClose window :: .glfwPollEvents :: mainLoopCalls window n

/-- The member `mainLoop()`: it returns once the window should close, and never when the
window is never closed. -/
def mainLoop (drv : Driver) (app : App) : Outcome :=
  match drv.windowShouldCloseAfter with
  | some n => .ok (app.log (mainLoopCalls app.window n))
  | none => .diverges app

/-- The member `cleanup()` of `src/shaderModules/src/main.cpp`. -/
def cleanup (drv : Driver) (g : Globals) (app : App) : App :=
  let app := app.log (app.swapChainImageViews.map (fun imageView =>
    VkCall.vkDestroyImageView app.device imageView))
  let app := app.log [.vkDestroySwapchainKHR app.device app.swapChain]
  let app :=
    if g.enableValidationLayers then
      app.log (DestroyDebugUtilsMessengerEXT drv app.inst app.debugMessenger)
    else app
  let app := app.log [.vkDestroyDevice app.device]
  let app := app.log [.vkDestroySurfaceKHR app.inst app.surface]
  let app := app.log [.vkDestroyInstance app.inst]
  let app := app.log [.glfwDestroyWindow app.window]
  app.log [.glfwTerminate]

/-- The member `run()`. -/
def run (drv : Driver) (g : Globals) (app : App) : Outcome :=
  ((initVulkan drv g (initWindow drv app)).andThen (mainLoop drv)).andThen
    (fun app => .ok (cleanup drv g app))

/-- The function `main()`: the exit status (`none` when the program does not reach a
`return`) and the final state of the application object. -/
def main (drv : Driver) (g : Globals) : Option Nat × App :=
  match run drv g App.fresh with
  | .ok app => (some EXIT_SUCCESS, app)
  | .thrown _ app => (some EXIT_FAILURE, app)
  | .undefinedBehaviour app => (none, app)
  | .diverges app => (none, app)

/-! ## The earlier stage `src/v3_pre_swapChain.cpp` -/

/-- The range-`for` of `findQueueFamilies` in `src/v3_pre_swapChain.cpp`: `presentSupport` is
declared outside the loop and the presentation query is issued only for a family that has
the graphics bit, so the variable keeps the last answer across iterations. -/
def V3.findQueueFamiliesLoop (drv : Driver) (app : App) (device : VkPhysicalDevice) :
    List VkQueueFamilyProperties → Nat → VkBool32 → QueueFamilyIndices →
      QueueFamilyIndices × List VkCall
  | [], _, _, indices => (indices, [])
  | queueFamily :: rest, i, presentSupport, indices =>
    let graphics : Bool := queueFamily.queueFlags &&& VK_QUEUE_GRAPHICS_BIT != 0
    let presentSupport : VkBool32 :=
      if graphics then drv.vkGetPhysicalDeviceSurfaceSupportKHR device i app.surface
      else presentSupport
    let calls : List VkCall :=
      if graphics then [.vkGetPhysicalDeviceSurfaceSupportKHR device i app.surface] else []
    let indices : QueueFamilyIndices :=
      if graphics then { indices with graphicsFamily := some i } else indices
    let indices : QueueFamilyIndices :=
      if presentSupport ≠ 0 then { indices with presentFamily := some i } else indices
    if indices.isComplete then (indices, calls)
    else
      let r := V3.findQueueFamiliesLoop drv app device rest (i + 1) presentSupport indices
      (r.1, calls ++ r.2)

/-- The member `findQueueFamilies(device)` of `src/v3_pre_swapChain.cpp`. -/
def V3.findQueueFamilies (drv : Driver) (app : App) (device : VkPhysicalDevice) :
    QueueFamilyIndices × List VkCall :=
  let indices : QueueFamilyIndices := ⟨none, none⟩
  let presentSupport : VkBool32 := 0
  let queueFamilies := queueFamiliesOf drv device
  let r := V3.findQueueFamiliesLoop drv app device queueFamilies 0 presentSupport indices
  (r.1,
   [.vkGetPhysicalDeviceQueueFamilyProperties device false,
    .vkGetPhysicalDeviceQueueFamilyProperties device true] ++ r.2)

/-- The member `isDeviceSuitable(device)` of `src/v3_pre_swapChain.cpp`. -/
def V3.isDeviceSuitable (drv : Driver) (g : Globals) (app : App) (device : VkPhysicalDevice) :
    Bool × List VkCall :=
  let indices := V3.findQueueFamilies drv app device
  let extensionsSupported := checkDeviceExtensionSupport drv g device
  (indices.1.isComplete && extensionsSupported.1, indices.2 ++ extensionsSupported.2)

/-! ## Concrete drivers -/

/-- One adapter of a mock driver: its handle, its queue families as pairs of `queueFlags` and
the presentation-support answer, its extension names and its surface support. -/
structure MockAdapter where
  handle : VkPhysicalDevice
  queueFamilies : List (Nat × VkBool32)
  extensions : List String
  capabilities : VkSurfaceCapabilitiesKHR
  formats : List VkSurfaceFormatKHR
  presentModes : List VkPresentModeKHR

/-- The adapter of a mock driver with a given handle. -/
def mockAdapter? (adapters : List MockAdapter) (device : VkPhysicalDevice) : Option MockAdapter :=
  adapters.find? (fun a => a.handle == device)

/-- A well-behaved driver: both calls of every query agree, every creation call succeeds,
the validation layer and the debug-utils functions are present, the shader files exist and
the window is closed at once. -/
def mockDriver (adapters : List MockAdapter) (framebufferSize : Int × Int)
    (swapchainImages : List Nat) : Driver where
  glfwCreateWindow := 1
  glfwGetRequiredInstanceExtensions := ["VK_KHR_surface"]
  glfwCreateWindowSurface := fun _ _ => (VK_SUCCESS, 3)
  glfwGetFramebufferSize := fun _ => framebufferSize
  windowShouldCloseAfter := some 0
  vkEnumerateInstanceLayerProperties := ⟨1, ["VK_LAYER_KHRONOS_validation"]⟩
  vkCreateInstance := fun _ => (VK_SUCCESS, 2)
  vkGetInstanceProcAddr := fun _ _ => true
  vkCreateDebugUtilsMessengerEXT := fun _ _ => (VK_SUCCESS, 4)
  vkEnumeratePhysicalDevices := fun _ => ⟨adapters.length, adapters.map (fun a => a.handle)⟩
  vkGetPhysicalDeviceQueueFamilyProperties := fun device =>
    match mockAdapter? adapters device with
    | some a => ⟨a.queueFamilies.length, a.queueFamilies.map (fun f => ⟨f.1, 1⟩)⟩
    | none => ⟨0, []⟩
  vkGetPhysicalDeviceSurfaceSupportKHR := fun device i _ =>
    match mockAdapter? adapters device with
    | some a => (a.queueFamilies.map (fun f => f.2)).getD i VK_FALSE
    | none => VK_FALSE
  vkEnumerateDeviceExtensionProperties := fun device =>
    match mockAdapter? adapters device with
    | some a => ⟨a.extensions.length, a.extensions⟩
    | none => ⟨0, []⟩
  vkGetPhysicalDeviceSurfaceCapabilitiesKHR := fun device _ =>
    match mockAdapter? adapters device with
    | some a => a.capabilities
    | none => ⟨0, 0, ⟨0, 0⟩, ⟨0, 0⟩, ⟨0, 0⟩, 0⟩
  vkGetPhysicalDeviceSurfaceFormatsKHR := fun device _ =>
    match mockAdapter? adapters device with
    | some a => ⟨a.formats.length, a.formats⟩
    | none => ⟨0, []⟩
  vkGetPhysicalDeviceSurfacePresentModesKHR := fun device _ =>
    match mockAdapter? adapters device with
    | some a => ⟨a.presentModes.length, a.presentModes⟩
    | none => ⟨0, []⟩
  vkCreateDevice := fun _ _ => (VK_SUCCESS, 5)
  vkGetDeviceQueue := fun _ queueFamilyIndex _ => 10 + queueFamilyIndex
  vkCreateSwapchainKHR := fun _ _ => (VK_SUCCESS, 6)
  vkGetSwapchainImagesKHR := fun _ _ => ⟨swapchainImages.length, swapchainImages⟩
  vkCreateImageView := fun _ createInfo => (VK_SUCCESS, 100 + createInfo.image)
  readFile := fun _ => some [3, 2, 35, 7]
  vkCreateShaderModule := fun _ _ => (VK_SUCCESS, 7)

/-- Surface capabilities with a fixed current extent of 800 x 600. -/
def fixedCapabilities : VkSurfaceCapabilitiesKHR :=
  ⟨2, 3, ⟨800, 600⟩, ⟨1, 1⟩, ⟨4096, 4096⟩, 1⟩

/-- An adapter with handle `1`, the swap-chain extension, one surface format and the FIFO
present mode, for a given list of queue families. -/
def adapterWith (queueFamilies : List (Nat × VkBool32)) : MockAdapter :=
  ⟨1, queueFamilies, [VK_KHR_SWAPCHAIN_EXTENSION_NAME], fixedCapabilities,
   [⟨VK_FORMAT_B8G8R8A8_SRGB, VK_COLOR_SPACE_SRGB_NONLINEAR_KHR⟩], [VK_PRESENT_MODE_FIFO_KHR]⟩

/-- A driver with the single adapter `adapterWith queueFamilies`. -/
def driverWith (queueFamilies : List (Nat × VkBool32)) : Driver :=
  mockDriver [adapterWith queueFamilies] (800, 600) [21, 22, 23]

/-- A driver with two adapters: handle `1` has a single graphics-only family (so it is not
suitable), handle `2` has one family offering graphics and presentation. -/
def twoAdapterDriver : Driver :=
  mockDriver
    [⟨1, [(1, 0)], [VK_KHR_SWAPCHAIN_EXTENSION_NAME], fixedCapabilities,
      [⟨VK_FORMAT_B8G8R8A8_SRGB, VK_COLOR_SPACE_SRGB_NONLINEAR_KHR⟩], [VK_PRESENT_MODE_FIFO_KHR]⟩,
     ⟨2, [(1, 1)], [VK_KHR_SWAPCHAIN_EXTENSION_NAME], fixedCapabilities,
      [⟨VK_FORMAT_B8G8R8A8_SRGB, VK_COLOR_SPACE_SRGB_NONLINEAR_KHR⟩], [VK_PRESENT_MODE_FIFO_KHR]⟩]
    (800, 600) [21, 22, 23]

/-- A driver that enumerates no adapter. -/
def noAdapterDriver : Driver := mockDriver [] (800, 600) []

/-- Whether a call is a `vkCreateDevice` call. -/
def VkCall.isCreateDevice : VkCall → Bool
  | .vkCreateDevice _ _ => true
  | _ => false

/-- Whether a call queries the surface formats or the present modes of an adapter. -/
def VkCall.isSurfaceListQuery : VkCall → Bool
  | .vkGetPhysicalDeviceSurfaceFormatsKHR _ _ _ => true
  | .vkGetPhysicalDeviceSurfacePresentModesKHR _ _ _ => true
  | _ => false

/-- The count a fill call reports back through its count argument, as the Vulkan API
defines it: the number of entries written, at most the capacity it was given. -/
def Enumeration.reported {α : Type} (e : Enumeration α) : Nat :=
  min e.count e.items.length

/-- The vector `availableLayers` (layer names) that `checkValidationLayerSupport` searches. -/
def availableLayersOf (drv : Driver) : List String :=
  drv.vkEnumerateInstanceLayerProperties.fill ""

/-- A driver that reports three queue families on the counting call and holds only two when
the fill call is made. -/
def shrinkingDriver : Driver :=
  { driverWith [(1, 1), (1, 1)] with
    vkGetPhysicalDeviceQueueFamilyProperties := fun _ => ⟨3, [⟨1, 1⟩, ⟨1, 1⟩]⟩ }

/-- The create info `createSwapChain` passes to `vkCreateSwapchainKHR`, as a function of the
surface format and the two queue family indices it has obtained. -/
def swapchainCreateInfoOf (drv : Driver) (app : App) (surfaceFormat : VkSurfaceFormatKHR)
    (graphicsFamily presentFamily : Nat) : VkSwapchainCreateInfoKHR :=
  let swapChainSupport := (querySwapChainSupport drv app app.physicalDevice).1
  let sharing : Nat × Nat × Option (List Nat) :=
    if graphicsFamily ≠ presentFamily then
      (VK_SHARING_MODE_CONCURRENT, 2, some [graphicsFamily, presentFamily])
    else (VK_SHARING_MODE_EXCLUSIVE, 0, none)
  ⟨app.surface, requestedImageCount swapChainSupport.capabilities, surfaceFormat.format,
   surfaceFormat.colorSpace, (chooseSwapExtent drv app swapChainSupport.capabilities).1, 1,
   VK_IMAGE_USAGE_COLOR_ATTACHMENT_BIT, sharing.1, sharing.2.1, sharing.2.2,
   swapChainSupport.capabilities.currentTransform, VK_COMPOSITE_ALPHA_OPAQUE_BIT_KHR,
   chooseSwapPresentMode swapChainSupport.presentModes, VK_TRUE, VK_NULL_HANDLE⟩

/-- The calls `createSwapChain` issues before it asks for the swap chain. -/
def swapChainQueryCalls (drv : Driver) (app : App) : List VkCall :=
  (querySwapChainSupport drv app app.physicalDevice).2 ++
    (chooseSwapExtent drv app
      (querySwapChainSupport drv app app.physicalDevice).1.capabilities).2 ++
    (findQueueFamilies drv app app.physicalDevice).2

/-- The six kinds of Vulkan objects the application owns. -/
inductive Resource where
  | vkInstance
  | debugMessenger
  | surface
  | device
  | swapChain
  | imageView
  deriving DecidableEq, Repr

/-- The kind of object a creation call asks for, if the call is a creation call for one of
the six kinds. -/
def VkCall.acquires : VkCall → Option Resource
  | .vkCreateInstance _ => some .vkInstance
  | .vkCreateDebugUtilsMessengerEXT _ _ => some .debugMessenger
  | .glfwCreateWindowSurface _ _ => some .surface
  | .vkCreateDevice _ _ => some .device
  | .vkCreateSwapchainKHR _ _ => some .swapChain
  | .vkCreateImageView _ _ => some .imageView
  | _ => none

/-- The kind of object a destruction call destroys, if the call destroys one of the six
kinds. -/
def VkCall.destroys : VkCall → Option Resource
  | .vkDestroyInstance _ => some .vkInstance
  | .vkDestroyDebugUtilsMessengerEXT _ _ => some .debugMessenger
  | .vkDestroySurfaceKHR _ _ => some .surface
  | .vkDestroyDevice _ => some .device
  | .vkDestroySwapchainKHR _ _ => some .swapChain
  | .vkDestroyImageView _ _ => some .imageView
  | _ => none

/-- A call that neither creates nor destroys one of the six kinds of objects. -/
def VkCall.isNeutral (c : VkCall) : Bool :=
  c.acquires.isNone && c.destroys.isNone

/-- The kinds of objects asked for by the creation calls of a log, in order. -/
def acquired (calls : List VkCall) : List Resource :=
  calls.filterMap VkCall.acquires

/-- The kinds of objects destroyed by the destruction calls of a log, in order. -/
def destroyed (calls : List VkCall) : List Resource :=
  calls.filterMap VkCall.destroys

/-- The create infos of the `vkCreateSwapchainKHR` calls of a log, in order. -/
def swapchainCreateInfos (calls : List VkCall) : List VkSwapchainCreateInfoKHR :=
  calls.filterMap (fun c =>
    match c with
    | .vkCreateSwapchainKHR _ createInfo => some createInfo
    | _ => none)

/-- The create infos of the `vkCreateDevice` calls of a log, in order. -/
def deviceCreateInfos (calls : List VkCall) : List VkDeviceCreateInfo :=
  calls.filterMap (fun c =>
    match c with
    | .vkCreateDevice _ createInfo => some createInfo
    | _ => none)

/-- The create info `createLogicDevice` passes to `vkCreateDevice`, as a function of the two
queue family indices. -/
def deviceCreateInfoOf (g : Globals) (graphicsFamily presentFamily : Nat) : VkDeviceCreateInfo :=
  ⟨(uniqueQueueFamiliesOf graphicsFamily presentFamily).map
      (fun queueFamily => ⟨queueFamily, 1, [(1 : Rat)]⟩),
   g.deviceExtensions, if g.enableValidationLayers then g.validationLayers else []⟩

/-- A driver whose single adapter reports `minImageCount = 2` and `maxImageCount = 2`. -/
def tightDriver : Driver :=
  mockDriver
    [⟨1, [(1, 1)], [VK_KHR_SWAPCHAIN_EXTENSION_NAME], ⟨2, 2, ⟨800, 600⟩, ⟨1, 1⟩, ⟨4096, 4096⟩, 1⟩,
      [⟨VK_FORMAT_B8G8R8A8_SRGB, VK_COLOR_SPACE_SRGB_NONLINEAR_KHR⟩], [VK_PRESENT_MODE_FIFO_KHR]⟩]
    (800, 600) [21, 22]

/-- An application object on which the adapter with handle `1` has been picked. -/
def pickedApp : App :=
  { App.fresh with physicalDevice := 1 }

/-- Writing the handles `hs` into a vector from position `i` on, one element at a time, as
the loop of `createImageViews` does. -/
def setFrom (views : List Nat) : Nat → List Nat → List Nat
  | _, [] => views
  | i, h :: hs => setFrom (views.set i h) (i + 1) hs

/-- An application object that holds three swap-chain images of format
`VK_FORMAT_B8G8R8A8_SRGB`. -/
def imagesApp : App :=
  { App.fresh with swapChainImages := [21, 22, 23], swapChainImageFormat := VK_FORMAT_B8G8R8A8_SRGB }

/-- A driver that refuses to create a view of image `22`. -/
def viewFailingDriver : Driver :=
  { driverWith [(1, 1)] with
    vkCreateImageView := fun _ createInfo =>
      if createInfo.image = 22 then (-1, 0) else (VK_SUCCESS, 100 + createInfo.image) }

/-- A driver on which everything succeeds up to the logical device and
`vkCreateSwapchainKHR` then fails. -/
def swapchainFailingDriver : Driver :=
  { driverWith [(1, 1)] with vkCreateSwapchainKHR := fun _ _ => (-1, 0) }

/-- A driver with one adapter (handle `1`) that has one queue family offering graphics and
presentation, the swap-chain extension, the single surface format `(37, 0)`
(`VK_FORMAT_R8G8B8A8_UNORM`, `VK_COLOR_SPACE_SRGB_NONLINEAR_KHR`) and the FIFO present mode. -/
def singleFormatDriver : Driver :=
  mockDriver
    [⟨1, [(VK_QUEUE_GRAPHICS_BIT, VK_TRUE)], [VK_KHR_SWAPCHAIN_EXTENSION_NAME], fixedCapabilities,
      [⟨37, VK_COLOR_SPACE_SRGB_NONLINEAR_KHR⟩], [VK_PRESENT_MODE_FIFO_KHR]⟩]
    (800, 600) [21, 22, 23]

/-- The extension requirement in the words of the specification: every name in
`requiredExtensions` appears in the adapter's list of supported extensions. -/
def requiredExtensionsPresent (availableExtensions requiredExtensions : List String) : Bool :=
  requiredExtensions.all (fun name => availableExtensions.contains name)

/-- The object, kind and handle, that a creation call hands out: the handle is the one the
driver answers for the arguments of the call. -/
def VkCall.creates (drv : Driver) : VkCall → Option (Resource × Nat)
  | .vkCreateInstance createInfo => some (.vkInstance, (drv.vkCreateInstance createInfo).2)
  | .vkCreateDebugUtilsMessengerEXT inst createInfo =>
    some (.debugMessenger, (drv.vkCreateDebugUtilsMessengerEXT inst createInfo).2)
  | .glfwCreateWindowSurface inst window =>
    some (.surface, (drv.glfwCreateWindowSurface inst window).2)
  | .vkCreateDevice physicalDevice createInfo =>
    some (.device, (drv.vkCreateDevice physicalDevice createInfo).2)
  | .vkCreateSwapchainKHR device createInfo =>
    some (.swapChain, (drv.vkCreateSwapchainKHR device createInfo).2)
  | .vkCreateImageView device createInfo =>
    some (.imageView, (drv.vkCreateImageView device createInfo).2)
  | _ => none

/-- The object, kind and handle, that a destruction call destroys. -/
def VkCall.destroysObject : VkCall → Option (Resource × Nat)
  | .vkDestroyInstance inst => some (.vkInstance, inst)
  | .vkDestroyDebugUtilsMessengerEXT _ debugMessenger => some (.debugMessenger, debugMessenger)
  | .vkDestroySurfaceKHR _ surface => some (.surface, surface)
  | .vkDestroyDevice device => some (.device, device)
  | .vkDestroySwapchainKHR _ swapChain => some (.swapChain, swapChain)
  | .vkDestroyImageView _ imageView => some (.imageView, imageView)
  | _ => none

/-- The objects handed out by the creation calls of a log, in order. -/
def createdObjects (drv : Driver) (calls : List VkCall) : List (Resource × Nat) :=
  calls.filterMap (VkCall.creates drv)

/-- The objects destroyed by the destruction calls of a log, in order. -/
def destroyedObjects (calls : List VkCall) : List (Resource × Nat) :=
  calls.filterMap VkCall.destroysObject

/-- The two assignments of one loop iteration of `findQueueFamilies` at index `i`. -/
def visitFamily (presentSupport : VkBool32) (queueFamily : VkQueueFamilyProperties) (i : Nat)
    (indices : QueueFamilyIndices) : QueueFamilyIndices :=
  let indices : QueueFamilyIndices :=
    if queueFamily.queueFlags &&& VK_QUEUE_GRAPHICS_BIT ≠ 0 then
      { indices with graphicsFamily := some i }
    else indices
  if presentSupport ≠ 0 then { indices with presentFamily := some i } else indices

/-- Position `j` of a vector of queue families holds a family with the graphics bit set. -/
def graphicsIn (l : List VkQueueFamilyProperties) (j : Nat) : Prop :=
  ∃ q, l[j]? = some q ∧ q.queueFlags &&& VK_QUEUE_GRAPHICS_BIT ≠ 0

/-- Family `j` of the vector `findQueueFamilies` iterates over has the graphics bit set. -/
def graphicsCapable (drv : Driver) (device : VkPhysicalDevice) (j : Nat) : Prop :=
  graphicsIn (queueFamiliesOf drv device) j

/-- Index `j` is a position of the vector and the driver answers that family `j` of the
device can present to the surface of the application. -/
def presentCapable (drv : Driver) (app : App) (device : VkPhysicalDevice) (j : Nat) : Prop :=
  j < (queueFamiliesOf drv device).length ∧
    drv.vkGetPhysicalDeviceSurfaceSupportKHR device j app.surface ≠ 0

/-! ## Properties of `findQueueFamilies` -/

section FindQueueFamilies

variable (drv : Driver) (app : App) (device : VkPhysicalDevice)

theorem findQueueFamiliesLoop_cons (q : VkQueueFamilyProperties)
    (rest : List VkQueueFamilyProperties) (i : Nat) (ind : QueueFamilyIndices) :
    (findQueueFamiliesLoop drv app device (q :: rest) i ind).1 =
      if (visitFamily (drv.vkGetPhysicalDeviceSurfaceSupportKHR device i app.surface) q i ind).isComplete
      then visitFamily (drv.vkGetPhysicalDeviceSurfaceSupportKHR device i app.surface) q i ind
      else (findQueueFamiliesLoop drv app device rest (i + 1)
        (visitFamily (drv.vkGetPhysicalDeviceSurfaceSupportKHR device i app.surface) q i ind)).1 := by
  simp only [findQueueFamiliesLoop, visitFamily, apply_ite Prod.fst]

theorem findQueueFamiliesLoop_snoc (l : List VkQueueFamilyProperties) (q : VkQueueFamilyProperties) :
    ∀ (i : Nat) (ind : QueueFamilyIndices), ind.isComplete = false →
    (findQueueFamiliesLoop drv app device (l ++ [q]) i ind).1 =
      if (findQueueFamiliesLoop drv app device l i ind).1.isComplete
      then (findQueueFamiliesLoop drv app device l i ind).1
      else visitFamily (drv.vkGetPhysicalDeviceSurfaceSupportKHR device (i + l.length) app.surface)
        q (i + l.length) (findQueueFamiliesLoop drv app device l i ind).1 := by
  induction l with
  | nil =>
    intro i ind h
    rw [List.nil_append, findQueueFamiliesLoop_cons]
    simp [findQueueFamiliesLoop, h]
  | cons x xs ih =>
    intro i ind h
    rw [List.cons_append, findQueueFamiliesLoop_cons, findQueueFamiliesLoop_cons]
    by_cases hc : (visitFamily (drv.vkGetPhysicalDeviceSurfaceSupportKHR device i app.surface)
        x i ind).isComplete = true
    · simp [hc]
    · rw [if_neg hc, if_neg hc, ih (i + 1) _ (by simpa using hc)]
      simp only [List.length_cons]
      have e : i + 1 + xs.length = i + (xs.length + 1) := by omega
      rw [e]

theorem graphicsIn_lt {l : List VkQueueFamilyProperties} {j : Nat} (h : graphicsIn l j) :
    j < l.length := by
  obtain ⟨q, hq, _⟩ := h
  by_contra hlt
  rw [List.getElem?_eq_none (by omega)] at hq
  cases hq

theorem graphicsIn_snoc (l : List VkQueueFamilyProperties) (x : VkQueueFamilyProperties) (j : Nat) :
    graphicsIn (l ++ [x]) j ↔
      graphicsIn l j ∨ (j = l.length ∧ x.queueFlags &&& VK_QUEUE_GRAPHICS_BIT ≠ 0) := by
  unfold graphicsIn
  rcases Nat.lt_trichotomy j l.length with h | h | h
  · rw [List.getElem?_append_left h]
    constructor
    · intro hq; exact Or.inl hq
    · rintro (hq | ⟨e, _⟩)
      · exact hq
      · omega
  · subst h
    simp
  · rw [List.getElem?_eq_none (by simp; omega), List.getElem?_eq_none (by omega)]
    constructor
    · rintro ⟨q, hq, _⟩; cases hq
    · rintro (⟨q, hq, _⟩ | ⟨e, _⟩)
      · cases hq
      · omega

theorem visitFamily_graphicsFamily (s : VkBool32) (x : VkQueueFamilyProperties) (i : Nat)
    (r : QueueFamilyIndices) :
    (visitFamily s x i r).graphicsFamily =
      if x.queueFlags &&& VK_QUEUE_GRAPHICS_BIT ≠ 0 then some i else r.graphicsFamily := by
  unfold visitFamily
  split_ifs <;> rfl

theorem visitFamily_presentFamily (s : VkBool32) (x : VkQueueFamilyProperties) (i : Nat)
    (r : QueueFamilyIndices) :
    (visitFamily s x i r).presentFamily = if s ≠ 0 then some i else r.presentFamily := by
  unfold visitFamily
  split_ifs <;> rfl

theorem isComplete_iff (r : QueueFamilyIndices) :
    r.isComplete = true ↔ ∃ g p, r.graphicsFamily = some g ∧ r.presentFamily = some p := by
  obtain ⟨rg, rp⟩ := r
  cases rg <;> cases rp <;> simp [QueueFamilyIndices.isComplete]

theorem isComplete_false_iff (r : QueueFamilyIndices) :
    ¬ r.isComplete = true ↔ r.graphicsFamily = none ∨ r.presentFamily = none := by
  obtain ⟨rg, rp⟩ := r
  cases rg <;> cases rp <;> simp [QueueFamilyIndices.isComplete]

/-- What the loop of `findQueueFamilies` has established after a whole vector `l`, started
at index `0` with both optionals empty. -/
theorem findQueueFamiliesLoop_spec (l : List VkQueueFamilyProperties) :
    (∀ g, (findQueueFamiliesLoop drv app device l 0 ⟨none, none⟩).1.graphicsFamily = some g →
      graphicsIn l g ∧
      (∀ j, j < g → graphicsIn l j →
        ∀ p, p < g → drv.vkGetPhysicalDeviceSurfaceSupportKHR device p app.surface = 0) ∧
      (∀ j, g < j → graphicsIn l j →
        ∃ p, p < j ∧ drv.vkGetPhysicalDeviceSurfaceSupportKHR device p app.surface ≠ 0)) ∧
    (∀ p, (findQueueFamiliesLoop drv app device l 0 ⟨none, none⟩).1.presentFamily = some p →
      (p < l.length ∧ drv.vkGetPhysicalDeviceSurfaceSupportKHR device p app.surface ≠ 0) ∧
      (∀ j, j < p → drv.vkGetPhysicalDeviceSurfaceSupportKHR device j app.surface ≠ 0 →
        ∀ g, g < p → ¬ graphicsIn l g) ∧
      (∀ j, p < j → j < l.length →
        drv.vkGetPhysicalDeviceSurfaceSupportKHR device j app.surface ≠ 0 →
        ∃ g, g < j ∧ graphicsIn l g)) ∧
    ((findQueueFamiliesLoop drv app device l 0 ⟨none, none⟩).1.graphicsFamily = none →
      ∀ j, ¬ graphicsIn l j) ∧
    ((findQueueFamiliesLoop drv app device l 0 ⟨none, none⟩).1.presentFamily = none →
      ∀ j, j < l.length → drv.vkGetPhysicalDeviceSurfaceSupportKHR device j app.surface = 0) := by
  induction l using List.reverseRecOn with
  | nil =>
    refine ⟨?_, ?_, ?_, ?_⟩
    · intro g h; simp [findQueueFamiliesLoop] at h
    · intro p h; simp [findQueueFamiliesLoop] at h
    · intro _ j hj; have := graphicsIn_lt hj; simp at this
    · intro _ j hj; simp at hj
  | append_singleton l x ih =>
    obtain ⟨ihA, ihB, ihC, ihD⟩ := ih
    rw [findQueueFamiliesLoop_snoc drv app device l x 0 ⟨none, none⟩ rfl]
    simp only [Nat.zero_add, List.length_append, List.length_singleton]
    generalize (findQueueFamiliesLoop drv app device l 0 ⟨none, none⟩).1 = r at ihA ihB ihC ihD ⊢
    have hsn := graphicsIn_snoc l x
    have hlt : ∀ j, graphicsIn l j → j < l.length := fun j h => graphicsIn_lt h
    have hold : ∀ j, j ≠ l.length → graphicsIn (l ++ [x]) j → graphicsIn l j := by
      intro j hj h
      rcases (hsn j).1 h with h | ⟨e, _⟩
      · exact h
      · exact absurd e hj
    by_cases hc : r.isComplete = true
    · -- both indices were set before the last family: it is not visited
      rw [if_pos hc]
      obtain ⟨g0, p0, hg0, hp0⟩ := (isComplete_iff r).1 hc
      obtain ⟨ag, a2, a3⟩ := ihA g0 hg0
      obtain ⟨⟨bl, bs⟩, b2, b3⟩ := ihB p0 hp0
      have hg0lt := hlt g0 ag
      refine ⟨?_, ?_, ?_, ?_⟩
      · intro g hg
        rw [hg0] at hg
        cases hg
        refine ⟨(hsn g0).2 (Or.inl ag), ?_, ?_⟩
        · intro j hj hGj
          exact a2 j hj (hold j (by omega) hGj)
        · intro j hj hGj
          rcases (hsn j).1 hGj with h | ⟨e, _⟩
          · exact a3 j hj h
          · exact ⟨p0, by omega, bs⟩
      · intro p hp
        rw [hp0] at hp
        cases hp
        refine ⟨⟨by omega, bs⟩, ?_, ?_⟩
        · intro j hj hSj g hg hGg
          exact b2 j hj hSj g hg (hold g (by omega) hGg)
        · intro j hj hjn hSj
          by_cases hjl : j < l.length
          · obtain ⟨g, hg, hGg⟩ := b3 j hj hjl hSj
            exact ⟨g, hg, (hsn g).2 (Or.inl hGg)⟩
          · exact ⟨g0, by omega, (hsn g0).2 (Or.inl ag)⟩
      · intro hn; rw [hg0] at hn; cases hn
      · intro hn; rw [hp0] at hn; cases hn
    · -- the last family is visited
      rw [if_neg hc]
      have hinc := (isComplete_false_iff r).1 hc
      refine ⟨?_, ?_, ?_, ?_⟩
      · intro g hg
        rw [visitFamily_graphicsFamily] at hg
        by_cases hx : x.queueFlags &&& VK_QUEUE_GRAPHICS_BIT ≠ 0
        · rw [if_pos hx] at hg
          cases hg
          refine ⟨(hsn _).2 (Or.inr ⟨rfl, hx⟩), ?_, ?_⟩
          · intro j hj hGj p hp
            have hGl := hold j (by omega) hGj
            rcases hinc with hn | hn
            · exact absurd hGl (ihC hn j)
            · exact ihD hn p hp
          · intro j hj hGj
            rcases (hsn j).1 hGj with h | ⟨e, _⟩
            · have := hlt j h; omega
            · omega
        · rw [if_neg hx] at hg
          obtain ⟨ag, a2, a3⟩ := ihA g hg
          have hglt := hlt g ag
          refine ⟨(hsn g).2 (Or.inl ag), ?_, ?_⟩
          · intro j hj hGj
            exact a2 j hj (hold j (by omega) hGj)
          · intro j hj hGj
            rcases (hsn j).1 hGj with h | ⟨_, e⟩
            · exact a3 j hj h
            · exact absurd e hx
      · intro p hp
        rw [visitFamily_presentFamily] at hp
        by_cases hs : drv.vkGetPhysicalDeviceSurfaceSupportKHR device l.length app.surface ≠ 0
        · rw [if_pos hs] at hp
          cases hp
          refine ⟨⟨by omega, hs⟩, ?_, ?_⟩
          · intro j hj hSj g hg hGg
            have hGl := hold g (by omega) hGg
            rcases hinc with hn | hn
            · exact ihC hn g hGl
            · exact hSj (ihD hn j hj)
          · intro j hj hjn; omega
        · rw [if_neg hs] at hp
          obtain ⟨⟨bl, bs⟩, b2, b3⟩ := ihB p hp
          refine ⟨⟨by omega, bs⟩, ?_, ?_⟩
          · intro j hj hSj g hg hGg
            exact b2 j hj hSj g hg (hold g (by omega) hGg)
          · intro j hj hjn hSj
            by_cases hjl : j < l.length
            · obtain ⟨g, hg, hGg⟩ := b3 j hj hjl hSj
              exact ⟨g, hg, (hsn g).2 (Or.inl hGg)⟩
            · have e : j = l.length := by omega
              rw [e] at hSj
              exact absurd hSj hs
      · intro hn j hGj
        rw [visitFamily_graphicsFamily] at hn
        by_cases hx : x.queueFlags &&& VK_QUEUE_GRAPHICS_BIT ≠ 0
        · rw [if_pos hx] at hn; cases hn
        · rw [if_neg hx] at hn
          rcases (hsn j).1 hGj with h | ⟨_, e⟩
          · exact ihC hn j h
          · exact hx e
      · intro hn j hj
        rw [visitFamily_presentFamily] at hn
        by_cases hs : drv.vkGetPhysicalDeviceSurfaceSupportKHR device l.length app.surface ≠ 0
        · rw [if_pos hs] at hn; cases hn
        · rw [if_neg hs] at hn
          by_cases hjl : j < l.length
          · exact ihD hn j hjl
          · have e : j = l.length := by omega
            rw [e]
            exact not_not.1 hs

theorem findQueueFamilies_fst :
    (findQueueFamilies drv app device).1 =
      (findQueueFamiliesLoop drv app device (queueFamiliesOf drv device) 0 ⟨none, none⟩).1 := rfl

theorem presentCapable_lt {j : Nat} (h : presentCapable drv app device j) :
    j < (queueFamiliesOf drv device).length := h.1

/-- C1, as amended: when `findQueueFamilies` returns a `presentFamily` `p`, family `p` supports
presentation; `p` is the lowest index supporting presentation unless no family below `p` is
graphics-capable (the assignment is unconditional, so `presentFamily` moves on to each later
presentation-capable family until a graphics-capable family has been seen); and every
presentation-capable family after `p` lies after a graphics-capable one, that is, after the
point where the loop is left. -/
theorem findQueueFamilies_presentFamily (p : Nat)
    (h : (findQueueFamilies drv app device).1.presentFamily = some p) :
    presentCapable drv app device p ∧
    ((∀ j, presentCapable drv app device j → p ≤ j) ∨
      (∀ g, g < p → ¬ graphicsCapable drv device g)) ∧
    (∀ j, p < j → presentCapable drv app device j →
      ∃ g, g < j ∧ graphicsCapable drv device g) := by
  rw [findQueueFamilies_fst] at h
  obtain ⟨b1, b2, b3⟩ := (findQueueFamiliesLoop_spec drv app device (queueFamiliesOf drv device)).2.1 p h
  refine ⟨b1, ?_, ?_⟩
  · by_cases hex : ∃ j, j < p ∧ presentCapable drv app device j
    · obtain ⟨j, hj, hP⟩ := hex
      exact Or.inr (b2 j hj hP.2)
    · left
      intro j hP
      by_contra hlt
      exact hex ⟨j, by omega, hP⟩
  · intro j hj hP
    exact b3 j hj hP.1 hP.2

/-- C2, as amended: when `findQueueFamilies` returns a `graphicsFamily` `g`, family `g` has the
graphics bit; `g` is the lowest graphics-capable index unless no family below `g` supports
presentation (the assignment is unconditional, so `graphicsFamily` is overwritten by each
later graphics-capable family until a presentation-capable family has been seen); and every
graphics-capable family after `g` lies after a presentation-capable one. -/
theorem findQueueFamilies_graphicsFamily (g : Nat)
    (h : (findQueueFamilies drv app device).1.graphicsFamily = some g) :
    graphicsCapable drv device g ∧
    ((∀ j, graphicsCapable drv device j → g ≤ j) ∨
      (∀ p, p < g → ¬ presentCapable drv app device p)) ∧
    (∀ j, g < j → graphicsCapable drv device j →
      ∃ p, p < j ∧ presentCapable drv app device p) := by
  rw [findQueueFamilies_fst] at h
  obtain ⟨a1, a2, a3⟩ := (findQueueFamiliesLoop_spec drv app device (queueFamiliesOf drv device)).1 g h
  refine ⟨a1, ?_, ?_⟩
  · by_cases hex : ∃ j, j < g ∧ graphicsCapable drv device j
    · obtain ⟨j, hj, hG⟩ := hex
      right
      intro p hp hP
      exact hP.2 (a2 j hj hG p hp)
    · left
      intro j hG
      by_contra hlt
      exact hex ⟨j, by omega, hG⟩
  · intro j hj hG
    obtain ⟨p, hp, hS⟩ := a3 j hj hG
    exact ⟨p, hp, by have := graphicsIn_lt hG; omega, hS⟩

/-- C3: when no single family has both graphics and presentation support, but some family
has graphics and some family supports presentation, `findQueueFamilies` returns a complete
result whose two indices differ. -/
theorem findQueueFamilies_separate_families
    (hno : ∀ j, ¬ (graphicsCapable drv device j ∧ presentCapable drv app device j))
    (hg : ∃ j, graphicsCapable drv device j) (hp : ∃ j, presentCapable drv app device j) :
    (findQueueFamilies drv app device).1.isComplete = true ∧
      (findQueueFamilies drv app device).1.graphicsFamily ≠
        (findQueueFamilies drv app device).1.presentFamily := by
  rw [findQueueFamilies_fst]
  obtain ⟨hA, hB, hC, hD⟩ := findQueueFamiliesLoop_spec drv app device (queueFamiliesOf drv device)
  obtain ⟨jg, hjg⟩ := hg
  obtain ⟨jp, hjp⟩ := hp
  generalize (findQueueFamiliesLoop drv app device (queueFamiliesOf drv device) 0 ⟨none, none⟩).1 = r
    at hA hB hC hD ⊢
  cases hrg : r.graphicsFamily with
  | none => exact absurd hjg (hC hrg jg)
  | some g =>
    cases hrp : r.presentFamily with
    | none => exact absurd (hD hrp jp hjp.1) hjp.2
    | some p =>
      refine ⟨(isComplete_iff r).2 ⟨g, p, hrg, hrp⟩, ?_⟩
      intro e
      cases e
      exact hno g ⟨(hA g hrg).1, (hB g hrp).1⟩

/-- C1, counterexample: with families 0 and 1 supporting presentation only and family 2
graphics only, `presentFamily` is re-assigned to index 1 although the lower index 0 supports
presentation. -/
theorem findQueueFamilies_presentFamily_reassigned :
    (findQueueFamilies (driverWith [(0, 1), (0, 1), (1, 0)]) App.fresh 1).1 = ⟨some 2, some 1⟩ ∧
    presentCapable (driverWith [(0, 1), (0, 1), (1, 0)]) App.fresh 1 0 := by
  refine ⟨by decide, ?_⟩
  unfold presentCapable
  decide

/-- C1, witness: two families that both offer graphics and presentation; index 0 is chosen. -/
theorem findQueueFamilies_presentFamily_witness :
    (findQueueFamilies (driverWith [(1, 1), (1, 1)]) App.fresh 1).1.presentFamily = some 0 ∧
    (presentCapable (driverWith [(1, 1), (1, 1)]) App.fresh 1 0 ∧
      ((∀ j, presentCapable (driverWith [(1, 1), (1, 1)]) App.fresh 1 j → 0 ≤ j) ∨
        (∀ g, g < 0 → ¬ graphicsCapable (driverWith [(1, 1), (1, 1)]) 1 g)) ∧
      (∀ j, 0 < j → presentCapable (driverWith [(1, 1), (1, 1)]) App.fresh 1 j →
        ∃ g, g < j ∧ graphicsCapable (driverWith [(1, 1), (1, 1)]) 1 g)) :=
  ⟨by decide,
   findQueueFamilies_presentFamily (driverWith [(1, 1), (1, 1)]) App.fresh 1 0 (by decide)⟩

/-- C2, counterexample: with families 0 and 1 graphics only and family 2 presentation only,
`graphicsFamily` is overwritten with index 1 although the lower index 0 has the graphics
bit. -/
theorem findQueueFamilies_graphicsFamily_overwritten :
    (findQueueFamilies (driverWith [(1, 0), (1, 0), (0, 1)]) App.fresh 1).1 = ⟨some 1, some 2⟩ ∧
    graphicsCapable (driverWith [(1, 0), (1, 0), (0, 1)]) 1 0 :=
  ⟨by decide, ⟨⟨1, 1⟩, by decide, by decide⟩⟩

/-- C2, witness: two families that both offer graphics and presentation; the loop is left at
index 0, which is the lowest graphics-capable index. -/
theorem findQueueFamilies_graphicsFamily_witness :
    (findQueueFamilies (driverWith [(1, 1), (1, 1)]) App.fresh 1).1.graphicsFamily = some 0 ∧
    (graphicsCapable (driverWith [(1, 1), (1, 1)]) 1 0 ∧
      ((∀ j, graphicsCapable (driverWith [(1, 1), (1, 1)]) 1 j → 0 ≤ j) ∨
        (∀ p, p < 0 → ¬ presentCapable (driverWith [(1, 1), (1, 1)]) App.fresh 1 p)) ∧
      (∀ j, 0 < j → graphicsCapable (driverWith [(1, 1), (1, 1)]) 1 j →
        ∃ p, p < j ∧ presentCapable (driverWith [(1, 1), (1, 1)]) App.fresh 1 p)) :=
  ⟨by decide,
   findQueueFamilies_graphicsFamily (driverWith [(1, 1), (1, 1)]) App.fresh 1 0 (by decide)⟩

/-- C3, witness: family 0 graphics only, family 1 presentation only. -/
theorem findQueueFamilies_separate_families_witness :
    (findQueueFamilies (driverWith [(1, 0), (0, 1)]) App.fresh 1).1.isComplete = true ∧
      (findQueueFamilies (driverWith [(1, 0), (0, 1)]) App.fresh 1).1.graphicsFamily ≠
        (findQueueFamilies (driverWith [(1, 0), (0, 1)]) App.fresh 1).1.presentFamily :=
  findQueueFamilies_separate_families (driverWith [(1, 0), (0, 1)]) App.fresh 1
    (by
      rintro j ⟨⟨q, hq, hflag⟩, hlt, hsup⟩
      have hj : j < 2 := hlt
      interval_cases j
      · exact hsup (by decide)
      · have e : q = ⟨0, 1⟩ := by
          have : (queueFamiliesOf (driverWith [(1, 0), (0, 1)]) 1)[1]? = some ⟨0, 1⟩ := by decide
          rw [this] at hq
          exact (Option.some.inj hq).symm
        subst e
        exact hflag (by decide))
    ⟨0, ⟨1, 1⟩, by decide, by decide⟩
    ⟨1, by decide, by decide⟩

end FindQueueFamilies

/-! ## Properties of adapter selection -/

section PickPhysicalDevice

variable (drv : Driver) (g : Globals) (app : App)

/-- The device the loop of `pickPhysicalDevice` leaves in `physicalDevice`: either no device
of the vector is suitable and the old value is kept, or it is the device at the lowest
suitable position. -/
theorem pickPhysicalDeviceLoop_spec (l : List VkPhysicalDevice) (pd : VkPhysicalDevice) :
    ((∀ d ∈ l, (isDeviceSuitable drv g app d).1 = false) ∧
        (pickPhysicalDeviceLoop drv g app l pd).1 = pd) ∨
    (∃ k, l[k]? = some (pickPhysicalDeviceLoop drv g app l pd).1 ∧
      (isDeviceSuitable drv g app (pickPhysicalDeviceLoop drv g app l pd).1).1 = true ∧
      ∀ (k' : Nat) (d' : VkPhysicalDevice), k' < k → l[k']? = some d' → (isDeviceSuitable drv g app d').1 = false) := by
  induction l with
  | nil => left; simp [pickPhysicalDeviceLoop]
  | cons x xs ih =>
    unfold pickPhysicalDeviceLoop
    by_cases hx : (isDeviceSuitable drv g app x).1 = true
    · right
      refine ⟨0, ?_, ?_, ?_⟩
      · simp [hx]
      · simp [hx]
      · intro k' d' hk; omega
    · simp only [hx, Bool.false_eq_true, if_false]
      rcases ih with ⟨hall, hpd⟩ | ⟨k, hk, hs, hbefore⟩
      · left
        refine ⟨?_, hpd⟩
        intro d hd
        rcases List.mem_cons.1 hd with e | hd
        · subst e; simpa using hx
        · exact hall d hd
      · right
        refine ⟨k + 1, by simpa using hk, hs, ?_⟩
        intro k' d' hk' hd'
        cases k' with
        | zero =>
          simp at hd'
          subst hd'
          simpa using hx
        | succ m =>
          exact hbefore m d' (by omega) (by simpa using hd')

/-- C4: on a non-empty enumeration of valid (non-null) adapter handles, starting from
`physicalDevice = VK_NULL_HANDLE`, `pickPhysicalDevice` returns normally exactly when some
adapter of the list is suitable; the adapter it stores is suitable and sits at a position
before which no adapter is suitable (so a later suitable adapter is never preferred); and it
throws "Failed to find a suitable GPU!" if and only if no adapter of the list is suitable. -/
theorem pickPhysicalDevice_first_suitable
    (hcount : (drv.vkEnumeratePhysicalDevices app.inst).count ≠ 0)
    (hfresh : app.physicalDevice = VK_NULL_HANDLE)
    (hvalid : ∀ d ∈ devicesOf drv app, d ≠ VK_NULL_HANDLE) :
    (∀ app', pickPhysicalDevice drv g app = .ok app' →
      ∃ k, (devicesOf drv app)[k]? = some app'.physicalDevice ∧
        (isDeviceSuitable drv g app app'.physicalDevice).1 = true ∧
        ∀ (k' : Nat) (d' : VkPhysicalDevice), k' < k → (devicesOf drv app)[k']? = some d' →
          (isDeviceSuitable drv g app d').1 = false) ∧
    ((∃ d ∈ devicesOf drv app, (isDeviceSuitable drv g app d).1 = true) →
      ∃ app', pickPhysicalDevice drv g app = .ok app') ∧
    ((∃ app', pickPhysicalDevice drv g app = .thrown "Failed to find a suitable GPU!" app') ↔
      ∀ d ∈ devicesOf drv app, (isDeviceSuitable drv g app d).1 = false) := by
  have hspec := pickPhysicalDeviceLoop_spec drv g app (devicesOf drv app) app.physicalDevice
  unfold pickPhysicalDevice
  simp only [hcount, if_false]
  generalize hr : pickPhysicalDeviceLoop drv g app (devicesOf drv app) app.physicalDevice = r
    at hspec
  rcases hspec with ⟨hall, hpd⟩ | ⟨k, hk, hs, hbefore⟩
  · have hnull : r.1 = VK_NULL_HANDLE := by rw [hpd, hfresh]
    simp only [hnull, if_true]
    refine ⟨?_, ?_, ?_⟩
    · intro app' h; cases h
    · rintro ⟨d, hd, hsd⟩
      rw [hall d hd] at hsd
      cases hsd
    · constructor
      · intro _; exact hall
      · intro _; exact ⟨_, rfl⟩
  · have hmem : r.1 ∈ devicesOf drv app := List.getElem?_mem hk
    have hnn : ¬ r.1 = VK_NULL_HANDLE := hvalid r.1 hmem
    simp only [hnn, if_false]
    refine ⟨?_, ?_, ?_⟩
    · intro app' h
      cases h
      exact ⟨k, hk, hs, hbefore⟩
    · intro _; exact ⟨_, rfl⟩
    · constructor
      · rintro ⟨app', h⟩; cases h
      · intro hall
        rw [hall r.1 hmem] at hs
        cases hs

/-- C4, witness: the first adapter is not suitable, the second one is. -/
theorem pickPhysicalDevice_first_suitable_witness :
    (twoAdapterDriver.vkEnumeratePhysicalDevices App.fresh.inst).count ≠ 0 ∧
    App.fresh.physicalDevice = VK_NULL_HANDLE ∧
    (∀ d ∈ devicesOf twoAdapterDriver App.fresh, d ≠ VK_NULL_HANDLE) ∧
    ∃ app', pickPhysicalDevice twoAdapterDriver (globals true) App.fresh = .ok app' :=
  ⟨by decide, rfl, by decide,
   (pickPhysicalDevice_first_suitable twoAdapterDriver (globals true) App.fresh
      (by decide) rfl (by decide)).2.1 ⟨2, by decide, by decide⟩⟩

theorem mem_log_calls (a : App) (cs : List VkCall) (c : VkCall) :
    c ∈ (a.log cs).calls ↔ c ∈ a.calls ∨ c ∈ cs := by
  simp [App.log]

theorem Outcome.app_ok (a : App) : (Outcome.ok a).app = a := rfl

theorem Outcome.app_thrown (what : String) (a : App) : (Outcome.thrown what a).app = a := rfl

theorem createInstance_no_createDevice (a : App)
    (h : a.calls.all (fun c => !c.isCreateDevice) = true) :
    (createInstance drv g a).app.calls.all (fun c => !c.isCreateDevice) = true := by
  unfold createInstance
  simp only [checkValidationLayerSupport, getRequiredExtensions]
  simp only [apply_ite Outcome.app, Outcome.app_ok, Outcome.app_thrown, ite_self]
  try split_ifs
  all_goals simp [App.log, List.all_append, h]
  all_goals try simp [VkCall.isCreateDevice]

theorem setupDebugMessenger_no_createDevice (a : App)
    (h : a.calls.all (fun c => !c.isCreateDevice) = true) :
    (setupDebugMessenger drv g a).app.calls.all (fun c => !c.isCreateDevice) = true := by
  unfold setupDebugMessenger CreateDebugUtilsMessengerEXT
  simp only [apply_ite Outcome.app, Outcome.app_ok, Outcome.app_thrown, ite_self]
  try split_ifs
  all_goals simp [App.log, List.all_append, h]
  all_goals try simp [VkCall.isCreateDevice]

theorem createSurface_no_createDevice (a : App)
    (h : a.calls.all (fun c => !c.isCreateDevice) = true) :
    (createSurface drv a).app.calls.all (fun c => !c.isCreateDevice) = true := by
  unfold createSurface
  simp only [apply_ite Outcome.app, Outcome.app_ok, Outcome.app_thrown, ite_self]
  try split_ifs
  all_goals simp [App.log, List.all_append, h]
  all_goals try simp [VkCall.isCreateDevice]

/-- C5: when adapter enumeration reports zero adapters, `pickPhysicalDevice` throws
"Could not find GPUs with Vulkan support!" after the counting call alone; `initVulkan`, started
on a state whose log holds no `vkCreateDevice` call, then issues no `vkCreateDevice` call and
does not return normally; and when the three steps before `pickPhysicalDevice` succeed,
`initVulkan` ends with exactly that exception. -/
theorem pickPhysicalDevice_no_adapters
    (hzero : ∀ inst, (drv.vkEnumeratePhysicalDevices inst).count = 0) :
    (∀ a : App, pickPhysicalDevice drv g a =
      .thrown "Could not find GPUs with Vulkan support!"
        (a.log [.vkEnumeratePhysicalDevices a.inst false])) ∧
    (∀ a : App, (∀ pd ci, VkCall.vkCreateDevice pd ci ∉ a.calls) →
      (∀ pd ci, VkCall.vkCreateDevice pd ci ∉ (initVulkan drv g a).app.calls) ∧
      ∀ a', initVulkan drv g a ≠ .ok a') ∧
    (∀ a a1 a2 a3 : App, createInstance drv g a = .ok a1 →
      setupDebugMessenger drv g a1 = .ok a2 → createSurface drv a2 = .ok a3 →
      initVulkan drv g a =
        .thrown "Could not find GPUs with Vulkan support!"
          (a3.log [.vkEnumeratePhysicalDevices a3.inst false])) := by
  have hpick : ∀ a : App, pickPhysicalDevice drv g a =
      .thrown "Could not find GPUs with Vulkan support!"
        (a.log [.vkEnumeratePhysicalDevices a.inst false]) := by
    intro a
    unfold pickPhysicalDevice
    simp [hzero]
  have hchain : ∀ a a1 a2 a3 : App, createInstance drv g a = .ok a1 →
      setupDebugMessenger drv g a1 = .ok a2 → createSurface drv a2 = .ok a3 →
      initVulkan drv g a =
        .thrown "Could not find GPUs with Vulkan support!"
          (a3.log [.vkEnumeratePhysicalDevices a3.inst false]) := by
    intro a a1 a2 a3 h1 h2 h3
    unfold initVulkan
    rw [h1]
    simp only [Outcome.andThen]
    rw [h2]
    simp only [Outcome.andThen]
    rw [h3]
    simp only [Outcome.andThen]
    rw [hpick]
  refine ⟨hpick, ?_, hchain⟩
  intro a ha
  have ha' : a.calls.all (fun c => !c.isCreateDevice) = true := by
    rw [List.all_eq_true]
    intro c hc
    cases c <;> first | rfl | exact absurd hc (ha _ _)
  have key : (initVulkan drv g a).app.calls.all (fun c => !c.isCreateDevice) = true ∧
      ∀ a', initVulkan drv g a ≠ .ok a' := by
    have c1 := createInstance_no_createDevice drv g a ha'
    cases h1 : createInstance drv g a with
    | ok a1 =>
      rw [h1, Outcome.app_ok] at c1
      have c2 := setupDebugMessenger_no_createDevice drv g a1 c1
      cases h2 : setupDebugMessenger drv g a1 with
      | ok a2 =>
        rw [h2, Outcome.app_ok] at c2
        have c3 := createSurface_no_createDevice drv a2 c2
        cases h3 : createSurface drv a2 with
        | ok a3 =>
          rw [h3, Outcome.app_ok] at c3
          rw [hchain a a1 a2 a3 h1 h2 h3]
          refine ⟨?_, fun a' h => by cases h⟩
          simp only [Outcome.app_thrown, App.log, List.all_append, c3, Bool.true_and]
          rfl
        | thrown w a3 | undefinedBehaviour a3 | diverges a3 =>
          rw [h3] at c3
          have e : initVulkan drv g a = createSurface drv a2 := by
            unfold initVulkan
            rw [h1]; simp only [Outcome.andThen]
            rw [h2]; simp only [Outcome.andThen]
            rw [h3]
          rw [e, h3]
          exact ⟨c3, fun a' h => by cases h⟩
      | thrown w a2 | undefinedBehaviour a2 | diverges a2 =>
        rw [h2] at c2
        have e : initVulkan drv g a = setupDebugMessenger drv g a1 := by
          unfold initVulkan
          rw [h1]; simp only [Outcome.andThen]
          rw [h2]
        rw [e, h2]
        exact ⟨c2, fun a' h => by cases h⟩
    | thrown w a1 | undefinedBehaviour a1 | diverges a1 =>
      rw [h1] at c1
      have e : initVulkan drv g a = createInstance drv g a := by
        unfold initVulkan
        rw [h1]; simp only [Outcome.andThen]
      rw [e, h1]
      exact ⟨c1, fun a' h => by cases h⟩
  refine ⟨?_, key.2⟩
  intro pd ci hmem
  have := (List.all_eq_true.1 key.1) _ hmem
  simp [VkCall.isCreateDevice] at this

/-- C5, witness: a driver that enumerates no adapter. -/
theorem pickPhysicalDevice_no_adapters_witness :
    (∀ inst, (noAdapterDriver.vkEnumeratePhysicalDevices inst).count = 0) ∧
    (∀ pd ci, VkCall.vkCreateDevice pd ci ∉
      (initVulkan noAdapterDriver (globals true) App.fresh).app.calls) :=
  ⟨fun _ => rfl,
   ((pickPhysicalDevice_no_adapters noAdapterDriver (globals true) (fun _ => rfl)).2.1 App.fresh
      (by intro pd ci h; cases h)).1⟩

end PickPhysicalDevice

/-! ## Properties of the suitability test -/

section IsDeviceSuitable

variable (drv : Driver) (g : Globals) (app : App) (device : VkPhysicalDevice)

/-- Erasing every available name from a duplicate-free list of required names leaves exactly
the required names that are not available. -/
theorem mem_foldl_erase (available : List String) :
    ∀ (required : List String), required.Nodup → ∀ x,
      (x ∈ available.foldl (fun required extension => required.erase extension) required ↔
        x ∈ required ∧ x ∉ available) := by
  induction available with
  | nil => intro required _ x; simp
  | cons a rest ih =>
    intro required hnd x
    rw [List.foldl_cons, ih (required.erase a) (hnd.erase a) x, hnd.mem_erase_iff]
    simp only [List.mem_cons, not_or]
    tauto

theorem checkDeviceExtensionSupport_iff :
    (checkDeviceExtensionSupport drv g device).1 = true ↔
      ∀ name ∈ g.deviceExtensions, name ∈ availableExtensionsOf drv device := by
  unfold checkDeviceExtensionSupport
  simp only [List.isEmpty_iff, List.eq_nil_iff_forall_not_mem]
  constructor
  · intro h name hname
    by_contra hn
    exact h name ((mem_foldl_erase _ _ (List.nodup_dedup _) name).2 ⟨List.mem_dedup.2 hname, hn⟩)
  · intro h name hmem
    obtain ⟨hreq, hn⟩ := (mem_foldl_erase _ _ (List.nodup_dedup _) name).1 hmem
    exact hn (h name (List.mem_dedup.1 hreq))

theorem findQueueFamiliesLoop_calls (l : List VkQueueFamilyProperties) :
    ∀ (i : Nat) (ind : QueueFamilyIndices),
      ∀ c ∈ (findQueueFamiliesLoop drv app device l i ind).2, c.isSurfaceListQuery = false := by
  induction l with
  | nil => intro i ind c hc; simp [findQueueFamiliesLoop] at hc
  | cons q rest ih =>
    intro i ind c hc
    unfold findQueueFamiliesLoop at hc
    simp only at hc
    split_ifs at hc
    all_goals
      first
        | (rcases List.mem_singleton.1 hc with rfl; rfl)
        | (rcases List.mem_cons.1 hc with rfl | hc
           · rfl
           · exact ih _ _ c hc)

theorem findQueueFamilies_calls :
    ∀ c ∈ (findQueueFamilies drv app device).2, c.isSurfaceListQuery = false := by
  intro c hc
  unfold findQueueFamilies at hc
  simp only [List.mem_append, List.mem_cons, List.mem_singleton, List.not_mem_nil, or_false] at hc
  rcases hc with (rfl | rfl) | hc
  · rfl
  · rfl
  · exact findQueueFamiliesLoop_calls drv app device _ _ _ c hc

theorem length_writeInto {α : Type} (v items : List α) : (writeInto v items).length = v.length := by
  simp only [writeInto, List.length_append, List.length_take, List.length_drop]
  omega

theorem Enumeration.length_fill {α : Type} (zero : α) (e : Enumeration α) :
    (e.fill zero).length = e.count := by
  simp [Enumeration.fill, length_writeInto]

theorem Enumeration.fill_ne_nil_iff {α : Type} (zero : α) (e : Enumeration α) :
    e.fill zero ≠ [] ↔ e.count ≠ 0 := by
  rw [← Enumeration.length_fill zero e, ne_eq, ne_eq, List.length_eq_zero]

/-- C6: `isDeviceSuitable` answers true exactly when (a) `findQueueFamilies` is complete, (b)
every name of `deviceExtensions` occurs among the adapter's extension names and (c) the
surface-format list and the present-mode list obtained for the surface are both non-empty,
that is, the driver reports a non-zero count for each; and a surface-format or present-mode
query is issued exactly when (b) holds. -/
theorem isDeviceSuitable_iff :
    ((isDeviceSuitable drv g app device).1 = true ↔
      (findQueueFamilies drv app device).1.isComplete = true ∧
      (∀ name ∈ g.deviceExtensions, name ∈ availableExtensionsOf drv device) ∧
      ((querySwapChainSupport drv app device).1.formats ≠ [] ∧
        (querySwapChainSupport drv app device).1.presentModes ≠ [])) ∧
    ((∃ c ∈ (isDeviceSuitable drv g app device).2, c.isSurfaceListQuery = true) ↔
      ∀ name ∈ g.deviceExtensions, name ∈ availableExtensionsOf drv device) ∧
    (((querySwapChainSupport drv app device).1.formats ≠ [] ↔
        (drv.vkGetPhysicalDeviceSurfaceFormatsKHR device app.surface).count ≠ 0) ∧
      ((querySwapChainSupport drv app device).1.presentModes ≠ [] ↔
        (drv.vkGetPhysicalDeviceSurfacePresentModesKHR device app.surface).count ≠ 0)) := by
  refine and_assoc.1 ⟨?_, ?_⟩
  swap
  · unfold querySwapChainSupport
    constructor
    · by_cases hc : (drv.vkGetPhysicalDeviceSurfaceFormatsKHR device app.surface).count = 0
      · simp [hc]
      · simp only [ne_eq, hc, not_false_eq_true, if_true, iff_true]
        exact (Enumeration.fill_ne_nil_iff _ _).2 hc
    · by_cases hc : (drv.vkGetPhysicalDeviceSurfacePresentModesKHR device app.surface).count = 0
      · simp [hc]
      · simp only [ne_eq, hc, not_false_eq_true, if_true, iff_true]
        exact (Enumeration.fill_ne_nil_iff _ _).2 hc
  have hb := checkDeviceExtensionSupport_iff drv g device
  have hq := findQueueFamilies_calls drv app device
  unfold isDeviceSuitable
  by_cases he : (checkDeviceExtensionSupport drv g device).1 = true
  · have hall := hb.1 he
    simp only [he, if_true, Bool.and_true, Bool.and_eq_true, Bool.not_eq_true',
      List.isEmpty_eq_false, ne_eq]
    refine ⟨?_, ?_⟩
    · constructor
      · rintro ⟨h1, h2, h3⟩
        exact ⟨h1, hall, h2, h3⟩
      · rintro ⟨h1, _, h2, h3⟩
        exact ⟨h1, h2, h3⟩
    · constructor
      · intro _; exact hall
      · intro _
        refine ⟨.vkGetPhysicalDeviceSurfaceFormatsKHR device app.surface false, ?_, rfl⟩
        simp [querySwapChainSupport]
  · have hnall : ¬ ∀ name ∈ g.deviceExtensions, name ∈ availableExtensionsOf drv device :=
      fun h => he (hb.2 h)
    simp only [he, Bool.false_eq_true, if_false, Bool.and_false, List.append_nil]
    refine ⟨?_, ?_⟩
    · constructor
      · intro h; cases h
      · rintro ⟨_, h, _⟩; exact absurd h hnall
    · constructor
      · rintro ⟨c, hc, hcq⟩
        rcases List.mem_append.1 hc with hc | hc
        · rw [hq c hc] at hcq; cases hcq
        · unfold checkDeviceExtensionSupport at hc
          simp only [List.mem_cons, List.mem_singleton, List.not_mem_nil, or_false] at hc
          rcases hc with rfl | rfl <;> cases hcq
      · intro h; exact absurd h hnall

end IsDeviceSuitable

/-! ## Properties of the swap-chain settings -/

section SwapChainSettings

/-- C7: on a non-empty list of surface formats, `chooseSwapSurfaceFormat` returns the pair
`(VK_FORMAT_B8G8R8A8_SRGB, VK_COLOR_SPACE_SRGB_NONLINEAR_KHR)` when that pair occurs anywhere in
the list, and the first entry of the list when no entry matches in both fields (entries
matching in one field only do not count). -/
theorem chooseSwapSurfaceFormat_spec (availableFormats : List VkSurfaceFormatKHR)
    (hne : availableFormats ≠ []) :
    ((⟨VK_FORMAT_B8G8R8A8_SRGB, VK_COLOR_SPACE_SRGB_NONLINEAR_KHR⟩ : VkSurfaceFormatKHR) ∈
        availableFormats →
      chooseSwapSurfaceFormat availableFormats =
        some ⟨VK_FORMAT_B8G8R8A8_SRGB, VK_COLOR_SPACE_SRGB_NONLINEAR_KHR⟩) ∧
    ((∀ f ∈ availableFormats,
        ¬ (f.format = VK_FORMAT_B8G8R8A8_SRGB ∧ f.colorSpace = VK_COLOR_SPACE_SRGB_NONLINEAR_KHR)) →
      chooseSwapSurfaceFormat availableFormats = some (availableFormats.head hne)) := by
  unfold chooseSwapSurfaceFormat
  constructor
  · intro hmem
    cases hfind : availableFormats.find? (fun availableFormat =>
        availableFormat.format == VK_FORMAT_B8G8R8A8_SRGB &&
          availableFormat.colorSpace == VK_COLOR_SPACE_SRGB_NONLINEAR_KHR) with
    | none =>
      have := List.find?_eq_none.1 hfind _ hmem
      simp at this
    | some f =>
      have hp := List.find?_some hfind
      simp only [Bool.and_eq_true, beq_iff_eq] at hp
      obtain ⟨ff, fc⟩ := f
      simp only at hp
      obtain ⟨rfl, rfl⟩ := hp
      rfl
  · intro hall
    have hfind : availableFormats.find? (fun availableFormat =>
        availableFormat.format == VK_FORMAT_B8G8R8A8_SRGB &&
          availableFormat.colorSpace == VK_COLOR_SPACE_SRGB_NONLINEAR_KHR) = none := by
      rw [List.find?_eq_none]
      intro f hf
      simpa using hall f hf
    rw [hfind]
    cases availableFormats with
    | nil => exact absurd rfl hne
    | cons f rest => simp

/-- C7, witness: the preferred pair in second position, after an entry that matches in the
format only. -/
theorem chooseSwapSurfaceFormat_spec_witness :
    chooseSwapSurfaceFormat [⟨VK_FORMAT_B8G8R8A8_SRGB, 7⟩,
        ⟨VK_FORMAT_B8G8R8A8_SRGB, VK_COLOR_SPACE_SRGB_NONLINEAR_KHR⟩] =
      some ⟨VK_FORMAT_B8G8R8A8_SRGB, VK_COLOR_SPACE_SRGB_NONLINEAR_KHR⟩ :=
  (chooseSwapSurfaceFormat_spec [⟨VK_FORMAT_B8G8R8A8_SRGB, 7⟩,
      ⟨VK_FORMAT_B8G8R8A8_SRGB, VK_COLOR_SPACE_SRGB_NONLINEAR_KHR⟩] (by decide)).1 (by decide)

/-- C8: for every list of present modes, the empty list included, `chooseSwapPresentMode`
returns `VK_PRESENT_MODE_MAILBOX_KHR` if and only if that mode occurs in the list, and
`VK_PRESENT_MODE_FIFO_KHR` otherwise, whether or not FIFO occurs in the list. -/
theorem chooseSwapPresentMode_spec (availablePresentModes : List VkPresentModeKHR) :
    (chooseSwapPresentMode availablePresentModes = VK_PRESENT_MODE_MAILBOX_KHR ↔
      VK_PRESENT_MODE_MAILBOX_KHR ∈ availablePresentModes) ∧
    (VK_PRESENT_MODE_MAILBOX_KHR ∉ availablePresentModes →
      chooseSwapPresentMode availablePresentModes = VK_PRESENT_MODE_FIFO_KHR) := by
  unfold chooseSwapPresentMode
  cases hfind : availablePresentModes.find? (fun availablePresentMode =>
      availablePresentMode == VK_PRESENT_MODE_MAILBOX_KHR) with
  | none =>
    have hnot : VK_PRESENT_MODE_MAILBOX_KHR ∉ availablePresentModes := by
      intro hmem
      have := List.find?_eq_none.1 hfind _ hmem
      simp at this
    refine ⟨⟨fun h => absurd h (by decide), fun h => absurd h hnot⟩, fun _ => rfl⟩
  | some m =>
    have hp := List.find?_some hfind
    have hm : m = VK_PRESENT_MODE_MAILBOX_KHR := by simpa using hp
    have hmem : VK_PRESENT_MODE_MAILBOX_KHR ∈ availablePresentModes := by
      rw [← hm]
      exact List.mem_of_find?_eq_some hfind
    refine ⟨⟨fun _ => hmem, fun _ => hm⟩, fun h => absurd hmem h⟩

theorem stdClamp_eq (v lo hi : Nat) (h : lo ≤ hi) : stdClamp v lo hi = max lo (min v hi) := by
  unfold stdClamp
  split_ifs <;> omega

theorem toUint32_natCast (n : Nat) (h : n < 4294967296) : toUint32 (n : Int) = n := by
  unfold toUint32
  omega

/-- C9: with the sentinel `currentExtent.width = 0xFFFFFFFF`, `minImageExtent ≤ maxImageExtent`
in each dimension and a non-negative framebuffer size `(w, h)` (an `int` pair), `chooseSwapExtent`
returns `(max(min.width, min(w, max.width)), max(min.height, min(h, max.height)))`; each
component of the result lies between the corresponding components of `minImageExtent` and
`maxImageExtent`. -/
theorem chooseSwapExtent_clamps (drv : Driver) (app : App) (capabilities : VkSurfaceCapabilitiesKHR)
    (w h : Nat)
    (hsentinel : capabilities.currentExtent.width = UINT32_MAX)
    (hwidth : capabilities.minImageExtent.width ≤ capabilities.maxImageExtent.width)
    (hheight : capabilities.minImageExtent.height ≤ capabilities.maxImageExtent.height)
    (hsize : drv.glfwGetFramebufferSize app.window = ((w : Int), (h : Int)))
    (hw : w < 2147483648) (hh : h < 2147483648) :
    (chooseSwapExtent drv app capabilities).1 =
      ⟨max capabilities.minImageExtent.width (min w capabilities.maxImageExtent.width),
       max capabilities.minImageExtent.height (min h capabilities.maxImageExtent.height)⟩ ∧
    (capabilities.minImageExtent.width ≤ (chooseSwapExtent drv app capabilities).1.width ∧
      (chooseSwapExtent drv app capabilities).1.width ≤ capabilities.maxImageExtent.width) ∧
    (capabilities.minImageExtent.height ≤ (chooseSwapExtent drv app capabilities).1.height ∧
      (chooseSwapExtent drv app capabilities).1.height ≤ capabilities.maxImageExtent.height) := by
  have e : (chooseSwapExtent drv app capabilities).1 =
      ⟨max capabilities.minImageExtent.width (min w capabilities.maxImageExtent.width),
       max capabilities.minImageExtent.height (min h capabilities.maxImageExtent.height)⟩ := by
    unfold chooseSwapExtent
    simp only [hsentinel, ne_eq, not_true_eq_false, if_false, hsize]
    rw [toUint32_natCast w (by omega), toUint32_natCast h (by omega),
      stdClamp_eq _ _ _ hwidth, stdClamp_eq _ _ _ hheight]
  rw [e]
  refine ⟨rfl, ⟨?_, ?_⟩, ⟨?_, ?_⟩⟩ <;> simp only <;> omega

/-- C9, witness: `minImageExtent = (1, 1)`, `maxImageExtent = (4096, 4096)` and a framebuffer
of `(8000, 8000)` give `(4096, 4096)`. -/
theorem chooseSwapExtent_clamps_witness :
    (chooseSwapExtent (mockDriver [] (8000, 8000) []) App.fresh
      ⟨2, 3, ⟨UINT32_MAX, UINT32_MAX⟩, ⟨1, 1⟩, ⟨4096, 4096⟩, 1⟩).1 = ⟨4096, 4096⟩ :=
  (chooseSwapExtent_clamps (mockDriver [] (8000, 8000) []) App.fresh
    ⟨2, 3, ⟨UINT32_MAX, UINT32_MAX⟩, ⟨1, 1⟩, ⟨4096, 4096⟩, 1⟩ 8000 8000
    rfl (by decide) (by decide) rfl (by decide) (by decide)).1

/-- C10: when `currentExtent.width` is not `0xFFFFFFFF`, `chooseSwapExtent` returns
`currentExtent` unchanged and issues no call: the framebuffer size is not asked for, and the
result depends neither on it nor on the height or the min/max image extents. -/
theorem chooseSwapExtent_current (drv : Driver) (app : App)
    (capabilities : VkSurfaceCapabilitiesKHR)
    (h : capabilities.currentExtent.width ≠ UINT32_MAX) :
    chooseSwapExtent drv app capabilities = (capabilities.currentExtent, []) := by
  unfold chooseSwapExtent
  rw [if_pos h]

/-- C10, witness: a current extent of 800 x 600 that lies outside the min/max image extents
and differs from the framebuffer size is returned as it is. -/
theorem chooseSwapExtent_current_witness :
    chooseSwapExtent (mockDriver [] (8000, 8000) []) App.fresh
      ⟨2, 3, ⟨800, 600⟩, ⟨1000, 1000⟩, ⟨4096, 4096⟩, 1⟩ = (⟨800, 600⟩, []) :=
  chooseSwapExtent_current (mockDriver [] (8000, 8000) []) App.fresh
    ⟨2, 3, ⟨800, 600⟩, ⟨1000, 1000⟩, ⟨4096, 4096⟩, 1⟩ (by decide)

end SwapChainSettings

/-! ## Properties of the two-call queries and of instance creation -/

section Queries

theorem length_vectorResize {α : Type} (zero : α) (v : List α) (n : Nat) :
    (vectorResize zero v n).length = n := by
  simp only [vectorResize, List.length_append, List.length_take, List.length_replicate]
  omega

theorem findQueueFamiliesLoop_congr (drv : Driver) (app app' : App) (device : VkPhysicalDevice)
    (hs : app.surface = app'.surface) (l : List VkQueueFamilyProperties) :
    ∀ (i : Nat) (ind : QueueFamilyIndices),
      findQueueFamiliesLoop drv app device l i ind =
        findQueueFamiliesLoop drv app' device l i ind := by
  induction l with
  | nil => intro i ind; rfl
  | cons q rest ih =>
    intro i ind
    unfold findQueueFamiliesLoop
    simp only [hs, ih]

theorem findQueueFamilies_congr (drv : Driver) (app app' : App) (device : VkPhysicalDevice)
    (hs : app.surface = app'.surface) :
    findQueueFamilies drv app device = findQueueFamilies drv app' device := by
  unfold findQueueFamilies
  simp only [findQueueFamiliesLoop_congr drv app app' device hs]

theorem findQueueFamilies_log (drv : Driver) (app : App) (cs : List VkCall)
    (device : VkPhysicalDevice) :
    findQueueFamilies drv (app.log cs) device = findQueueFamilies drv app device :=
  findQueueFamilies_congr drv _ _ device rfl

theorem chooseSwapExtent_log (drv : Driver) (app : App) (cs : List VkCall)
    (capabilities : VkSurfaceCapabilitiesKHR) :
    chooseSwapExtent drv (app.log cs) capabilities = chooseSwapExtent drv app capabilities := rfl

theorem App.log_physicalDevice (app : App) (cs : List VkCall) :
    (app.log cs).physicalDevice = app.physicalDevice := rfl

/-- The member `createSwapChain()` written out over the state it is called on. -/
theorem createSwapChain_eq (drv : Driver) (app : App) :
    createSwapChain drv app =
      match chooseSwapSurfaceFormat (querySwapChainSupport drv app app.physicalDevice).1.formats with
      | none => .undefinedBehaviour (app.log (querySwapChainSupport drv app app.physicalDevice).2)
      | some surfaceFormat =>
        match (findQueueFamilies drv app app.physicalDevice).1.graphicsFamily,
          (findQueueFamilies drv app app.physicalDevice).1.presentFamily with
        | some graphicsFamily, some presentFamily =>
          if (drv.vkCreateSwapchainKHR app.device
              (swapchainCreateInfoOf drv app surfaceFormat graphicsFamily presentFamily)).1 ≠
              VK_SUCCESS then
            .thrown "\n\tCould not create SwapChain!"
              { app.log (swapChainQueryCalls drv app ++ [.vkCreateSwapchainKHR app.device
                  (swapchainCreateInfoOf drv app surfaceFormat graphicsFamily presentFamily)]) with
                swapChain := (drv.vkCreateSwapchainKHR app.device
                  (swapchainCreateInfoOf drv app surfaceFormat graphicsFamily presentFamily)).2 }
          else
            .ok
              { app.log (swapChainQueryCalls drv app ++ [.vkCreateSwapchainKHR app.device
                  (swapchainCreateInfoOf drv app surfaceFormat graphicsFamily presentFamily),
                  .vkGetSwapchainImagesKHR app.device (drv.vkCreateSwapchainKHR app.device
                    (swapchainCreateInfoOf drv app surfaceFormat graphicsFamily presentFamily)).2
                    false,
                  .vkGetSwapchainImagesKHR app.device (drv.vkCreateSwapchainKHR app.device
                    (swapchainCreateInfoOf drv app surfaceFormat graphicsFamily presentFamily)).2
                    true]) with
                swapChain := (drv.vkCreateSwapchainKHR app.device
                  (swapchainCreateInfoOf drv app surfaceFormat graphicsFamily presentFamily)).2
                swapChainImages :=
                  writeInto (vectorResize 0 app.swapChainImages
                    (drv.vkGetSwapchainImagesKHR app.device (drv.vkCreateSwapchainKHR app.device
                      (swapchainCreateInfoOf drv app surfaceFormat graphicsFamily
                        presentFamily)).2).count)
                    (drv.vkGetSwapchainImagesKHR app.device (drv.vkCreateSwapchainKHR app.device
                      (swapchainCreateInfoOf drv app surfaceFormat graphicsFamily
                        presentFamily)).2).items
                swapChainImageFormat := surfaceFormat.format
                swapChainExtent :=
                  (chooseSwapExtent drv app
                    (querySwapChainSupport drv app app.physicalDevice).1.capabilities).1 }
        | _, _ => .thrown badOptionalAccess (app.log (swapChainQueryCalls drv app)) := by
  unfold createSwapChain swapChainQueryCalls
  simp only [findQueueFamilies_log, chooseSwapExtent_log, App.log_physicalDevice]
  generalize findQueueFamilies drv app app.physicalDevice = fq
  obtain ⟨⟨gfo, pfo⟩, fcalls⟩ := fq
  cases hf : chooseSwapSurfaceFormat (querySwapChainSupport drv app app.physicalDevice).1.formats with
  | none => rfl
  | some surfaceFormat =>
    cases gfo with
    | none => simp [App.log]
    | some gf =>
      cases pfo with
      | none => simp [App.log]
      | some pf =>
        simp only [ne_eq, Option.some.injEq]
        by_cases hr : (drv.vkCreateSwapchainKHR app.device
            (swapchainCreateInfoOf drv app surfaceFormat gf pf)).1 = VK_SUCCESS
        · simp [App.log, swapchainCreateInfoOf, hr]
        · simp [App.log, swapchainCreateInfoOf, hr]

/-- The container after a "count, then fill" query on a freshly sized vector: the driver's
entries, at most as many as were counted, followed by value-initialised elements up to the
counted length. -/
theorem Enumeration.fill_eq {α : Type} (z : α) (e : Enumeration α) :
    e.fill z = e.items.take e.count ++ List.replicate (e.count - e.items.length) z := by
  unfold Enumeration.fill writeInto
  simp [List.drop_replicate]

theorem querySwapChainSupport_formats (drv : Driver) (app : App) (device : VkPhysicalDevice) :
    (querySwapChainSupport drv app device).1.formats =
      (drv.vkGetPhysicalDeviceSurfaceFormatsKHR device app.surface).fill ⟨0, 0⟩ := by
  unfold querySwapChainSupport
  by_cases hc : (drv.vkGetPhysicalDeviceSurfaceFormatsKHR device app.surface).count = 0
  · simp [hc, Enumeration.fill, writeInto]
  · simp [hc]

theorem querySwapChainSupport_presentModes (drv : Driver) (app : App)
    (device : VkPhysicalDevice) :
    (querySwapChainSupport drv app device).1.presentModes =
      (drv.vkGetPhysicalDeviceSurfacePresentModesKHR device app.surface).fill 0 := by
  unfold querySwapChainSupport
  by_cases hc : (drv.vkGetPhysicalDeviceSurfacePresentModesKHR device app.surface).count = 0
  · simp [hc, Enumeration.fill, writeInto]
  · simp [hc]

/-- The vector `swapChainImages` after a normal return of `createSwapChain`: the vector it held
before, resized to the counted length, with the driver's entries written over its leading
elements. -/
theorem createSwapChain_swapChainImages (drv : Driver) (app app' : App)
    (h : createSwapChain drv app = .ok app') :
    app'.swapChainImages =
      writeInto
        (vectorResize 0 app.swapChainImages
          (drv.vkGetSwapchainImagesKHR app'.device app'.swapChain).count)
        (drv.vkGetSwapchainImagesKHR app'.device app'.swapChain).items := by
  rw [createSwapChain_eq] at h
  split at h
  · cases h
  · split at h
    · split_ifs at h
      cases h
      simp [App.log]
    · cases h

/-- C14, as amended: every container filled by a "count, then fill" query (adapters, queue
families, device extensions, surface formats, present modes, swap-chain images) has the length
reported by the first (counting) call and is never resized after the fill call.  It holds the
driver's entries of the fill call, at most as many as were counted, followed by the trailing
elements the sized vector held before the fill call: value-initialised elements for the five
vectors sized from empty, and for `swapChainImages`, which is resized in place, the elements it
held before `createSwapChain` at those positions, padded with null handles (only null handles
when it was empty before).  The count reported by the fill call never exceeds the length, and
equals it exactly when the driver still holds at least as many entries as it counted. -/
theorem twoCall_container_contents (drv : Driver) (app : App) (device : VkPhysicalDevice) :
    ((devicesOf drv app).length = (drv.vkEnumeratePhysicalDevices app.inst).count ∧
      devicesOf drv app =
        (drv.vkEnumeratePhysicalDevices app.inst).items.take
            (drv.vkEnumeratePhysicalDevices app.inst).count ++
          List.replicate ((drv.vkEnumeratePhysicalDevices app.inst).count -
            (drv.vkEnumeratePhysicalDevices app.inst).items.length) VK_NULL_HANDLE) ∧
    ((queueFamiliesOf drv device).length =
        (drv.vkGetPhysicalDeviceQueueFamilyProperties device).count ∧
      queueFamiliesOf drv device =
        (drv.vkGetPhysicalDeviceQueueFamilyProperties device).items.take
            (drv.vkGetPhysicalDeviceQueueFamilyProperties device).count ++
          List.replicate ((drv.vkGetPhysicalDeviceQueueFamilyProperties device).count -
            (drv.vkGetPhysicalDeviceQueueFamilyProperties device).items.length) ⟨0, 0⟩) ∧
    ((availableExtensionsOf drv device).length =
        (drv.vkEnumerateDeviceExtensionProperties device).count ∧
      availableExtensionsOf drv device =
        (drv.vkEnumerateDeviceExtensionProperties device).items.take
            (drv.vkEnumerateDeviceExtensionProperties device).count ++
          List.replicate ((drv.vkEnumerateDeviceExtensionProperties device).count -
            (drv.vkEnumerateDeviceExtensionProperties device).items.length) "") ∧
    ((querySwapChainSupport drv app device).1.formats.length =
        (drv.vkGetPhysicalDeviceSurfaceFormatsKHR device app.surface).count ∧
      (querySwapChainSupport drv app device).1.formats =
        (drv.vkGetPhysicalDeviceSurfaceFormatsKHR device app.surface).items.take
            (drv.vkGetPhysicalDeviceSurfaceFormatsKHR device app.surface).count ++
          List.replicate ((drv.vkGetPhysicalDeviceSurfaceFormatsKHR device app.surface).count -
            (drv.vkGetPhysicalDeviceSurfaceFormatsKHR device app.surface).items.length) ⟨0, 0⟩) ∧
    ((querySwapChainSupport drv app device).1.presentModes.length =
        (drv.vkGetPhysicalDeviceSurfacePresentModesKHR device app.surface).count ∧
      (querySwapChainSupport drv app device).1.presentModes =
        (drv.vkGetPhysicalDeviceSurfacePresentModesKHR device app.surface).items.take
            (drv.vkGetPhysicalDeviceSurfacePresentModesKHR device app.surface).count ++
          List.replicate
            ((drv.vkGetPhysicalDeviceSurfacePresentModesKHR device app.surface).count -
              (drv.vkGetPhysicalDeviceSurfacePresentModesKHR device app.surface).items.length)
            0) ∧
    (∀ app', createSwapChain drv app = .ok app' →
      app'.swapChainImages.length =
        (drv.vkGetSwapchainImagesKHR app'.device app'.swapChain).count ∧
      app'.swapChainImages =
        (drv.vkGetSwapchainImagesKHR app'.device app'.swapChain).items.take
            (drv.vkGetSwapchainImagesKHR app'.device app'.swapChain).count ++
          (app.swapChainImages.take (drv.vkGetSwapchainImagesKHR app'.device app'.swapChain).count ++
            List.replicate ((drv.vkGetSwapchainImagesKHR app'.device app'.swapChain).count -
              app.swapChainImages.length) VK_NULL_HANDLE).drop
            (drv.vkGetSwapchainImagesKHR app'.device app'.swapChain).items.length ∧
      (app.swapChainImages = [] →
        app'.swapChainImages =
          (drv.vkGetSwapchainImagesKHR app'.device app'.swapChain).items.take
              (drv.vkGetSwapchainImagesKHR app'.device app'.swapChain).count ++
            List.replicate ((drv.vkGetSwapchainImagesKHR app'.device app'.swapChain).count -
              (drv.vkGetSwapchainImagesKHR app'.device app'.swapChain).items.length)
              VK_NULL_HANDLE)) ∧
    (∀ (z : Nat) (e : Enumeration Nat),
      (e.fill z).length = e.count ∧ e.reported ≤ (e.fill z).length ∧
        ((e.fill z).length = e.reported ↔ e.count ≤ e.items.length) ∧
        e.fill z = e.items.take e.count ++ List.replicate (e.count - e.items.length) z ∧
        (∀ i, i < e.reported → (e.fill z)[i]? = e.items[i]?) ∧
        (∀ i, e.reported ≤ i → i < e.count → (e.fill z)[i]? = some z)) := by
  refine ⟨⟨Enumeration.length_fill _ _, Enumeration.fill_eq _ _⟩,
    ⟨Enumeration.length_fill _ _, Enumeration.fill_eq _ _⟩,
    ⟨Enumeration.length_fill _ _, Enumeration.fill_eq _ _⟩, ⟨?_, ?_⟩, ⟨?_, ?_⟩, ?_, ?_⟩
  · rw [querySwapChainSupport_formats, Enumeration.length_fill]
  · rw [querySwapChainSupport_formats, Enumeration.fill_eq]
  · rw [querySwapChainSupport_presentModes, Enumeration.length_fill]
  · rw [querySwapChainSupport_presentModes, Enumeration.fill_eq]
  · intro app' h
    have himg := createSwapChain_swapChainImages drv app app' h
    refine ⟨?_, ?_, ?_⟩
    · rw [himg, length_writeInto, length_vectorResize]
    · rw [himg]
      simp only [writeInto, vectorResize, length_vectorResize, VK_NULL_HANDLE]
      rw [List.length_append, List.length_take, List.length_replicate]
      congr 2
      omega
    · intro hempty
      rw [himg, hempty]
      simp [writeInto, vectorResize, List.drop_replicate, VK_NULL_HANDLE]
  · intro z e
    have hlen := Enumeration.length_fill z e
    have heq := Enumeration.fill_eq z e
    refine ⟨hlen, ?_, ?_, heq, ?_, ?_⟩
    · rw [hlen]
      unfold Enumeration.reported
      omega
    · rw [hlen]
      unfold Enumeration.reported
      omega
    · intro i hi
      unfold Enumeration.reported at hi
      rw [heq, List.getElem?_append_left (by rw [List.length_take]; omega),
        List.getElem?_take_of_lt (by omega)]
    · intro i hlo hhi
      unfold Enumeration.reported at hlo
      rw [heq, List.getElem?_append_right (by rw [List.length_take]; omega)]
      rw [List.getElem?_replicate]
      rw [if_pos (by rw [List.length_take]; omega)]

/-- C14, counterexample: the driver counts three queue families and holds two at the fill
call; the vector keeps length 3 although the fill call reports 2, and its third element is the
value-initialised one. -/
theorem twoCall_container_length_first_count :
    (queueFamiliesOf shrinkingDriver 1).length = 3 ∧
    (shrinkingDriver.vkGetPhysicalDeviceQueueFamilyProperties 1).reported = 2 ∧
    queueFamiliesOf shrinkingDriver 1 = [⟨1, 1⟩, ⟨1, 1⟩, ⟨0, 0⟩] := by
  decide

/-- C18: `createInstance` throws "Validation layers requested, but not available" if and only
if validation is enabled and some name of `validationLayers` is missing from the available
layer names; when it does, it has issued the two layer-enumeration calls and nothing else (no
`vkCreateInstance` call); with validation disabled it never throws this error. -/
theorem createInstance_validation_unavailable (drv : Driver) (g : Globals) (app : App) :
    ((∃ a', createInstance drv g app =
        .thrown "Validation layers requested, but not available" a') ↔
      (g.enableValidationLayers = true ∧
        ∃ name ∈ g.validationLayers, name ∉ availableLayersOf drv)) ∧
    (∀ a', createInstance drv g app =
        .thrown "Validation layers requested, but not available" a' →
      a'.calls = app.calls ++ [.vkEnumerateInstanceLayerProperties false,
        .vkEnumerateInstanceLayerProperties true]) ∧
    (g.enableValidationLayers = false →
      ∀ a', createInstance drv g app ≠
        .thrown "Validation layers requested, but not available" a') := by
  have hcheck : (checkValidationLayerSupport drv g).1 = true ↔
      ∀ name ∈ g.validationLayers, name ∈ availableLayersOf drv := by
    simp [checkValidationLayerSupport, availableLayersOf, List.all_eq_true, List.any_eq_true]
  have hmsg : ¬ ("Failed to create an instance!" =
      "Validation layers requested, but not available") := by decide
  by_cases hv : g.enableValidationLayers = true
  · by_cases hc : (checkValidationLayerSupport drv g).1 = true
    · have hall := hcheck.1 hc
      have hne : ∀ a', createInstance drv g app ≠
          .thrown "Validation layers requested, but not available" a' := by
        intro a' h
        unfold createInstance at h
        simp only [hv, hc, if_true, Bool.not_true, Bool.and_false, Bool.false_eq_true,
          if_false] at h
        split_ifs at h
        · injection h with h1 _
          exact hmsg h1
      refine ⟨⟨fun ⟨a', h⟩ => absurd h (hne a'), ?_⟩, fun a' h => absurd h (hne a'),
        fun h => by rw [hv] at h; cases h⟩
      rintro ⟨_, name, hname, hnot⟩
      exact absurd (hall name hname) hnot
    · have hthrow : createInstance drv g app =
          .thrown "Validation layers requested, but not available"
            (app.log (checkValidationLayerSupport drv g).2) := by
        unfold createInstance
        simp [hv, hc]
      refine ⟨⟨fun _ => ⟨hv, ?_⟩, fun _ => ⟨_, hthrow⟩⟩, ?_, fun h => by rw [hv] at h; cases h⟩
      · by_contra hcon
        push_neg at hcon
        exact hc (hcheck.2 hcon)
      · intro a' h
        rw [hthrow] at h
        injection h with _ h2
        rw [← h2]
        rfl
  · have hv' : g.enableValidationLayers = false := by simpa using hv
    have hne : ∀ a', createInstance drv g app ≠
        .thrown "Validation layers requested, but not available" a' := by
      intro a' h
      unfold createInstance at h
      simp only [hv', Bool.false_eq_true, if_false, Bool.false_and] at h
      split_ifs at h
      · injection h with h1 _
        exact hmsg h1
    refine ⟨⟨fun ⟨a', h⟩ => absurd h (hne a'), fun ⟨h, _⟩ => absurd h hv⟩,
      fun a' h => absurd h (hne a'), fun _ => hne⟩

end Queries

/-! ## Calls that neither create nor destroy -/

section Neutral

variable (drv : Driver) (g : Globals) (app : App) (device : VkPhysicalDevice)

theorem findQueueFamiliesLoop_neutral (l : List VkQueueFamilyProperties) :
    ∀ (i : Nat) (ind : QueueFamilyIndices),
      ∀ c ∈ (findQueueFamiliesLoop drv app device l i ind).2, c.isNeutral = true := by
  induction l with
  | nil => intro i ind c hc; simp [findQueueFamiliesLoop] at hc
  | cons q rest ih =>
    intro i ind c hc
    unfold findQueueFamiliesLoop at hc
    simp only at hc
    split_ifs at hc
    all_goals
      first
        | (rcases List.mem_singleton.1 hc with rfl; rfl)
        | (rcases List.mem_cons.1 hc with rfl | hc
           · rfl
           · exact ih _ _ c hc)

theorem findQueueFamilies_neutral :
    ∀ c ∈ (findQueueFamilies drv app device).2, c.isNeutral = true := by
  intro c hc
  unfold findQueueFamilies at hc
  simp only [List.mem_append, List.mem_cons, List.mem_singleton, List.not_mem_nil, or_false] at hc
  rcases hc with (rfl | rfl) | hc
  · rfl
  · rfl
  · exact findQueueFamiliesLoop_neutral drv app device _ _ _ c hc

theorem checkDeviceExtensionSupport_neutral :
    ∀ c ∈ (checkDeviceExtensionSupport drv g device).2, c.isNeutral = true := by
  intro c hc
  unfold checkDeviceExtensionSupport at hc
  simp only [List.mem_cons, List.mem_singleton, List.not_mem_nil, or_false] at hc
  rcases hc with rfl | rfl <;> rfl

theorem querySwapChainSupport_neutral :
    ∀ c ∈ (querySwapChainSupport drv app device).2, c.isNeutral = true := by
  intro c hc
  unfold querySwapChainSupport at hc
  simp only [List.mem_append, List.mem_cons, List.mem_singleton, List.not_mem_nil, or_false] at hc
  rcases hc with ((((rfl | rfl) | hc) | rfl) | hc)
  · rfl
  · rfl
  · split_ifs at hc
    · rcases List.mem_singleton.1 hc with rfl; rfl
    · cases hc
  · rfl
  · split_ifs at hc
    · rcases List.mem_singleton.1 hc with rfl; rfl
    · cases hc

theorem chooseSwapExtent_neutral (capabilities : VkSurfaceCapabilitiesKHR) :
    ∀ c ∈ (chooseSwapExtent drv app capabilities).2, c.isNeutral = true := by
  intro c hc
  unfold chooseSwapExtent at hc
  split_ifs at hc
  · cases hc
  · rcases List.mem_singleton.1 hc with rfl; rfl

theorem isDeviceSuitable_neutral :
    ∀ c ∈ (isDeviceSuitable drv g app device).2, c.isNeutral = true := by
  intro c hc
  unfold isDeviceSuitable at hc
  simp only [List.mem_append] at hc
  rcases hc with (hc | hc) | hc
  · exact findQueueFamilies_neutral drv app device c hc
  · exact checkDeviceExtensionSupport_neutral drv g device c hc
  · split_ifs at hc
    · exact querySwapChainSupport_neutral drv app device c hc
    · cases hc

theorem pickPhysicalDeviceLoop_neutral (l : List VkPhysicalDevice) (pd : VkPhysicalDevice) :
    ∀ c ∈ (pickPhysicalDeviceLoop drv g app l pd).2, c.isNeutral = true := by
  induction l with
  | nil => intro c hc; simp [pickPhysicalDeviceLoop] at hc
  | cons x xs ih =>
    intro c hc
    unfold pickPhysicalDeviceLoop at hc
    simp only at hc
    split_ifs at hc
    · exact isDeviceSuitable_neutral drv g app x c hc
    · rcases List.mem_append.1 hc with hc | hc
      · exact isDeviceSuitable_neutral drv g app x c hc
      · exact ih c hc

theorem swapChainQueryCalls_neutral :
    ∀ c ∈ swapChainQueryCalls drv app, c.isNeutral = true := by
  intro c hc
  unfold swapChainQueryCalls at hc
  simp only [List.mem_append] at hc
  rcases hc with (hc | hc) | hc
  · exact querySwapChainSupport_neutral drv app _ c hc
  · exact chooseSwapExtent_neutral drv app _ c hc
  · exact findQueueFamilies_neutral drv app _ c hc

theorem acquires_of_neutral {c : VkCall} (h : c.isNeutral = true) : c.acquires = none := by
  simp only [VkCall.isNeutral, Bool.and_eq_true, Option.isNone_iff_eq_none] at h
  exact h.1

theorem destroys_of_neutral {c : VkCall} (h : c.isNeutral = true) : c.destroys = none := by
  simp only [VkCall.isNeutral, Bool.and_eq_true, Option.isNone_iff_eq_none] at h
  exact h.2

theorem acquired_of_neutral {cs : List VkCall} (h : ∀ c ∈ cs, c.isNeutral = true) :
    acquired cs = [] :=
  List.filterMap_eq_nil_iff.2 (fun c hc => acquires_of_neutral (h c hc))

theorem destroyed_of_neutral {cs : List VkCall} (h : ∀ c ∈ cs, c.isNeutral = true) :
    destroyed cs = [] :=
  List.filterMap_eq_nil_iff.2 (fun c hc => destroys_of_neutral (h c hc))

theorem swapchainCreateInfos_of_neutral {cs : List VkCall} (h : ∀ c ∈ cs, c.isNeutral = true) :
    swapchainCreateInfos cs = [] := by
  refine List.filterMap_eq_nil_iff.2 (fun c hc => ?_)
  have := h c hc
  cases c <;> first | rfl | cases this

theorem deviceCreateInfos_of_neutral {cs : List VkCall} (h : ∀ c ∈ cs, c.isNeutral = true) :
    deviceCreateInfos cs = [] := by
  refine List.filterMap_eq_nil_iff.2 (fun c hc => ?_)
  have := h c hc
  cases c <;> first | rfl | cases this

theorem acquired_append (xs ys : List VkCall) : acquired (xs ++ ys) = acquired xs ++ acquired ys :=
  List.filterMap_append _ _ _

theorem destroyed_append (xs ys : List VkCall) :
    destroyed (xs ++ ys) = destroyed xs ++ destroyed ys :=
  List.filterMap_append _ _ _

theorem swapchainCreateInfos_append (xs ys : List VkCall) :
    swapchainCreateInfos (xs ++ ys) = swapchainCreateInfos xs ++ swapchainCreateInfos ys :=
  List.filterMap_append _ _ _

theorem deviceCreateInfos_append (xs ys : List VkCall) :
    deviceCreateInfos (xs ++ ys) = deviceCreateInfos xs ++ deviceCreateInfos ys :=
  List.filterMap_append _ _ _

end Neutral

/-! ## Properties of the create infos -/

section CreateInfos

variable (drv : Driver) (g : Globals) (app : App)

theorem chooseSwapSurfaceFormat_isSome (availableFormats : List VkSurfaceFormatKHR)
    (hne : availableFormats ≠ []) : ∃ sf, chooseSwapSurfaceFormat availableFormats = some sf := by
  unfold chooseSwapSurfaceFormat
  split
  · exact ⟨_, rfl⟩
  · cases availableFormats with
    | nil => exact absurd rfl hne
    | cons f rest => exact ⟨f, by simp⟩

/-- The swap-chain create infos in the log after `createSwapChain`: the old ones, followed by
the one create info it passes when it gets as far as `vkCreateSwapchainKHR`. -/
theorem createSwapChain_createInfos :
    swapchainCreateInfos (createSwapChain drv app).app.calls =
      swapchainCreateInfos app.calls ++
        (match chooseSwapSurfaceFormat (querySwapChainSupport drv app app.physicalDevice).1.formats,
            (findQueueFamilies drv app app.physicalDevice).1.graphicsFamily,
            (findQueueFamilies drv app app.physicalDevice).1.presentFamily with
          | some sf, some gf, some pf => [swapchainCreateInfoOf drv app sf gf pf]
          | _, _, _ => []) := by
  have hq := swapchainCreateInfos_of_neutral (swapChainQueryCalls_neutral drv app)
  have hq' := swapchainCreateInfos_of_neutral (querySwapChainSupport_neutral drv app app.physicalDevice)
  rw [createSwapChain_eq]
  cases chooseSwapSurfaceFormat (querySwapChainSupport drv app app.physicalDevice).1.formats with
  | none => simp [Outcome.app, App.log, swapchainCreateInfos_append, hq']
  | some sf =>
    cases (findQueueFamilies drv app app.physicalDevice).1.graphicsFamily with
    | none => simp [Outcome.app, App.log, swapchainCreateInfos_append, hq]
    | some gf =>
      cases (findQueueFamilies drv app app.physicalDevice).1.presentFamily with
      | none => simp [Outcome.app, App.log, swapchainCreateInfos_append, hq]
      | some pf =>
        simp only
        split_ifs <;>
          simp [Outcome.app, App.log, swapchainCreateInfos_append, hq] <;>
          simp [swapchainCreateInfos]

/-- The device create infos in the log after `createLogicDevice`: the old ones, followed by the
one create info it passes when both queue family indices hold a value. -/
theorem createLogicDevice_createInfos :
    deviceCreateInfos (createLogicDevice drv g app).app.calls =
      deviceCreateInfos app.calls ++
        (match (findQueueFamilies drv app app.physicalDevice).1.graphicsFamily,
            (findQueueFamilies drv app app.physicalDevice).1.presentFamily with
          | some gf, some pf => [deviceCreateInfoOf g gf pf]
          | _, _ => []) := by
  have hq := deviceCreateInfos_of_neutral (findQueueFamilies_neutral drv app app.physicalDevice)
  unfold createLogicDevice
  simp only
  generalize findQueueFamilies drv app app.physicalDevice = fq at hq ⊢
  obtain ⟨⟨gfo, pfo⟩, fc⟩ := fq
  simp only at hq
  cases gfo with
  | none => simp [Outcome.app, App.log, deviceCreateInfos_append, hq]
  | some gf =>
    cases pfo with
    | none => simp [Outcome.app, App.log, deviceCreateInfos_append, hq]
    | some pf =>
      simp only
      split_ifs <;>
        simp [Outcome.app, App.log, deviceCreateInfos_append, hq] <;>
        simp [deviceCreateInfos, deviceCreateInfoOf, *]

/-- C11: with `minImageCount < 2^32 - 1`, every swap-chain create info that `createSwapChain`
passes carries `minImageCount + 1` as its image count when `maxImageCount = 0` or
`minImageCount + 1 ≤ maxImageCount`, and `maxImageCount` otherwise; exactly one create info is
passed when the format list is not empty and both queue family indices are found. -/
theorem createSwapChain_minImageCount (capabilities : VkSurfaceCapabilitiesKHR)
    (hcap : drv.vkGetPhysicalDeviceSurfaceCapabilitiesKHR app.physicalDevice app.surface =
      capabilities)
    (hmin : capabilities.minImageCount < 4294967295) :
    ∃ new, swapchainCreateInfos (createSwapChain drv app).app.calls =
        swapchainCreateInfos app.calls ++ new ∧
      (∀ ci ∈ new, ci.minImageCount =
        if capabilities.maxImageCount = 0 ∨
            capabilities.minImageCount + 1 ≤ capabilities.maxImageCount then
          capabilities.minImageCount + 1
        else capabilities.maxImageCount) ∧
      ((querySwapChainSupport drv app app.physicalDevice).1.formats ≠ [] →
        (findQueueFamilies drv app app.physicalDevice).1.isComplete = true → new.length = 1) := by
  refine ⟨_, createSwapChain_createInfos drv app, ?_, ?_⟩
  · intro ci hci
    have hcount : ci.minImageCount = requestedImageCount capabilities := by
      split at hci
      · rw [List.mem_singleton] at hci
        rw [hci, ← hcap]
        rfl
      · cases hci
    rw [hcount]
    unfold requestedImageCount
    simp only [gt_iff_lt]
    rw [Nat.mod_eq_of_lt (by omega)]
    split_ifs <;> omega
  · intro hne hcomplete
    obtain ⟨sf, hsf⟩ := chooseSwapSurfaceFormat_isSome _ hne
    obtain ⟨gf, pf, hg, hp⟩ := (isComplete_iff _).1 hcomplete
    rw [hsf, hg, hp]
    rfl

/-- C11, witness: `minImageCount = 2` and `maxImageCount = 2` give an image count of 2. -/
theorem createSwapChain_minImageCount_witness :
    (swapchainCreateInfos (createSwapChain tightDriver pickedApp).app.calls).map
        (fun ci => ci.minImageCount) = [2] ∧
    ∃ new, swapchainCreateInfos (createSwapChain tightDriver pickedApp).app.calls =
        swapchainCreateInfos pickedApp.calls ++ new ∧
      (∀ ci ∈ new, ci.minImageCount = if (2 = 0 ∨ 2 + 1 ≤ 2) then 2 + 1 else 2) ∧
      ((querySwapChainSupport tightDriver pickedApp pickedApp.physicalDevice).1.formats ≠ [] →
        (findQueueFamilies tightDriver pickedApp pickedApp.physicalDevice).1.isComplete = true →
        new.length = 1) :=
  ⟨by decide,
   createSwapChain_minImageCount tightDriver pickedApp
     ⟨2, 2, ⟨800, 600⟩, ⟨1, 1⟩, ⟨4096, 4096⟩, 1⟩ rfl (by decide)⟩

/-- C12: when `findQueueFamilies` gives the complete pair `(g, p)`, every swap-chain create info
that `createSwapChain` passes has, for `g = p`, exclusive sharing mode, `queueFamilyIndexCount`
0 and no family-index list, and for `g ≠ p` concurrent sharing mode, `queueFamilyIndexCount` 2
and the family-index list `[g, p]`; the mode is exclusive exactly when `g = p` and concurrent
exactly when `g ≠ p`; exactly one create info is passed when the format list is not empty. -/
theorem createSwapChain_sharing (gf pf : Nat)
    (hidx : (findQueueFamilies drv app app.physicalDevice).1 = ⟨some gf, some pf⟩) :
    ∃ new, swapchainCreateInfos (createSwapChain drv app).app.calls =
        swapchainCreateInfos app.calls ++ new ∧
      (∀ ci ∈ new,
        (gf = pf → ci.imageSharingMode = VK_SHARING_MODE_EXCLUSIVE ∧
          ci.queueFamilyIndexCount = 0 ∧ ci.pQueueFamilyIndices = none) ∧
        (gf ≠ pf → ci.imageSharingMode = VK_SHARING_MODE_CONCURRENT ∧
          ci.queueFamilyIndexCount = 2 ∧ ci.pQueueFamilyIndices = some [gf, pf]) ∧
        (ci.imageSharingMode = VK_SHARING_MODE_EXCLUSIVE ↔ gf = pf) ∧
        (ci.imageSharingMode = VK_SHARING_MODE_CONCURRENT ↔ gf ≠ pf)) ∧
      ((querySwapChainSupport drv app app.physicalDevice).1.formats ≠ [] → new.length = 1) := by
  refine ⟨_, createSwapChain_createInfos drv app, ?_, ?_⟩
  · intro ci hci
    rw [hidx] at hci
    split at hci
    · rename_i sf g' p' _ hg hp
      cases hg
      cases hp
      rw [List.mem_singleton] at hci
      subst hci
      by_cases h : gf = pf
      · simp [swapchainCreateInfoOf, h, VK_SHARING_MODE_EXCLUSIVE, VK_SHARING_MODE_CONCURRENT]
      · simp [swapchainCreateInfoOf, h, VK_SHARING_MODE_EXCLUSIVE, VK_SHARING_MODE_CONCURRENT]
    · cases hci
  · intro hne
    obtain ⟨sf, hsf⟩ := chooseSwapSurfaceFormat_isSome _ hne
    rw [hsf, hidx]
    rfl

/-- C12, witness: graphics on family 0 and presentation on family 1 give concurrent sharing
over `[0, 1]`. -/
theorem createSwapChain_sharing_witness :
    (swapchainCreateInfos (createSwapChain (driverWith [(1, 0), (0, 1)]) pickedApp).app.calls).map
        (fun ci => (ci.imageSharingMode, ci.queueFamilyIndexCount, ci.pQueueFamilyIndices)) =
      [(VK_SHARING_MODE_CONCURRENT, 2, some [0, 1])] ∧
    ∃ new, swapchainCreateInfos (createSwapChain (driverWith [(1, 0), (0, 1)]) pickedApp).app.calls =
        swapchainCreateInfos pickedApp.calls ++ new ∧
      (∀ ci ∈ new,
        (0 = 1 → ci.imageSharingMode = VK_SHARING_MODE_EXCLUSIVE ∧
          ci.queueFamilyIndexCount = 0 ∧ ci.pQueueFamilyIndices = none) ∧
        (0 ≠ 1 → ci.imageSharingMode = VK_SHARING_MODE_CONCURRENT ∧
          ci.queueFamilyIndexCount = 2 ∧ ci.pQueueFamilyIndices = some [0, 1]) ∧
        (ci.imageSharingMode = VK_SHARING_MODE_EXCLUSIVE ↔ 0 = 1) ∧
        (ci.imageSharingMode = VK_SHARING_MODE_CONCURRENT ↔ 0 ≠ 1)) ∧
      ((querySwapChainSupport (driverWith [(1, 0), (0, 1)]) pickedApp
          pickedApp.physicalDevice).1.formats ≠ [] → new.length = 1) :=
  ⟨by decide, createSwapChain_sharing (driverWith [(1, 0), (0, 1)]) pickedApp 0 1 (by decide)⟩

/-- C13: when `findQueueFamilies` gives the complete pair `(g, p)`, `createLogicDevice` passes
exactly one device create info; the `queueFamilyIndex` values of its queue-creation requests are
pairwise distinct and are exactly `g` and `p` (one request when `g = p`, two otherwise), and
every request has `queueCount = 1` and the single priority 1.0. -/
theorem createLogicDevice_queueCreateInfos (gf pf : Nat)
    (hidx : (findQueueFamilies drv app app.physicalDevice).1 = ⟨some gf, some pf⟩) :
    ∃ ci, deviceCreateInfos (createLogicDevice drv g app).app.calls =
        deviceCreateInfos app.calls ++ [ci] ∧
      (ci.pQueueCreateInfos.map (fun r => r.queueFamilyIndex)).Nodup ∧
      (∀ x, x ∈ ci.pQueueCreateInfos.map (fun r => r.queueFamilyIndex) ↔ x = gf ∨ x = pf) ∧
      ci.pQueueCreateInfos.length = (if gf = pf then 1 else 2) ∧
      (∀ r ∈ ci.pQueueCreateInfos, r.queueCount = 1 ∧ r.pQueuePriorities = [1]) := by
  have hmap : (deviceCreateInfoOf g gf pf).pQueueCreateInfos.map (fun r => r.queueFamilyIndex) =
      uniqueQueueFamiliesOf gf pf := by
    simp [deviceCreateInfoOf, List.map_map, Function.comp_def]
  have hlen : (deviceCreateInfoOf g gf pf).pQueueCreateInfos.length =
      (uniqueQueueFamiliesOf gf pf).length := by
    simp [deviceCreateInfoOf]
  refine ⟨deviceCreateInfoOf g gf pf, ?_, ?_, ?_, ?_, ?_⟩
  · rw [createLogicDevice_createInfos, hidx]
  · rw [hmap]
    unfold uniqueQueueFamiliesOf
    split_ifs with h1 h2
    · simp
    · simp; omega
    · simp; omega
  · intro x
    rw [hmap]
    unfold uniqueQueueFamiliesOf
    split_ifs with h1 h2
    · simp [h1]
    · simp
    · simp [or_comm]
  · rw [hlen]
    unfold uniqueQueueFamiliesOf
    split_ifs <;> simp
  · intro r hr
    unfold deviceCreateInfoOf at hr
    simp only [List.mem_map] at hr
    obtain ⟨q, _, rfl⟩ := hr
    exact ⟨rfl, rfl⟩

/-- C13, witness: graphics on family 1 and presentation on family 0 give two requests, for
families 0 and 1. -/
theorem createLogicDevice_queueCreateInfos_witness :
    (deviceCreateInfos (createLogicDevice (driverWith [(0, 1), (1, 0)]) (globals true)
        pickedApp).app.calls).map
        (fun ci => ci.pQueueCreateInfos.map (fun r => r.queueFamilyIndex)) = [[0, 1]] ∧
    ∃ ci, deviceCreateInfos (createLogicDevice (driverWith [(0, 1), (1, 0)]) (globals true)
          pickedApp).app.calls = deviceCreateInfos pickedApp.calls ++ [ci] ∧
      (ci.pQueueCreateInfos.map (fun r => r.queueFamilyIndex)).Nodup ∧
      (∀ x, x ∈ ci.pQueueCreateInfos.map (fun r => r.queueFamilyIndex) ↔ x = 1 ∨ x = 0) ∧
      ci.pQueueCreateInfos.length = (if 1 = 0 then 1 else 2) ∧
      (∀ r ∈ ci.pQueueCreateInfos, r.queueCount = 1 ∧ r.pQueuePriorities = [1]) :=
  ⟨by decide,
   createLogicDevice_queueCreateInfos (driverWith [(0, 1), (1, 0)]) (globals true) pickedApp 1 0
     (by decide)⟩

end CreateInfos

/-! ## Properties of `createImageViews` -/

section ImageViews

variable (drv : Driver)

theorem length_setFrom (hs : List Nat) : ∀ (views : List Nat) (i : Nat),
    (setFrom views i hs).length = views.length := by
  induction hs with
  | nil => intro views i; rfl
  | cons h rest ih => intro views i; simp [setFrom, ih]

theorem getElem?_setFrom_lt (hs : List Nat) : ∀ (views : List Nat) (i j : Nat), j < i →
    (setFrom views i hs)[j]? = views[j]? := by
  induction hs with
  | nil => intro views i j _; rfl
  | cons h rest ih =>
    intro views i j hj
    simp only [setFrom]
    rw [ih _ _ _ (by omega), List.getElem?_set_ne (by omega)]

theorem getElem?_setFrom (hs : List Nat) : ∀ (views : List Nat) (i j : Nat),
    j < hs.length → i + j < views.length → (setFrom views i hs)[i + j]? = hs[j]? := by
  induction hs with
  | nil => intro views i j hj; simp at hj
  | cons h rest ih =>
    intro views i j hj hlen
    simp only [setFrom]
    cases j with
    | zero =>
      have hi : i < views.length := by omega
      rw [getElem?_setFrom_lt _ _ _ _ (by omega), Nat.add_zero, List.getElem?_set_self hi]
      simp
    | succ k =>
      have e : i + (k + 1) = (i + 1) + k := by omega
      rw [e, ih _ _ _ (by simpa using hj) (by simpa using (by omega : i + 1 + k < views.length))]
      simp

theorem setFrom_zero_eq (hs views : List Nat) (hlen : views.length = hs.length) :
    setFrom views 0 hs = hs := by
  apply List.ext_getElem?
  intro j
  by_cases hj : j < hs.length
  · have := getElem?_setFrom hs views 0 j hj (by omega)
    simpa using this
  · rw [List.getElem?_eq_none (by rw [length_setFrom]; omega), List.getElem?_eq_none (by omega)]

/-- The loop of `createImageViews` over images whose views are all created: it returns
normally, with one creation call per image appended and the handles written from `i` on. -/
theorem createImageViewsLoop_ok (images : List Nat) : ∀ (i : Nat) (app : App),
    (∀ image ∈ images, (drv.vkCreateImageView app.device
      (imageViewCreateInfo image app.swapChainImageFormat)).1 = VK_SUCCESS) →
    createImageViewsLoop drv images i app =
      .ok { app with
        calls := app.calls ++ images.map (fun image =>
          VkCall.vkCreateImageView app.device (imageViewCreateInfo image app.swapChainImageFormat))
        swapChainImageViews := setFrom app.swapChainImageViews i (images.map (fun image =>
          (drv.vkCreateImageView app.device
            (imageViewCreateInfo image app.swapChainImageFormat)).2)) } := by
  induction images with
  | nil => intro i app _; simp [createImageViewsLoop, setFrom]
  | cons x rest ih =>
    intro i app hall
    have hx := hall x (List.mem_cons_self _ _)
    have hrest : ∀ image ∈ rest, (drv.vkCreateImageView app.device
        (imageViewCreateInfo image app.swapChainImageFormat)).1 = VK_SUCCESS :=
      fun image h => hall image (List.mem_cons_of_mem _ h)
    have key := ih (i + 1)
      { app.log [.vkCreateImageView app.device (imageViewCreateInfo x app.swapChainImageFormat)] with
        swapChainImageViews := app.swapChainImageViews.set i
          (drv.vkCreateImageView app.device (imageViewCreateInfo x app.swapChainImageFormat)).2 }
      hrest
    unfold createImageViewsLoop
    simp only [hx, ne_eq, not_true_eq_false, if_false]
    refine key.trans ?_
    simp [App.log, setFrom]

/-- The loop of `createImageViews` runs through a prefix of images whose views are all
created and goes on with the remaining images. -/
theorem createImageViewsLoop_append (pre rest : List Nat) : ∀ (i : Nat) (app : App),
    (∀ image ∈ pre, (drv.vkCreateImageView app.device
      (imageViewCreateInfo image app.swapChainImageFormat)).1 = VK_SUCCESS) →
    createImageViewsLoop drv (pre ++ rest) i app =
      createImageViewsLoop drv rest (i + pre.length)
        { app with
          calls := app.calls ++ pre.map (fun image =>
            VkCall.vkCreateImageView app.device
              (imageViewCreateInfo image app.swapChainImageFormat))
          swapChainImageViews := setFrom app.swapChainImageViews i (pre.map (fun image =>
            (drv.vkCreateImageView app.device
              (imageViewCreateInfo image app.swapChainImageFormat)).2)) } := by
  induction pre with
  | nil => intro i app _; simp [setFrom]
  | cons x xs ih =>
    intro i app hall
    have hx := hall x (List.mem_cons_self _ _)
    have hrest : ∀ image ∈ xs, (drv.vkCreateImageView app.device
        (imageViewCreateInfo image app.swapChainImageFormat)).1 = VK_SUCCESS :=
      fun image h => hall image (List.mem_cons_of_mem _ h)
    have key := ih (i + 1)
      { app.log [.vkCreateImageView app.device (imageViewCreateInfo x app.swapChainImageFormat)] with
        swapChainImageViews := app.swapChainImageViews.set i
          (drv.vkCreateImageView app.device (imageViewCreateInfo x app.swapChainImageFormat)).2 }
      hrest
    rw [List.cons_append]
    conv_lhs => unfold createImageViewsLoop
    simp only [hx, ne_eq, not_true_eq_false, if_false]
    refine key.trans ?_
    simp [App.log, setFrom, Nat.add_assoc, Nat.add_comm 1]

/-- C20: when the creation of every view succeeds, `createImageViews` returns normally with
exactly one view per swap-chain image, the i-th created from the i-th image by one
`vkCreateImageView` call whose create info has view type 2D, the swap-chain format, identity
swizzle on all four channels, colour aspect, base mip level 0, one mip level, base layer 0 and
one layer; when the creation of the view at index `i` is the first to fail, `createImageViews`
throws "Failed to create image views!" after the creation calls for the images `0 .. i` only,
so no view with a greater index is created. -/
theorem createImageViews_spec (app : App) :
    (∀ image format, imageViewCreateInfo image format =
      ⟨image, VK_IMAGE_VIEW_TYPE_2D, format,
       ⟨VK_COMPONENT_SWIZZLE_IDENTITY, VK_COMPONENT_SWIZZLE_IDENTITY,
        VK_COMPONENT_SWIZZLE_IDENTITY, VK_COMPONENT_SWIZZLE_IDENTITY⟩,
       ⟨VK_IMAGE_ASPECT_COLOR_BIT, 0, 1, 0, 1⟩⟩) ∧
    ((∀ image ∈ app.swapChainImages, (drv.vkCreateImageView app.device
        (imageViewCreateInfo image app.swapChainImageFormat)).1 = VK_SUCCESS) →
      ∃ app', createImageViews drv app = .ok app' ∧
        app'.swapChainImageViews.length = app.swapChainImages.length ∧
        app'.swapChainImageViews = app.swapChainImages.map (fun image =>
          (drv.vkCreateImageView app.device
            (imageViewCreateInfo image app.swapChainImageFormat)).2) ∧
        app'.calls = app.calls ++ app.swapChainImages.map (fun image =>
          VkCall.vkCreateImageView app.device
            (imageViewCreateInfo image app.swapChainImageFormat))) ∧
    (∀ (i : Nat) (image : Nat), app.swapChainImages[i]? = some image →
      (∀ (j : Nat) (earlier : Nat), j < i → app.swapChainImages[j]? = some earlier →
        (drv.vkCreateImageView app.device
          (imageViewCreateInfo earlier app.swapChainImageFormat)).1 = VK_SUCCESS) →
      (drv.vkCreateImageView app.device
        (imageViewCreateInfo image app.swapChainImageFormat)).1 ≠ VK_SUCCESS →
      ∃ app', createImageViews drv app = .thrown "Failed to create image views!" app' ∧
        app'.calls = app.calls ++ (app.swapChainImages.take (i + 1)).map (fun image =>
          VkCall.vkCreateImageView app.device
            (imageViewCreateInfo image app.swapChainImageFormat))) := by
  refine ⟨fun _ _ => rfl, ?_, ?_⟩
  · intro hall
    unfold createImageViews
    simp only
    have key := createImageViewsLoop_ok drv app.swapChainImages 0
      { app with swapChainImageViews :=
          vectorResize 0 app.swapChainImageViews app.swapChainImages.length } hall
    refine ⟨_, key, ?_, ?_, rfl⟩
    · simp only [length_setFrom, length_vectorResize]
    · exact setFrom_zero_eq _ _ (by simp [length_vectorResize])
  · intro i image hi hbefore hfail
    obtain ⟨hlt, hget⟩ := List.getElem?_eq_some_iff.1 hi
    have hsplit : app.swapChainImages =
        app.swapChainImages.take i ++ image :: app.swapChainImages.drop (i + 1) := by
      rw [← hget, ← List.drop_eq_getElem_cons hlt, List.take_append_drop]
    have hpre : ∀ earlier ∈ app.swapChainImages.take i, (drv.vkCreateImageView app.device
        (imageViewCreateInfo earlier app.swapChainImageFormat)).1 = VK_SUCCESS := by
      intro earlier hmem
      obtain ⟨j, hj⟩ := List.mem_iff_getElem?.1 hmem
      have hjlt : j < i := by
        by_contra hcon
        rw [List.getElem?_take_eq_none (by omega)] at hj
        cases hj
      rw [List.getElem?_take_of_lt hjlt] at hj
      exact hbefore j earlier hjlt hj
    have key := createImageViewsLoop_append drv (app.swapChainImages.take i)
      (image :: app.swapChainImages.drop (i + 1)) 0
      { app with swapChainImageViews :=
          vectorResize 0 app.swapChainImageViews app.swapChainImages.length } hpre
    have htake : app.swapChainImages.take (i + 1) = app.swapChainImages.take i ++ [image] := by
      rw [List.take_succ, hi]
      rfl
    unfold createImageViews
    simp only
    rw [← hsplit] at key
    rw [key]
    unfold createImageViewsLoop
    simp only [ne_eq, hfail, not_false_eq_true, if_true]
    refine ⟨_, rfl, ?_⟩
    rw [htake]
    simp [App.log]

/-- C20, witness: three images whose views are all created, and a driver that refuses the
view of the second image. -/
theorem createImageViews_spec_witness :
    (∃ app', createImageViews (driverWith [(1, 1)]) imagesApp = .ok app' ∧
      app'.swapChainImageViews.length = imagesApp.swapChainImages.length ∧
      app'.swapChainImageViews = imagesApp.swapChainImages.map (fun image =>
        ((driverWith [(1, 1)]).vkCreateImageView imagesApp.device
          (imageViewCreateInfo image imagesApp.swapChainImageFormat)).2) ∧
      app'.calls = imagesApp.calls ++ imagesApp.swapChainImages.map (fun image =>
        VkCall.vkCreateImageView imagesApp.device
          (imageViewCreateInfo image imagesApp.swapChainImageFormat))) ∧
    (∃ app', createImageViews viewFailingDriver imagesApp =
        .thrown "Failed to create image views!" app' ∧
      app'.calls = imagesApp.calls ++ (imagesApp.swapChainImages.take (1 + 1)).map (fun image =>
        VkCall.vkCreateImageView imagesApp.device
          (imageViewCreateInfo image imagesApp.swapChainImageFormat))) :=
  ⟨(createImageViews_spec (driverWith [(1, 1)]) imagesApp).2.1 (by decide),
   (createImageViews_spec viewFailingDriver imagesApp).2.2 1 22 (by decide)
     (by
       intro j earlier hj hget
       have hj0 : j = 0 := by omega
       subst hj0
       have he : earlier = 21 := by
         have h21 : imagesApp.swapChainImages[0]? = some 21 := by decide
         rw [h21] at hget
         exact (Option.some.inj hget).symm
       subst he
       decide)
     (by decide)⟩

end ImageViews

/-! ## What each step of the life cycle creates and destroys -/

section LifeCycle

variable (drv : Driver) (g : Globals)

theorem andThen_eq_ok {o : Outcome} {next : App → Outcome} {a' : App}
    (h : o.andThen next = .ok a') : ∃ a1, o = .ok a1 ∧ next a1 = .ok a' := by
  cases o with
  | ok a1 => exact ⟨a1, rfl, h⟩
  | thrown w a1 => cases h
  | undefinedBehaviour a1 => cases h
  | diverges a1 => cases h

theorem initWindow_calls (a : App) :
    acquired (initWindow drv a).calls = acquired a.calls ∧
    destroyed (initWindow drv a).calls = destroyed a.calls := by
  simp [initWindow, App.log, acquired_append, destroyed_append]
  constructor <;> rfl

theorem createInstance_destroyed (a : App) :
    destroyed (createInstance drv g a).app.calls = destroyed a.calls := by
  unfold createInstance
  simp only [checkValidationLayerSupport, getRequiredExtensions, apply_ite Outcome.app,
    Outcome.app_ok, Outcome.app_thrown, ite_self]
  split_ifs <;> simp [App.log, destroyed_append] <;> rfl

theorem createInstance_acquired (a a' : App) (h : createInstance drv g a = .ok a') :
    acquired a'.calls = acquired a.calls ++ [.vkInstance] := by
  unfold createInstance at h
  simp only [checkValidationLayerSupport, getRequiredExtensions] at h
  split_ifs at h <;> cases h <;> simp [App.log, acquired_append] <;> rfl

theorem setupDebugMessenger_destroyed (a : App) :
    destroyed (setupDebugMessenger drv g a).app.calls = destroyed a.calls := by
  unfold setupDebugMessenger CreateDebugUtilsMessengerEXT
  simp only [apply_ite Outcome.app, Outcome.app_ok, Outcome.app_thrown, ite_self]
  split_ifs <;> simp [App.log, destroyed_append] <;> rfl

theorem setupDebugMessenger_acquired (a a' : App) (h : setupDebugMessenger drv g a = .ok a') :
    acquired a'.calls =
      acquired a.calls ++ (if g.enableValidationLayers then [.debugMessenger] else []) := by
  unfold setupDebugMessenger CreateDebugUtilsMessengerEXT at h
  by_cases hv : g.enableValidationLayers = true
  · by_cases hp : drv.vkGetInstanceProcAddr a.inst "vkCreateDebugUtilsMessengerEXT" = true
    · simp only [hv, hp, Bool.not_true, Bool.false_eq_true, if_false, if_true] at h
      split_ifs at h
      cases h
      simp [App.log, acquired_append, hv]
      rfl
    · simp only [hv, hp, Bool.not_true, Bool.false_eq_true, if_false] at h
      split_ifs at h with hr
      exact absurd (by decide : VK_ERROR_EXTENSION_NOT_PRESENT ≠ VK_SUCCESS) hr
  · have hv' : g.enableValidationLayers = false := by simpa using hv
    simp only [hv', Bool.not_false, if_true] at h
    cases h
    simp [hv']

theorem createSurface_destroyed (a : App) :
    destroyed (createSurface drv a).app.calls = destroyed a.calls := by
  unfold createSurface
  simp only [apply_ite Outcome.app, Outcome.app_ok, Outcome.app_thrown, ite_self]
  simp [App.log, destroyed_append]
  rfl

theorem createSurface_acquired (a a' : App) (h : createSurface drv a = .ok a') :
    acquired a'.calls = acquired a.calls ++ [.surface] := by
  unfold createSurface at h
  simp only at h
  split_ifs at h
  cases h
  simp [App.log, acquired_append]
  rfl

theorem pickPhysicalDevice_calls (a : App) :
    acquired (pickPhysicalDevice drv g a).app.calls = acquired a.calls ∧
    destroyed (pickPhysicalDevice drv g a).app.calls = destroyed a.calls := by
  have hn := pickPhysicalDeviceLoop_neutral drv g a (devicesOf drv a) a.physicalDevice
  unfold pickPhysicalDevice
  simp only [apply_ite Outcome.app, Outcome.app_ok, Outcome.app_thrown, ite_self]
  split_ifs
  · simp [App.log, acquired_append, destroyed_append]
    constructor <;> rfl
  · simp only [App.log, acquired_append, destroyed_append, acquired_of_neutral hn,
      destroyed_of_neutral hn, List.append_nil]
    constructor
    · simp [acquired, VkCall.acquires]
    · simp [destroyed, VkCall.destroys]

theorem createLogicDevice_destroyed (a : App) :
    destroyed (createLogicDevice drv g a).app.calls = destroyed a.calls := by
  have hq := destroyed_of_neutral (findQueueFamilies_neutral drv a a.physicalDevice)
  unfold createLogicDevice
  simp only
  generalize findQueueFamilies drv a a.physicalDevice = fq at hq ⊢
  obtain ⟨⟨gfo, pfo⟩, fc⟩ := fq
  simp only at hq
  cases gfo with
  | none => simp [Outcome.app, App.log, destroyed_append, hq]
  | some gf =>
    cases pfo with
    | none => simp [Outcome.app, App.log, destroyed_append, hq]
    | some pf =>
      simp only
      split_ifs <;>
        simp [Outcome.app, App.log, destroyed_append, hq] <;>
        simp [destroyed, VkCall.destroys]

theorem createLogicDevice_acquired (a a' : App) (h : createLogicDevice drv g a = .ok a') :
    acquired a'.calls = acquired a.calls ++ [.device] := by
  have hq := acquired_of_neutral (findQueueFamilies_neutral drv a a.physicalDevice)
  unfold createLogicDevice at h
  simp only at h
  generalize findQueueFamilies drv a a.physicalDevice = fq at hq h
  obtain ⟨⟨gfo, pfo⟩, fc⟩ := fq
  simp only at hq
  cases gfo with
  | none => cases h
  | some gf =>
    cases pfo with
    | none => cases h
    | some pf =>
      simp only at h
      split_ifs at h <;> cases h <;>
        simp [App.log, acquired_append, hq] <;>
        simp [acquired, VkCall.acquires]

theorem createSwapChain_destroyed (a : App) :
    destroyed (createSwapChain drv a).app.calls = destroyed a.calls := by
  have hq := destroyed_of_neutral (swapChainQueryCalls_neutral drv a)
  have hq' := destroyed_of_neutral (querySwapChainSupport_neutral drv a a.physicalDevice)
  rw [createSwapChain_eq]
  cases chooseSwapSurfaceFormat (querySwapChainSupport drv a a.physicalDevice).1.formats with
  | none => simp [Outcome.app, App.log, destroyed_append, hq']
  | some sf =>
    cases (findQueueFamilies drv a a.physicalDevice).1.graphicsFamily with
    | none => simp [Outcome.app, App.log, destroyed_append, hq]
    | some gf =>
      cases (findQueueFamilies drv a a.physicalDevice).1.presentFamily with
      | none => simp [Outcome.app, App.log, destroyed_append, hq]
      | some pf =>
        simp only
        split_ifs <;>
          simp [Outcome.app, App.log, destroyed_append, hq] <;>
          simp [destroyed, VkCall.destroys]

theorem createSwapChain_acquired (a a' : App) (h : createSwapChain drv a = .ok a') :
    acquired a'.calls = acquired a.calls ++ [.swapChain] := by
  have hq := acquired_of_neutral (swapChainQueryCalls_neutral drv a)
  rw [createSwapChain_eq] at h
  cases hf : chooseSwapSurfaceFormat (querySwapChainSupport drv a a.physicalDevice).1.formats with
  | none => rw [hf] at h; cases h
  | some sf =>
    rw [hf] at h
    cases hg : (findQueueFamilies drv a a.physicalDevice).1.graphicsFamily with
    | none => rw [hg] at h; cases h
    | some gf =>
      rw [hg] at h
      cases hp : (findQueueFamilies drv a a.physicalDevice).1.presentFamily with
      | none => rw [hp] at h; cases h
      | some pf =>
        rw [hp] at h
        simp only at h
        split_ifs at h
        cases h
        simp [App.log, acquired_append, hq]
        simp [acquired, VkCall.acquires]

theorem createImageViewsLoop_destroyed (images : List Nat) : ∀ (i : Nat) (a : App),
    destroyed (createImageViewsLoop drv images i a).app.calls = destroyed a.calls := by
  induction images with
  | nil => intro i a; rfl
  | cons x rest ih =>
    intro i a
    unfold createImageViewsLoop
    simp only
    split_ifs
    · simp [Outcome.app, App.log, destroyed_append]
      rfl
    · rw [ih]
      simp [App.log, destroyed_append]
      rfl

theorem createImageViews_destroyed (a : App) :
    destroyed (createImageViews drv a).app.calls = destroyed a.calls := by
  unfold createImageViews
  simp only
  rw [createImageViewsLoop_destroyed]

theorem createImageViewsLoop_ok_all (images : List Nat) : ∀ (i : Nat) (a a' : App),
    createImageViewsLoop drv images i a = .ok a' →
    ∀ image ∈ images, (drv.vkCreateImageView a.device
      (imageViewCreateInfo image a.swapChainImageFormat)).1 = VK_SUCCESS := by
  induction images with
  | nil => intro i a a' _ image h; cases h
  | cons x rest ih =>
    intro i a a' h image hmem
    unfold createImageViewsLoop at h
    simp only at h
    split_ifs at h with hx
    rcases List.mem_cons.1 hmem with rfl | hmem
    · exact not_not.1 hx
    · exact ih _ _ _ h image hmem

theorem acquired_map_createImageView (device : Nat) (format : VkFormat) (images : List Nat) :
    acquired (images.map (fun image =>
      VkCall.vkCreateImageView device (imageViewCreateInfo image format))) =
      List.replicate images.length Resource.imageView := by
  induction images with
  | nil => rfl
  | cons x rest ih =>
    simp only [List.map_cons, List.length_cons, List.replicate_succ]
    rw [← ih]
    rfl

theorem createImageViews_acquired (a a' : App) (h : createImageViews drv a = .ok a') :
    acquired a'.calls =
      acquired a.calls ++ List.replicate a'.swapChainImageViews.length Resource.imageView ∧
    a'.swapChainImageViews.length = a'.swapChainImages.length := by
  have hall : ∀ image ∈ a.swapChainImages, (drv.vkCreateImageView a.device
      (imageViewCreateInfo image a.swapChainImageFormat)).1 = VK_SUCCESS := by
    exact createImageViewsLoop_ok_all drv a.swapChainImages 0
      { a with swapChainImageViews :=
          vectorResize 0 a.swapChainImageViews a.swapChainImages.length } a' h
  have key := createImageViewsLoop_ok drv a.swapChainImages 0
    { a with swapChainImageViews :=
        vectorResize 0 a.swapChainImageViews a.swapChainImages.length } hall
  unfold createImageViews at h
  simp only at h
  rw [key] at h
  cases h
  simp only [length_setFrom, length_vectorResize, acquired_append, acquired_map_createImageView,
    and_self]

theorem createGraphicsPipeline_calls (a : App) :
    acquired (createGraphicsPipeline drv a).app.calls = acquired a.calls ∧
    destroyed (createGraphicsPipeline drv a).app.calls = destroyed a.calls ∧
    (createGraphicsPipeline drv a).app =
      { a with calls := (createGraphicsPipeline drv a).app.calls } := by
  unfold createGraphicsPipeline readFile createShaderModule
  simp only
  cases drv.readFile "../shaders/vert.spv" with
  | none =>
    simp only [Outcome.app, App.log, acquired_append, destroyed_append]
    refine ⟨?_, ?_, ?_⟩ <;> simp [acquired, destroyed, VkCall.acquires, VkCall.destroys]
  | some vertCode =>
    cases drv.readFile "../shaders/frag.spv" with
    | none =>
      simp only [Outcome.app, App.log, acquired_append, destroyed_append]
      refine ⟨?_, ?_, ?_⟩ <;> simp [acquired, destroyed, VkCall.acquires, VkCall.destroys]
    | some fragCode =>
      simp only
      split_ifs <;>
        simp only [Outcome.app, App.log, acquired_append, destroyed_append] <;>
        refine ⟨?_, ?_, ?_⟩ <;>
        simp [acquired, destroyed, VkCall.acquires, VkCall.destroys]

theorem mainLoopCalls_neutral (window : Nat) (n : Nat) :
    ∀ c ∈ mainLoopCalls window n, c.isNeutral = true := by
  induction n with
  | zero =>
    intro c hc
    rcases List.mem_singleton.1 hc with rfl
    rfl
  | succ k ih =>
    intro c hc
    simp only [mainLoopCalls, List.mem_cons] at hc
    rcases hc with rfl | rfl | hc
    · rfl
    · rfl
    · exact ih c hc

theorem mainLoop_ok (a a' : App) (h : mainLoop drv a = .ok a') :
    ∃ cs, a' = a.log cs ∧ ∀ c ∈ cs, c.isNeutral = true := by
  unfold mainLoop at h
  split at h
  · cases h
    exact ⟨_, rfl, mainLoopCalls_neutral _ _⟩
  · cases h

/-- The calls `cleanup` appends to the log, in order. -/
theorem cleanup_eq (a : App) :
    cleanup drv g a =
      a.log (a.swapChainImageViews.map (fun imageView =>
          VkCall.vkDestroyImageView a.device imageView) ++
        [.vkDestroySwapchainKHR a.device a.swapChain] ++
        (if g.enableValidationLayers then
          DestroyDebugUtilsMessengerEXT drv a.inst a.debugMessenger else []) ++
        [.vkDestroyDevice a.device, .vkDestroySurfaceKHR a.inst a.surface,
         .vkDestroyInstance a.inst, .glfwDestroyWindow a.window, .glfwTerminate]) := by
  unfold cleanup
  by_cases hv : g.enableValidationLayers = true
  · simp [hv, App.log, List.append_assoc]
  · simp [hv, App.log, List.append_assoc]

/-- What a normal return of `initVulkan` has created, and that it has destroyed nothing. -/
theorem initVulkan_ok (a a8 : App) (h : initVulkan drv g a = .ok a8) :
    acquired a8.calls =
      acquired a.calls ++ ([.vkInstance] ++
        (if g.enableValidationLayers then [.debugMessenger] else []) ++
        [.surface, .device, .swapChain] ++
        List.replicate a8.swapChainImageViews.length Resource.imageView) ∧
    destroyed a8.calls = destroyed a.calls ∧
    a8.swapChainImageViews.length = a8.swapChainImages.length := by
  unfold initVulkan at h
  obtain ⟨a7, h, h8⟩ := andThen_eq_ok h
  obtain ⟨a6, h, h7⟩ := andThen_eq_ok h
  obtain ⟨a5, h, h6⟩ := andThen_eq_ok h
  obtain ⟨a4, h, h5⟩ := andThen_eq_ok h
  obtain ⟨a3, h, h4⟩ := andThen_eq_ok h
  obtain ⟨a2, h, h3⟩ := andThen_eq_ok h
  obtain ⟨a1, h1, h2⟩ := andThen_eq_ok h
  have d1 := createInstance_destroyed drv g a
  rw [h1, Outcome.app_ok] at d1
  have d2 := setupDebugMessenger_destroyed drv g a1
  rw [h2, Outcome.app_ok] at d2
  have d3 := createSurface_destroyed drv a2
  rw [h3, Outcome.app_ok] at d3
  have c4 := pickPhysicalDevice_calls drv g a3
  rw [h4, Outcome.app_ok] at c4
  have d5 := createLogicDevice_destroyed drv g a4
  rw [h5, Outcome.app_ok] at d5
  have d6 := createSwapChain_destroyed drv a5
  rw [h6, Outcome.app_ok] at d6
  have d7 := createImageViews_destroyed drv a6
  rw [h7, Outcome.app_ok] at d7
  have c8 := createGraphicsPipeline_calls drv a7
  rw [h8, Outcome.app_ok] at c8
  have q1 := createInstance_acquired drv g a a1 h1
  have q2 := setupDebugMessenger_acquired drv g a1 a2 h2
  have q3 := createSurface_acquired drv a2 a3 h3
  have q5 := createLogicDevice_acquired drv g a4 a5 h5
  have q6 := createSwapChain_acquired drv a5 a6 h6
  have q7 := createImageViews_acquired drv a6 a7 h7
  have hviews : a8.swapChainImageViews = a7.swapChainImageViews := by rw [c8.2.2]
  have himages : a8.swapChainImages = a7.swapChainImages := by rw [c8.2.2]
  refine ⟨?_, ?_, ?_⟩
  · rw [c8.1, q7.1, q6, q5, c4.1, q3, q2, q1, hviews]
    simp [List.append_assoc]
  · rw [c8.2.1, d7, d6, d5, c4.2, d3, d2, d1]
  · rw [hviews, himages]
    exact q7.2

theorem filter_destroys_of_destroyed_nil {cs : List VkCall} (h : destroyed cs = []) :
    cs.filter (fun c => c.destroys.isSome) = [] := by
  rw [List.filter_eq_nil_iff]
  intro c hc
  rw [List.filterMap_eq_nil_iff.1 h c hc]
  simp

theorem destroyed_eq_filter (cs : List VkCall) :
    destroyed cs = (cs.filter (fun c => c.destroys.isSome)).filterMap VkCall.destroys := by
  induction cs with
  | nil => rfl
  | cons c rest ih =>
    unfold destroyed at ih ⊢
    cases hc : c.destroys with
    | none => simp [List.filterMap_cons, List.filter_cons, hc, ih]
    | some r => simp [List.filterMap_cons, List.filter_cons, hc, ih]

/-- The whole log of a successful run: what it has created, and its destruction calls. -/
theorem run_ok_trace (final : App) (h : run drv g App.fresh = .ok final) :
    acquired final.calls =
      [.vkInstance] ++ (if g.enableValidationLayers then [.debugMessenger] else []) ++
        [.surface, .device, .swapChain] ++
        List.replicate final.swapChainImageViews.length Resource.imageView ∧
    final.calls.filter (fun c => c.destroys.isSome) =
      final.swapChainImageViews.map (fun imageView =>
          VkCall.vkDestroyImageView final.device imageView) ++
        [.vkDestroySwapchainKHR final.device final.swapChain] ++
        (if g.enableValidationLayers = true ∧
            drv.vkGetInstanceProcAddr final.inst "vkDestroyDebugUtilsMessengerEXT" = true then
          [.vkDestroyDebugUtilsMessengerEXT final.inst final.debugMessenger] else []) ++
        [.vkDestroyDevice final.device, .vkDestroySurfaceKHR final.inst final.surface,
         .vkDestroyInstance final.inst] ∧
    final.swapChainImageViews.length = final.swapChainImages.length := by
  unfold run at h
  obtain ⟨a9, h, hfinal⟩ := andThen_eq_ok h
  obtain ⟨a8, h8, h9⟩ := andThen_eq_ok h
  obtain ⟨cs, rfl, hcs⟩ := mainLoop_ok drv a8 a9 h9
  obtain ⟨q8, d8, l8⟩ := initVulkan_ok drv g _ a8 h8
  have hw := initWindow_calls drv App.fresh
  rw [hw.1] at q8
  rw [hw.2] at d8
  have hfresh : App.fresh.calls = [] := rfl
  rw [hfresh] at q8 d8
  cases hfinal
  rw [cleanup_eq]
  have hmapA : acquired (a8.swapChainImageViews.map (fun imageView =>
      VkCall.vkDestroyImageView a8.device imageView)) = [] := by
    refine List.filterMap_eq_nil_iff.2 (fun c hc => ?_)
    obtain ⟨v, _, rfl⟩ := List.mem_map.1 hc
    rfl
  have hmapD : (a8.swapChainImageViews.map (fun imageView =>
      VkCall.vkDestroyImageView a8.device imageView)).filter (fun c => c.destroys.isSome) =
      a8.swapChainImageViews.map (fun imageView =>
        VkCall.vkDestroyImageView a8.device imageView) := by
    rw [List.filter_eq_self]
    intro c hc
    obtain ⟨v, _, rfl⟩ := List.mem_map.1 hc
    rfl
  have hdbgA : acquired (DestroyDebugUtilsMessengerEXT drv a8.inst a8.debugMessenger) = [] := by
    unfold DestroyDebugUtilsMessengerEXT
    split_ifs <;> rfl
  have hA0 : (a8.calls).filter (fun c => c.destroys.isSome) = [] :=
    filter_destroys_of_destroyed_nil d8
  have hA1 : cs.filter (fun c => c.destroys.isSome) = [] :=
    filter_destroys_of_destroyed_nil (destroyed_of_neutral hcs)
  refine ⟨?_, ?_, l8⟩
  · by_cases hv : g.enableValidationLayers = true
    · simp only [hv, if_true, App.log, acquired_append, q8, acquired_of_neutral hcs, hmapA, hdbgA]
      simp [acquired, VkCall.acquires]
    · simp only [hv, if_false, App.log, acquired_append, q8, acquired_of_neutral hcs, hmapA]
      simp [acquired, VkCall.acquires]
  · simp only [App.log, List.filter_append, hA0, hA1, hmapD, List.nil_append]
    by_cases hv : g.enableValidationLayers = true
    · by_cases hp : drv.vkGetInstanceProcAddr a8.inst "vkDestroyDebugUtilsMessengerEXT" = true
      · simp [hv, hp, DestroyDebugUtilsMessengerEXT, VkCall.destroys]
      · simp [hv, hp, DestroyDebugUtilsMessengerEXT, VkCall.destroys]
    · simp [hv, VkCall.destroys]

theorem destroyed_map_destroyImageView (device : Nat) (views : List Nat) :
    (views.map (fun imageView => VkCall.vkDestroyImageView device imageView)).filterMap
        VkCall.destroys = List.replicate views.length Resource.imageView := by
  induction views with
  | nil => rfl
  | cons x rest ih =>
    simp only [List.map_cons, List.length_cons, List.replicate_succ]
    rw [← ih]
    rfl

/-- C16: on a successful run (with the loader resolving `vkDestroyDebugUtilsMessengerEXT` when
validation is enabled), the destruction calls of the whole run are exactly those of `cleanup`,
in this order: one `vkDestroyImageView` per image view, `vkDestroySwapchainKHR`, the debug
messenger (only when validation is enabled), `vkDestroyDevice`, `vkDestroySurfaceKHR`,
`vkDestroyInstance`; there is one view per swap-chain image, and every kind of object created
during the run occurs as often among the creations as among the destructions. -/
theorem cleanup_destroy_order (final : App) (h : run drv g App.fresh = .ok final)
    (hd : g.enableValidationLayers = true →
      drv.vkGetInstanceProcAddr final.inst "vkDestroyDebugUtilsMessengerEXT" = true) :
    final.calls.filter (fun c => c.destroys.isSome) =
      final.swapChainImageViews.map (fun imageView =>
          VkCall.vkDestroyImageView final.device imageView) ++
        [.vkDestroySwapchainKHR final.device final.swapChain] ++
        (if g.enableValidationLayers then
          [.vkDestroyDebugUtilsMessengerEXT final.inst final.debugMessenger] else []) ++
        [.vkDestroyDevice final.device, .vkDestroySurfaceKHR final.inst final.surface,
         .vkDestroyInstance final.inst] ∧
    final.swapChainImageViews.length = final.swapChainImages.length ∧
    acquired final.calls =
      [.vkInstance] ++ (if g.enableValidationLayers then [.debugMessenger] else []) ++
        [.surface, .device, .swapChain] ++
        List.replicate final.swapChainImageViews.length Resource.imageView ∧
    destroyed final.calls =
      List.replicate final.swapChainImageViews.length Resource.imageView ++ [.swapChain] ++
        (if g.enableValidationLayers then [.debugMessenger] else []) ++
        [.device, .surface, .vkInstance] := by
  obtain ⟨hacq, hfil, hlen⟩ := run_ok_trace drv g final h
  have hfil' : final.calls.filter (fun c => c.destroys.isSome) =
      final.swapChainImageViews.map (fun imageView =>
          VkCall.vkDestroyImageView final.device imageView) ++
        [.vkDestroySwapchainKHR final.device final.swapChain] ++
        (if g.enableValidationLayers then
          [.vkDestroyDebugUtilsMessengerEXT final.inst final.debugMessenger] else []) ++
        [.vkDestroyDevice final.device, .vkDestroySurfaceKHR final.inst final.surface,
         .vkDestroyInstance final.inst] := by
    rw [hfil]
    by_cases hv : g.enableValidationLayers = true
    · simp [hv, hd hv]
    · simp [hv]
  refine ⟨hfil', hlen, hacq, ?_⟩
  rw [destroyed_eq_filter, hfil']
  simp only [List.filterMap_append, destroyed_map_destroyImageView]
  by_cases hv : g.enableValidationLayers = true
  · simp [hv, VkCall.destroys]
  · simp [hv, VkCall.destroys]

/-- C16, witness: a run of the mock driver with validation enabled and three swap-chain
images. -/
theorem cleanup_destroy_order_witness :
    (run (driverWith [(1, 1)]) (globals true) App.fresh).app.calls.filter
        (fun c => c.destroys.isSome) =
      [.vkDestroyImageView 5 121, .vkDestroyImageView 5 122, .vkDestroyImageView 5 123,
       .vkDestroySwapchainKHR 5 6, .vkDestroyDebugUtilsMessengerEXT 2 4, .vkDestroyDevice 5,
       .vkDestroySurfaceKHR 2 3, .vkDestroyInstance 2] :=
  (cleanup_destroy_order (driverWith [(1, 1)]) (globals true)
    (run (driverWith [(1, 1)]) (globals true) App.fresh).app (by decide) (fun _ => rfl)).1

theorem createdObjects_append (xs ys : List VkCall) :
    createdObjects drv (xs ++ ys) = createdObjects drv xs ++ createdObjects drv ys :=
  List.filterMap_append _ _ _

theorem creates_of_neutral {c : VkCall} (h : c.isNeutral = true) : c.creates drv = none := by
  have ha := acquires_of_neutral h
  cases c <;> first | rfl | cases ha

theorem createdObjects_of_neutral {cs : List VkCall} (h : ∀ c ∈ cs, c.isNeutral = true) :
    createdObjects drv cs = [] :=
  List.filterMap_eq_nil_iff.2 (fun c hc => creates_of_neutral drv (h c hc))

theorem destroysObject_of_destroys_none {c : VkCall} (h : c.destroys = none) :
    c.destroysObject = none := by
  cases c <;> first | rfl | cases h

theorem destroyedObjects_eq_filter (cs : List VkCall) :
    destroyedObjects cs =
      (cs.filter (fun c => c.destroys.isSome)).filterMap VkCall.destroysObject := by
  induction cs with
  | nil => rfl
  | cons c rest ih =>
    unfold destroyedObjects at ih ⊢
    cases hc : c.destroys with
    | none =>
      simp [List.filterMap_cons, List.filter_cons, hc, ih, destroysObject_of_destroys_none hc]
    | some r => simp [List.filterMap_cons, List.filter_cons, hc, ih]

theorem destroyedObjects_map_destroyImageView (device : Nat) (views : List Nat) :
    (views.map (fun imageView => VkCall.vkDestroyImageView device imageView)).filterMap
        VkCall.destroysObject = views.map (fun imageView => (Resource.imageView, imageView)) := by
  induction views with
  | nil => rfl
  | cons x rest ih =>
    simp only [List.map_cons]
    rw [← ih]
    rfl

theorem createdObjects_map_createImageView (device : Nat) (format : VkFormat)
    (images : List Nat) :
    createdObjects drv (images.map (fun image =>
      VkCall.vkCreateImageView device (imageViewCreateInfo image format))) =
      (images.map (fun image =>
        (drv.vkCreateImageView device (imageViewCreateInfo image format)).2)).map
        (fun imageView => (Resource.imageView, imageView)) := by
  induction images with
  | nil => rfl
  | cons x rest ih =>
    simp only [List.map_cons]
    rw [← ih]
    rfl

theorem initWindow_created (a : App) :
    createdObjects drv (initWindow drv a).calls = createdObjects drv a.calls := by
  simp [initWindow, App.log, createdObjects_append]
  rfl

theorem createInstance_created (a a' : App) (h : createInstance drv g a = .ok a') :
    createdObjects drv a'.calls = createdObjects drv a.calls ++ [(.vkInstance, a'.inst)] := by
  unfold createInstance at h
  simp only [checkValidationLayerSupport, getRequiredExtensions] at h
  split_ifs at h <;> cases h <;> simp [App.log, createdObjects_append] <;> rfl

theorem setupDebugMessenger_created (a a' : App) (h : setupDebugMessenger drv g a = .ok a') :
    createdObjects drv a'.calls =
      createdObjects drv a.calls ++
        (if g.enableValidationLayers then [(.debugMessenger, a'.debugMessenger)] else []) ∧
    a'.inst = a.inst := by
  unfold setupDebugMessenger CreateDebugUtilsMessengerEXT at h
  by_cases hv : g.enableValidationLayers = true
  · by_cases hp : drv.vkGetInstanceProcAddr a.inst "vkCreateDebugUtilsMessengerEXT" = true
    · simp only [hv, hp, Bool.not_true, Bool.false_eq_true, if_false, if_true] at h
      split_ifs at h
      cases h
      refine ⟨?_, rfl⟩
      simp [App.log, createdObjects_append, hv]
      rfl
    · simp only [hv, hp, Bool.not_true, Bool.false_eq_true, if_false] at h
      split_ifs at h with hr
      exact absurd (by decide : VK_ERROR_EXTENSION_NOT_PRESENT ≠ VK_SUCCESS) hr
  · have hv' : g.enableValidationLayers = false := by simpa using hv
    simp only [hv', Bool.not_false, if_true] at h
    cases h
    simp [hv']

theorem createSurface_created (a a' : App) (h : createSurface drv a = .ok a') :
    createdObjects drv a'.calls = createdObjects drv a.calls ++ [(.surface, a'.surface)] ∧
    a'.inst = a.inst ∧ a'.debugMessenger = a.debugMessenger := by
  unfold createSurface at h
  simp only at h
  split_ifs at h
  cases h
  refine ⟨?_, rfl, rfl⟩
  simp [App.log, createdObjects_append]
  rfl

theorem pickPhysicalDevice_created (a a' : App) (h : pickPhysicalDevice drv g a = .ok a') :
    createdObjects drv a'.calls = createdObjects drv a.calls ∧
    a'.inst = a.inst ∧ a'.debugMessenger = a.debugMessenger ∧ a'.surface = a.surface := by
  have hn := pickPhysicalDeviceLoop_neutral drv g a (devicesOf drv a) a.physicalDevice
  unfold pickPhysicalDevice at h
  simp only at h
  split_ifs at h
  cases h
  refine ⟨?_, rfl, rfl, rfl⟩
  simp only [App.log, createdObjects_append, createdObjects_of_neutral drv hn, List.append_nil]
  simp [createdObjects, VkCall.creates]

theorem createLogicDevice_created (a a' : App) (h : createLogicDevice drv g a = .ok a') :
    createdObjects drv a'.calls = createdObjects drv a.calls ++ [(.device, a'.device)] ∧
    a'.inst = a.inst ∧ a'.debugMessenger = a.debugMessenger ∧ a'.surface = a.surface := by
  have hq := createdObjects_of_neutral drv (findQueueFamilies_neutral drv a a.physicalDevice)
  unfold createLogicDevice at h
  simp only at h
  generalize findQueueFamilies drv a a.physicalDevice = fq at hq h
  obtain ⟨⟨gfo, pfo⟩, fc⟩ := fq
  simp only at hq
  cases gfo with
  | none => cases h
  | some gf =>
    cases pfo with
    | none => cases h
    | some pf =>
      simp only at h
      split_ifs at h <;> cases h <;> refine ⟨?_, rfl, rfl, rfl⟩ <;>
        simp [App.log, createdObjects_append, hq] <;>
        simp [createdObjects, VkCall.creates]

theorem createSwapChain_created (a a' : App) (h : createSwapChain drv a = .ok a') :
    createdObjects drv a'.calls = createdObjects drv a.calls ++ [(.swapChain, a'.swapChain)] ∧
    a'.inst = a.inst ∧ a'.debugMessenger = a.debugMessenger ∧ a'.surface = a.surface ∧
    a'.device = a.device := by
  have hq := createdObjects_of_neutral drv (swapChainQueryCalls_neutral drv a)
  rw [createSwapChain_eq] at h
  cases hf : chooseSwapSurfaceFormat (querySwapChainSupport drv a a.physicalDevice).1.formats with
  | none => rw [hf] at h; cases h
  | some sf =>
    rw [hf] at h
    cases hg : (findQueueFamilies drv a a.physicalDevice).1.graphicsFamily with
    | none => rw [hg] at h; cases h
    | some gf =>
      rw [hg] at h
      cases hp : (findQueueFamilies drv a a.physicalDevice).1.presentFamily with
      | none => rw [hp] at h; cases h
      | some pf =>
        rw [hp] at h
        simp only at h
        split_ifs at h
        cases h
        refine ⟨?_, rfl, rfl, rfl, rfl⟩
        simp [App.log, createdObjects_append, hq]
        simp [createdObjects, VkCall.creates]

theorem createImageViews_created (a a' : App) (h : createImageViews drv a = .ok a') :
    createdObjects drv a'.calls =
      createdObjects drv a.calls ++
        a'.swapChainImageViews.map (fun imageView => (Resource.imageView, imageView)) ∧
    a'.inst = a.inst ∧ a'.debugMessenger = a.debugMessenger ∧ a'.surface = a.surface ∧
    a'.device = a.device ∧ a'.swapChain = a.swapChain := by
  have hall : ∀ image ∈ a.swapChainImages, (drv.vkCreateImageView a.device
      (imageViewCreateInfo image a.swapChainImageFormat)).1 = VK_SUCCESS := by
    exact createImageViewsLoop_ok_all drv a.swapChainImages 0
      { a with swapChainImageViews :=
          vectorResize 0 a.swapChainImageViews a.swapChainImages.length } a' h
  have key := createImageViewsLoop_ok drv a.swapChainImages 0
    { a with swapChainImageViews :=
        vectorResize 0 a.swapChainImageViews a.swapChainImages.length } hall
  unfold createImageViews at h
  simp only at h
  rw [key] at h
  cases h
  refine ⟨?_, rfl, rfl, rfl, rfl, rfl⟩
  simp only [createdObjects_append, createdObjects_map_createImageView]
  rw [setFrom_zero_eq _ _ (by simp [length_vectorResize])]

theorem createGraphicsPipeline_created (a : App) :
    createdObjects drv (createGraphicsPipeline drv a).app.calls = createdObjects drv a.calls := by
  unfold createGraphicsPipeline readFile createShaderModule
  simp only
  cases drv.readFile "../shaders/vert.spv" with
  | none =>
    simp only [Outcome.app, App.log, createdObjects_append]
    simp [createdObjects, VkCall.creates]
  | some vertCode =>
    cases drv.readFile "../shaders/frag.spv" with
    | none =>
      simp only [Outcome.app, App.log, createdObjects_append]
      simp [createdObjects, VkCall.creates]
    | some fragCode =>
      simp only
      split_ifs <;>
        simp only [Outcome.app, App.log, createdObjects_append] <;>
        simp [createdObjects, VkCall.creates]

/-- The objects a successful run has created, in order, with their handles. -/
theorem run_ok_created (final : App) (h : run drv g App.fresh = .ok final) :
    createdObjects drv final.calls =
      [(.vkInstance, final.inst)] ++
        (if g.enableValidationLayers then [(.debugMessenger, final.debugMessenger)] else []) ++
        [(.surface, final.surface), (.device, final.device), (.swapChain, final.swapChain)] ++
        final.swapChainImageViews.map (fun imageView => (Resource.imageView, imageView)) := by
  unfold run at h
  obtain ⟨a9, h, hfinal⟩ := andThen_eq_ok h
  obtain ⟨a8, h8, h9⟩ := andThen_eq_ok h
  obtain ⟨cs, rfl, hcs⟩ := mainLoop_ok drv a8 a9 h9
  unfold initVulkan at h8
  obtain ⟨a7, h, h8⟩ := andThen_eq_ok h8
  obtain ⟨a6, h, h7⟩ := andThen_eq_ok h
  obtain ⟨a5, h, h6⟩ := andThen_eq_ok h
  obtain ⟨a4, h, h5⟩ := andThen_eq_ok h
  obtain ⟨a3, h, h4⟩ := andThen_eq_ok h
  obtain ⟨a2, h, h3⟩ := andThen_eq_ok h
  obtain ⟨a1, h1, h2⟩ := andThen_eq_ok h
  have q1 := createInstance_created drv g _ a1 h1
  rw [initWindow_created] at q1
  have hfresh : createdObjects drv App.fresh.calls = [] := rfl
  rw [hfresh, List.nil_append] at q1
  obtain ⟨q2, i2⟩ := setupDebugMessenger_created drv g a1 a2 h2
  obtain ⟨q3, i3, m3⟩ := createSurface_created drv a2 a3 h3
  obtain ⟨q4, i4, m4, s4⟩ := pickPhysicalDevice_created drv g a3 a4 h4
  obtain ⟨q5, i5, m5, s5⟩ := createLogicDevice_created drv g a4 a5 h5
  obtain ⟨q6, i6, m6, s6, d6⟩ := createSwapChain_created drv a5 a6 h6
  obtain ⟨q7, i7, m7, s7, d7, c7⟩ := createImageViews_created drv a6 a7 h7
  have q8 := createGraphicsPipeline_created drv a7
  have c8 := (createGraphicsPipeline_calls drv a7).2.2
  rw [h8, Outcome.app_ok] at q8 c8
  have hinst : a8.inst = a1.inst := by rw [c8]; simp [i7, i6, i5, i4, i3, i2]
  have hdm : a8.debugMessenger = a2.debugMessenger := by rw [c8]; simp [m7, m6, m5, m4, m3]
  have hsurf : a8.surface = a3.surface := by rw [c8]; simp [s7, s6, s5, s4]
  have hdev : a8.device = a5.device := by rw [c8]; simp [d7, d6]
  have hswap : a8.swapChain = a6.swapChain := by rw [c8]; simp [c7]
  have hviews : a8.swapChainImageViews = a7.swapChainImageViews := by rw [c8]
  have hcreated : createdObjects drv a8.calls =
      [(.vkInstance, a8.inst)] ++
        (if g.enableValidationLayers then [(.debugMessenger, a8.debugMessenger)] else []) ++
        [(.surface, a8.surface), (.device, a8.device), (.swapChain, a8.swapChain)] ++
        a8.swapChainImageViews.map (fun imageView => (Resource.imageView, imageView)) := by
    rw [q8, q7, q6, q5, q4, q3, q2, q1, hinst, hdm, hsurf, hdev, hswap, hviews]
    simp [List.append_assoc]
  cases hfinal
  rw [cleanup_eq]
  have hmap : createdObjects drv (a8.swapChainImageViews.map (fun imageView =>
      VkCall.vkDestroyImageView a8.device imageView)) = [] := by
    refine List.filterMap_eq_nil_iff.2 (fun c hc => ?_)
    obtain ⟨v, _, rfl⟩ := List.mem_map.1 hc
    rfl
  have hdbg : createdObjects drv (DestroyDebugUtilsMessengerEXT drv a8.inst a8.debugMessenger) =
      [] := by
    unfold DestroyDebugUtilsMessengerEXT
    split_ifs <;> rfl
  by_cases hv : g.enableValidationLayers = true
  · simp only [hv, if_true, App.log, createdObjects_append, createdObjects_of_neutral drv hcs,
      hmap, hdbg] at hcreated ⊢
    rw [hcreated]
    simp [createdObjects, VkCall.creates]
  · simp only [hv, if_false, App.log, createdObjects_append, createdObjects_of_neutral drv hcs,
      hmap] at hcreated ⊢
    rw [hcreated]
    simp [createdObjects, VkCall.creates]

/-- The objects a successful run has destroyed, in order, with their handles. -/
theorem run_ok_destroyed (final : App) (h : run drv g App.fresh = .ok final) :
    destroyedObjects final.calls =
      final.swapChainImageViews.map (fun imageView => (Resource.imageView, imageView)) ++
        [(.swapChain, final.swapChain)] ++
        (if g.enableValidationLayers = true ∧
            drv.vkGetInstanceProcAddr final.inst "vkDestroyDebugUtilsMessengerEXT" = true then
          [(.debugMessenger, final.debugMessenger)] else []) ++
        [(.device, final.device), (.surface, final.surface), (.vkInstance, final.inst)] := by
  rw [destroyedObjects_eq_filter, (run_ok_trace drv g final h).2.1]
  simp only [List.filterMap_append, destroyedObjects_map_destroyImageView]
  split_ifs <;> simp [VkCall.destroysObject]

/-- C17, as amended: on a successful run the objects are created in the order instance, debug
messenger (when validation is enabled), surface, logical device, swap chain, image views, and
destroyed in the order image views, swap chain, debug messenger (when validation is enabled and
the loader resolves `vkDestroyDebugUtilsMessengerEXT`), logical device, surface, instance.  The
image views are destroyed in the same order in which they were created, not in reverse; the
objects other than the image views and the debug messenger are destroyed in exactly the reverse
of the order of their creation; the debug messenger, created second, is destroyed after the
swap chain and before the logical device and the surface; and the whole destruction sequence
is the reverse of the creation sequence when validation is disabled and there is at most one
image view. -/
theorem cleanup_order_vs_acquisition (final : App) (h : run drv g App.fresh = .ok final) :
    createdObjects drv final.calls =
      [(.vkInstance, final.inst)] ++
        (if g.enableValidationLayers then [(.debugMessenger, final.debugMessenger)] else []) ++
        [(.surface, final.surface), (.device, final.device), (.swapChain, final.swapChain)] ++
        final.swapChainImageViews.map (fun imageView => (Resource.imageView, imageView)) ∧
    destroyedObjects final.calls =
      final.swapChainImageViews.map (fun imageView => (Resource.imageView, imageView)) ++
        [(.swapChain, final.swapChain)] ++
        (if g.enableValidationLayers = true ∧
            drv.vkGetInstanceProcAddr final.inst "vkDestroyDebugUtilsMessengerEXT" = true then
          [(.debugMessenger, final.debugMessenger)] else []) ++
        [(.device, final.device), (.surface, final.surface), (.vkInstance, final.inst)] ∧
    (destroyedObjects final.calls).filter (fun o => o.1 == Resource.imageView) =
      (createdObjects drv final.calls).filter (fun o => o.1 == Resource.imageView) ∧
    (destroyedObjects final.calls).filter
        (fun o => o.1 != Resource.imageView && o.1 != Resource.debugMessenger) =
      ((createdObjects drv final.calls).filter
        (fun o => o.1 != Resource.imageView && o.1 != Resource.debugMessenger)).reverse ∧
    (g.enableValidationLayers = false → final.swapChainImageViews.length ≤ 1 →
      destroyedObjects final.calls = (createdObjects drv final.calls).reverse) := by
  have hc := run_ok_created drv g final h
  have hd := run_ok_destroyed drv g final h
  have hviewsT : ∀ views : List Nat,
      (views.map (fun imageView => (Resource.imageView, imageView))).filter
        (fun o => o.1 == Resource.imageView) =
      views.map (fun imageView => (Resource.imageView, imageView)) := by
    intro views
    rw [List.filter_eq_self]
    intro o ho
    obtain ⟨v, _, rfl⟩ := List.mem_map.1 ho
    rfl
  have hviewsF : ∀ views : List Nat,
      (views.map (fun imageView => (Resource.imageView, imageView))).filter
        (fun o => o.1 != Resource.imageView && o.1 != Resource.debugMessenger) = [] := by
    intro views
    rw [List.filter_eq_nil_iff]
    intro o ho
    obtain ⟨v, _, rfl⟩ := List.mem_map.1 ho
    simp
  have b1 : (Resource.vkInstance == Resource.imageView) = false := by decide
  have b2 : (Resource.debugMessenger == Resource.imageView) = false := by decide
  have b3 : (Resource.surface == Resource.imageView) = false := by decide
  have b4 : (Resource.device == Resource.imageView) = false := by decide
  have b5 : (Resource.swapChain == Resource.imageView) = false := by decide
  have n1 : (Resource.vkInstance != Resource.imageView) = true := by decide
  have n2 : (Resource.debugMessenger != Resource.imageView) = true := by decide
  have n3 : (Resource.surface != Resource.imageView) = true := by decide
  have n4 : (Resource.device != Resource.imageView) = true := by decide
  have n5 : (Resource.swapChain != Resource.imageView) = true := by decide
  have m1 : (Resource.vkInstance != Resource.debugMessenger) = true := by decide
  have m2 : (Resource.debugMessenger != Resource.debugMessenger) = false := by decide
  have m3 : (Resource.surface != Resource.debugMessenger) = true := by decide
  have m4 : (Resource.device != Resource.debugMessenger) = true := by decide
  have m5 : (Resource.swapChain != Resource.debugMessenger) = true := by decide
  refine ⟨hc, hd, ?_, ?_, ?_⟩
  · rw [hc, hd]
    simp only [List.filter_append, hviewsT]
    split_ifs <;> simp [List.filter, b1, b2, b3, b4, b5]
  · rw [hc, hd]
    simp only [List.filter_append, hviewsF]
    split_ifs <;> simp [List.filter, n1, n2, n3, n4, n5, m1, m2, m3, m4, m5]
  · intro hv hlen
    rw [hc, hd]
    have hrev : (final.swapChainImageViews.map
        (fun imageView => (Resource.imageView, imageView))).reverse =
        final.swapChainImageViews.map (fun imageView => (Resource.imageView, imageView)) := by
      match hviews : final.swapChainImageViews, hlen with
      | [], _ => rfl
      | [v], _ => rfl
      | _ :: _ :: _, hl => simp at hl
    simp [hv, List.reverse_append, hrev]

/-- C17, counterexample: a successful run with three image views.  With validation enabled the
debug messenger, created second, is destroyed fifth instead of last but one; with validation
enabled or disabled the image views 121, 122, 123 are destroyed in the order of their creation;
in both cases the destruction sequence is not the reverse of the creation sequence. -/
theorem cleanup_not_reverse_with_validation :
    (main (driverWith [(1, 1)]) (globals true)).1 = some EXIT_SUCCESS ∧
    createdObjects (driverWith [(1, 1)]) (main (driverWith [(1, 1)]) (globals true)).2.calls =
      [(.vkInstance, 2), (.debugMessenger, 4), (.surface, 3), (.device, 5), (.swapChain, 6),
       (.imageView, 121), (.imageView, 122), (.imageView, 123)] ∧
    destroyedObjects (main (driverWith [(1, 1)]) (globals true)).2.calls =
      [(.imageView, 121), (.imageView, 122), (.imageView, 123), (.swapChain, 6),
       (.debugMessenger, 4), (.device, 5), (.surface, 3), (.vkInstance, 2)] ∧
    destroyedObjects (main (driverWith [(1, 1)]) (globals true)).2.calls ≠
      (createdObjects (driverWith [(1, 1)])
        (main (driverWith [(1, 1)]) (globals true)).2.calls).reverse ∧
    destroyed (main (driverWith [(1, 1)]) (globals true)).2.calls ≠
      (acquired (main (driverWith [(1, 1)]) (globals true)).2.calls).reverse ∧
    (main (driverWith [(1, 1)]) (globals false)).1 = some EXIT_SUCCESS ∧
    destroyedObjects (main (driverWith [(1, 1)]) (globals false)).2.calls =
      [(.imageView, 121), (.imageView, 122), (.imageView, 123), (.swapChain, 6),
       (.device, 5), (.surface, 3), (.vkInstance, 2)] ∧
    destroyedObjects (main (driverWith [(1, 1)]) (globals false)).2.calls ≠
      (createdObjects (driverWith [(1, 1)])
        (main (driverWith [(1, 1)]) (globals false)).2.calls).reverse := by
  decide

/-- C17, witness: a successful run with validation enabled and three image views. -/
theorem cleanup_order_vs_acquisition_witness :
    createdObjects (driverWith [(1, 1)])
        (run (driverWith [(1, 1)]) (globals true) App.fresh).app.calls =
      [(.vkInstance, 2), (.debugMessenger, 4), (.surface, 3), (.device, 5), (.swapChain, 6),
       (.imageView, 121), (.imageView, 122), (.imageView, 123)] ∧
    destroyedObjects (run (driverWith [(1, 1)]) (globals true) App.fresh).app.calls =
      [(.imageView, 121), (.imageView, 122), (.imageView, 123), (.swapChain, 6),
       (.debugMessenger, 4), (.device, 5), (.surface, 3), (.vkInstance, 2)] :=
  ⟨(cleanup_order_vs_acquisition (driverWith [(1, 1)]) (globals true)
      (run (driverWith [(1, 1)]) (globals true) App.fresh).app (by decide)).1,
   (cleanup_order_vs_acquisition (driverWith [(1, 1)]) (globals true)
      (run (driverWith [(1, 1)]) (globals true) App.fresh).app (by decide)).2.1⟩

/-- C15, as amended: when instance, debug messenger (if enabled), surface, adapter choice and
logical device succeed and `createSwapChain` then throws because `vkCreateSwapchainKHR` fails,
the exception leaves `run` without `cleanup` being executed and `main` returns `EXIT_FAILURE`:
the log of the whole run contains no destruction call, although the instance, the surface and
the logical device have been created (the creation calls issued before `createSwapChain` are
those for the instance, the debug messenger when validation is enabled, the surface and the
logical device, and the failing `vkCreateSwapchainKHR` call is the only one after them). -/
theorem createSwapChain_failure_no_teardown (a1 a2 a3 a4 a5 a6 : App)
    (h1 : createInstance drv g (initWindow drv App.fresh) = .ok a1)
    (h2 : setupDebugMessenger drv g a1 = .ok a2)
    (h3 : createSurface drv a2 = .ok a3)
    (h4 : pickPhysicalDevice drv g a3 = .ok a4)
    (h5 : createLogicDevice drv g a4 = .ok a5)
    (h6 : createSwapChain drv a5 = .thrown "\n\tCould not create SwapChain!" a6) :
    run drv g App.fresh = .thrown "\n\tCould not create SwapChain!" a6 ∧
    main drv g = (some EXIT_FAILURE, a6) ∧
    destroyed a6.calls = [] ∧
    acquired a5.calls =
      [.vkInstance] ++ (if g.enableValidationLayers then [.debugMessenger] else []) ++
        [.surface, .device] ∧
    acquired a6.calls = acquired a5.calls ++ [.swapChain] := by
  have hinit : initVulkan drv g (initWindow drv App.fresh) =
      .thrown "\n\tCould not create SwapChain!" a6 := by
    unfold initVulkan
    rw [h1]; simp only [Outcome.andThen]
    rw [h2]; simp only [Outcome.andThen]
    rw [h3]; simp only [Outcome.andThen]
    rw [h4]; simp only [Outcome.andThen]
    rw [h5]; simp only [Outcome.andThen]
    rw [h6]
  have hrun : run drv g App.fresh = .thrown "\n\tCould not create SwapChain!" a6 := by
    unfold run
    rw [hinit]
    rfl
  have hw := initWindow_calls drv App.fresh
  have hfresh : App.fresh.calls = [] := rfl
  have d1 := createInstance_destroyed drv g (initWindow drv App.fresh)
  rw [h1, Outcome.app_ok, hw.2, hfresh] at d1
  have d2 := setupDebugMessenger_destroyed drv g a1
  rw [h2, Outcome.app_ok, d1] at d2
  have d3 := createSurface_destroyed drv a2
  rw [h3, Outcome.app_ok, d2] at d3
  have c4 := pickPhysicalDevice_calls drv g a3
  rw [h4, Outcome.app_ok, d3] at c4
  have d5 := createLogicDevice_destroyed drv g a4
  rw [h5, Outcome.app_ok, c4.2] at d5
  have d6 := createSwapChain_destroyed drv a5
  rw [h6, Outcome.app_thrown, d5] at d6
  have q1 := createInstance_acquired drv g _ a1 h1
  rw [hw.1, hfresh] at q1
  have q2 := setupDebugMessenger_acquired drv g a1 a2 h2
  have q3 := createSurface_acquired drv a2 a3 h3
  have q5 := createLogicDevice_acquired drv g a4 a5 h5
  have hq := acquired_of_neutral (swapChainQueryCalls_neutral drv a5)
  have hbad : ¬ (badOptionalAccess = "\n\tCould not create SwapChain!") := by decide
  refine ⟨hrun, ?_, d6, ?_, ?_⟩
  · unfold main
    rw [hrun]
  · rw [q5, c4.1, q3, q2, q1]
    simp [acquired]
  · rw [createSwapChain_eq] at h6
    cases hf : chooseSwapSurfaceFormat (querySwapChainSupport drv a5 a5.physicalDevice).1.formats with
    | none => rw [hf] at h6; cases h6
    | some sf =>
      rw [hf] at h6
      cases hg : (findQueueFamilies drv a5 a5.physicalDevice).1.graphicsFamily with
      | none =>
        rw [hg] at h6
        injection h6 with hmsg _
        exact absurd hmsg hbad
      | some gf =>
        rw [hg] at h6
        cases hp : (findQueueFamilies drv a5 a5.physicalDevice).1.presentFamily with
        | none =>
          rw [hp] at h6
          injection h6 with hmsg _
          exact absurd hmsg hbad
        | some pf =>
          rw [hp] at h6
          simp only at h6
          split_ifs at h6
          injection h6 with _ hstate
          rw [← hstate]
          simp [App.log, acquired_append, hq]
          simp [acquired, VkCall.acquires]

/-- C15, counterexample: everything succeeds up to the logical device and
`vkCreateSwapchainKHR` fails; `main` returns `EXIT_FAILURE`, the creation calls in the log are
those for the instance, the debug messenger, the surface, the logical device and the failing
swap chain, and the log holds no destruction call at all: neither `vkDestroyDevice` nor
`vkDestroySurfaceKHR` nor `vkDestroyInstance` is issued. -/
theorem createSwapChain_failure_leaks :
    (main swapchainFailingDriver (globals true)).1 = some EXIT_FAILURE ∧
    acquired (main swapchainFailingDriver (globals true)).2.calls =
      [.vkInstance, .debugMessenger, .surface, .device, .swapChain] ∧
    destroyed (main swapchainFailingDriver (globals true)).2.calls = [] ∧
    VkCall.vkDestroyDevice 5 ∉ (main swapchainFailingDriver (globals true)).2.calls ∧
    VkCall.vkDestroySurfaceKHR 2 3 ∉ (main swapchainFailingDriver (globals true)).2.calls ∧
    VkCall.vkDestroyInstance 2 ∉ (main swapchainFailingDriver (globals true)).2.calls := by
  decide

/-- C15, witness: the driver on which `vkCreateSwapchainKHR` fails. -/
theorem createSwapChain_failure_no_teardown_witness :
    main swapchainFailingDriver (globals false) =
      (some EXIT_FAILURE, (run swapchainFailingDriver (globals false) App.fresh).app) :=
  (createSwapChain_failure_no_teardown swapchainFailingDriver (globals false)
    (createInstance swapchainFailingDriver (globals false)
      (initWindow swapchainFailingDriver App.fresh)).app
    (setupDebugMessenger swapchainFailingDriver (globals false)
      (createInstance swapchainFailingDriver (globals false)
        (initWindow swapchainFailingDriver App.fresh)).app).app
    (createSurface swapchainFailingDriver
      (createInstance swapchainFailingDriver (globals false)
        (initWindow swapchainFailingDriver App.fresh)).app).app
    (pickPhysicalDevice swapchainFailingDriver (globals false)
      (createSurface swapchainFailingDriver
        (createInstance swapchainFailingDriver (globals false)
          (initWindow swapchainFailingDriver App.fresh)).app).app).app
    (createLogicDevice swapchainFailingDriver (globals false)
      (pickPhysicalDevice swapchainFailingDriver (globals false)
        (createSurface swapchainFailingDriver
          (createInstance swapchainFailingDriver (globals false)
            (initWindow swapchainFailingDriver App.fresh)).app).app).app).app
    (run swapchainFailingDriver (globals false) App.fresh).app
    (by decide) (by decide) (by decide) (by decide) (by decide) (by decide)).2.1

end LifeCycle

/-! ## One adapter, one queue family, one surface format -/

section Scenario

variable (drv : Driver) (g : Globals) (app : App)

/-- C19: on a driver that reports one adapter with one queue family offering graphics and
presentation, all required device extensions, exactly one surface format `(formatA, spaceA)`
(any pair, in particular one different from the preferred pair) and exactly the present mode
FIFO, `pickPhysicalDevice` selects that adapter, `findQueueFamilies` returns
`graphicsFamily = 0` and `presentFamily = 0`, and `createSwapChain`, run on the selected
adapter, passes exactly one create info, with exclusive sharing mode, present mode FIFO and
format `(formatA, spaceA)`. -/
theorem single_adapter_scenario (adapter : VkPhysicalDevice) (family : VkQueueFamilyProperties)
    (formatA : VkFormat) (spaceA : VkColorSpaceKHR)
    (hdev : drv.vkEnumeratePhysicalDevices app.inst = ⟨1, [adapter]⟩)
    (hadapter : adapter ≠ VK_NULL_HANDLE)
    (hfam : drv.vkGetPhysicalDeviceQueueFamilyProperties adapter = ⟨1, [family]⟩)
    (hgraphics : family.queueFlags &&& VK_QUEUE_GRAPHICS_BIT ≠ 0)
    (hpresent : drv.vkGetPhysicalDeviceSurfaceSupportKHR adapter 0 app.surface ≠ 0)
    (hext : ∀ name ∈ g.deviceExtensions, name ∈ availableExtensionsOf drv adapter)
    (hformats : drv.vkGetPhysicalDeviceSurfaceFormatsKHR adapter app.surface =
      ⟨1, [⟨formatA, spaceA⟩]⟩)
    (hmodes : drv.vkGetPhysicalDeviceSurfacePresentModesKHR adapter app.surface =
      ⟨1, [VK_PRESENT_MODE_FIFO_KHR]⟩) :
    (∃ app', pickPhysicalDevice drv g app = .ok app' ∧ app'.physicalDevice = adapter ∧
      app'.surface = app.surface) ∧
    (findQueueFamilies drv app adapter).1 = ⟨some 0, some 0⟩ ∧
    (∀ a : App, a.physicalDevice = adapter → a.surface = app.surface →
      ∃ ci, swapchainCreateInfos (createSwapChain drv a).app.calls =
          swapchainCreateInfos a.calls ++ [ci] ∧
        ci.imageSharingMode = VK_SHARING_MODE_EXCLUSIVE ∧
        ci.presentMode = VK_PRESENT_MODE_FIFO_KHR ∧
        ci.imageFormat = formatA ∧ ci.imageColorSpace = spaceA) := by
  have hq : queueFamiliesOf drv adapter = [family] := by
    simp [queueFamiliesOf, Enumeration.fill, writeInto, hfam]
  have hfq : ∀ a : App, a.surface = app.surface →
      (findQueueFamilies drv a adapter).1 = ⟨some 0, some 0⟩ := by
    intro a ha
    rw [findQueueFamilies_fst, hq]
    simp [findQueueFamiliesLoop, ha, hgraphics, hpresent, QueueFamilyIndices.isComplete]
  have hsup : ∀ a : App, a.surface = app.surface →
      (querySwapChainSupport drv a adapter).1.formats = [⟨formatA, spaceA⟩] ∧
      (querySwapChainSupport drv a adapter).1.presentModes = [VK_PRESENT_MODE_FIFO_KHR] := by
    intro a ha
    simp [querySwapChainSupport, ha, hformats, hmodes, Enumeration.fill, writeInto]
  have hsuit : (isDeviceSuitable drv g app adapter).1 = true := by
    rw [(isDeviceSuitable_iff drv g app adapter).1]
    refine ⟨?_, hext, ?_, ?_⟩
    · rw [hfq app rfl]; rfl
    · rw [(hsup app rfl).1]; simp
    · rw [(hsup app rfl).2]; simp
  have hdevs : devicesOf drv app = [adapter] := by
    simp [devicesOf, Enumeration.fill, writeInto, hdev]
  refine ⟨?_, hfq app rfl, ?_⟩
  · unfold pickPhysicalDevice
    simp only [hdev, hdevs, pickPhysicalDeviceLoop, hsuit, if_true]
    simp [hadapter, App.log]
  · intro a hpd hsurf
    have hci := createSwapChain_createInfos drv a
    have hch : chooseSwapSurfaceFormat [(⟨formatA, spaceA⟩ : VkSurfaceFormatKHR)] =
        some ⟨formatA, spaceA⟩ := by
      unfold chooseSwapSurfaceFormat
      simp only [List.find?]
      cases (formatA == VK_FORMAT_B8G8R8A8_SRGB && spaceA == VK_COLOR_SPACE_SRGB_NONLINEAR_KHR) <;>
        rfl
    rw [hpd, (hsup a hsurf).1, hch, hfq a hsurf] at hci
    refine ⟨_, hci, ?_, ?_, rfl, rfl⟩
    · simp [swapchainCreateInfoOf]
    · simp [swapchainCreateInfoOf, hpd, (hsup a hsurf).2, chooseSwapPresentMode, List.find?,
        VK_PRESENT_MODE_FIFO_KHR, VK_PRESENT_MODE_MAILBOX_KHR]

/-- C19, witness: the mock driver with the single surface format `(37, 0)`. -/
theorem single_adapter_scenario_witness :
    (pickPhysicalDevice singleFormatDriver (globals true) App.fresh).app.physicalDevice = 1 ∧
    (findQueueFamilies singleFormatDriver App.fresh 1).1 = ⟨some 0, some 0⟩ ∧
    (swapchainCreateInfos (createSwapChain singleFormatDriver pickedApp).app.calls).map
        (fun ci => (ci.imageSharingMode, ci.presentMode, ci.imageFormat, ci.imageColorSpace)) =
      [(VK_SHARING_MODE_EXCLUSIVE, VK_PRESENT_MODE_FIFO_KHR, 37, 0)] ∧
    ((∃ app', pickPhysicalDevice singleFormatDriver (globals true) App.fresh = .ok app' ∧
        app'.physicalDevice = 1 ∧ app'.surface = App.fresh.surface) ∧
      (findQueueFamilies singleFormatDriver App.fresh 1).1 = ⟨some 0, some 0⟩ ∧
      (∀ a : App, a.physicalDevice = 1 → a.surface = App.fresh.surface →
        ∃ ci, swapchainCreateInfos (createSwapChain singleFormatDriver a).app.calls =
            swapchainCreateInfos a.calls ++ [ci] ∧
          ci.imageSharingMode = VK_SHARING_MODE_EXCLUSIVE ∧
          ci.presentMode = VK_PRESENT_MODE_FIFO_KHR ∧
          ci.imageFormat = 37 ∧ ci.imageColorSpace = VK_COLOR_SPACE_SRGB_NONLINEAR_KHR)) :=
  ⟨by decide, by decide, by decide,
   single_adapter_scenario singleFormatDriver (globals true) App.fresh 1 ⟨1, 1⟩ 37
     VK_COLOR_SPACE_SRGB_NONLINEAR_KHR rfl (by decide) rfl (by decide) (by decide) (by decide)
     rfl rfl⟩

end Scenario

/-! ## The result of `findQueueFamilies` as a whole -/

section QueueFamilyResult

variable (drv : Driver) (app : App) (device : VkPhysicalDevice)

/-- C24: `findQueueFamilies` returns a complete result if and only if the vector of queue
families holds at least one family with the graphics bit and at least one family (the same or
another one) that supports presentation to the surface. -/
theorem findQueueFamilies_complete_iff :
    (findQueueFamilies drv app device).1.isComplete = true ↔
      (∃ j, graphicsCapable drv device j) ∧ (∃ j, presentCapable drv app device j) := by
  rw [findQueueFamilies_fst]
  obtain ⟨hA, hB, hC, hD⟩ := findQueueFamiliesLoop_spec drv app device (queueFamiliesOf drv device)
  generalize (findQueueFamiliesLoop drv app device (queueFamiliesOf drv device) 0 ⟨none, none⟩).1 = r
    at hA hB hC hD ⊢
  constructor
  · intro hc
    obtain ⟨g, p, hg, hp⟩ := (isComplete_iff r).1 hc
    exact ⟨⟨g, (hA g hg).1⟩, ⟨p, (hB p hp).1⟩⟩
  · rintro ⟨⟨jg, hjg⟩, ⟨jp, hjp⟩⟩
    cases hrg : r.graphicsFamily with
    | none => exact absurd hjg (hC hrg jg)
    | some g =>
      cases hrp : r.presentFamily with
      | none => exact absurd (hD hrp jp hjp.1) hjp.2
      | some p => exact (isComplete_iff r).2 ⟨g, p, hrg, hrp⟩

/-- C25: when `findQueueFamilies` returns the complete pair `(g, p)`, there is a least index `k`
such that some family at an index `≤ k` has the graphics bit and some family at an index `≤ k`
supports presentation, namely `k = max g p`; `g` is the greatest graphics-capable index `≤ k`,
`p` is the greatest presentation-supporting index `≤ k`, and `g = k` or `p = k`. -/
theorem findQueueFamilies_break_index (g p : Nat)
    (h : (findQueueFamilies drv app device).1 = ⟨some g, some p⟩) :
    ∃ k,
      ((∃ j, j ≤ k ∧ graphicsCapable drv device j) ∧
        (∃ j, j ≤ k ∧ presentCapable drv app device j) ∧
        (∀ k', ((∃ j, j ≤ k' ∧ graphicsCapable drv device j) ∧
          (∃ j, j ≤ k' ∧ presentCapable drv app device j)) → k ≤ k')) ∧
      (g ≤ k ∧ graphicsCapable drv device g ∧
        ∀ j, j ≤ k → graphicsCapable drv device j → j ≤ g) ∧
      (p ≤ k ∧ presentCapable drv app device p ∧
        ∀ j, j ≤ k → presentCapable drv app device j → j ≤ p) ∧
      (g = k ∨ p = k) := by
  rw [findQueueFamilies_fst] at h
  obtain ⟨hA, hB, _, _⟩ := findQueueFamiliesLoop_spec drv app device (queueFamiliesOf drv device)
  obtain ⟨a1, a2, a3⟩ := hA g (by rw [h])
  obtain ⟨b1, b2, b3⟩ := hB p (by rw [h])
  have hG : graphicsCapable drv device g := a1
  have hP : presentCapable drv app device p := b1
  refine ⟨max g p, ⟨⟨g, le_max_left g p, hG⟩, ⟨p, le_max_right g p, hP⟩, ?_⟩,
    ⟨le_max_left g p, hG, ?_⟩, ⟨le_max_right g p, hP, ?_⟩, ?_⟩
  · rintro k' ⟨⟨jg, hjg, hGj⟩, ⟨jp, hjp, hPj⟩⟩
    by_contra hlt
    rcases le_total p g with hpg | hgp
    · rw [max_eq_left hpg] at hlt
      exact hPj.2 (a2 jg (by omega) hGj jp (by omega))
    · rw [max_eq_right hgp] at hlt
      exact b2 jp (by omega) hPj.2 jg (by omega) hGj
  · intro j hj hGj
    by_contra hlt
    have hjp : j ≤ p := by
      rcases le_total p g with hpg | hgp
      · rw [max_eq_left hpg] at hj; omega
      · rw [max_eq_right hgp] at hj; exact hj
    obtain ⟨p', hp', hS⟩ := a3 j (by omega) hGj
    exact b2 p' (by omega) hS g (by omega) hG
  · intro j hj hPj
    by_contra hlt
    have hjg : j ≤ g := by
      rcases le_total p g with hpg | hgp
      · rw [max_eq_left hpg] at hj; exact hj
      · rw [max_eq_right hgp] at hj; omega
    obtain ⟨g', hg', hGg⟩ := b3 j (by omega) hPj.1 hPj.2
    exact hP.2 (a2 g' (by omega) hGg p (by omega))
  · rcases le_total p g with hpg | hgp
    · left; rw [max_eq_left hpg]
    · right; rw [max_eq_right hgp]

/-- C25, witness: families graphics, graphics, presentation: the loop is left at `k = 2` with
`graphicsFamily = 1`, the greatest graphics-capable index, and `presentFamily = 2`. -/
theorem findQueueFamilies_break_index_witness :
    (findQueueFamilies (driverWith [(1, 0), (1, 0), (0, 1)]) App.fresh 1).1 = ⟨some 1, some 2⟩ ∧
    ∃ k,
      ((∃ j, j ≤ k ∧ graphicsCapable (driverWith [(1, 0), (1, 0), (0, 1)]) 1 j) ∧
        (∃ j, j ≤ k ∧ presentCapable (driverWith [(1, 0), (1, 0), (0, 1)]) App.fresh 1 j) ∧
        (∀ k', ((∃ j, j ≤ k' ∧ graphicsCapable (driverWith [(1, 0), (1, 0), (0, 1)]) 1 j) ∧
          (∃ j, j ≤ k' ∧ presentCapable (driverWith [(1, 0), (1, 0), (0, 1)]) App.fresh 1 j)) →
            k ≤ k')) ∧
      (1 ≤ k ∧ graphicsCapable (driverWith [(1, 0), (1, 0), (0, 1)]) 1 1 ∧
        ∀ j, j ≤ k → graphicsCapable (driverWith [(1, 0), (1, 0), (0, 1)]) 1 j → j ≤ 1) ∧
      (2 ≤ k ∧ presentCapable (driverWith [(1, 0), (1, 0), (0, 1)]) App.fresh 1 2 ∧
        ∀ j, j ≤ k → presentCapable (driverWith [(1, 0), (1, 0), (0, 1)]) App.fresh 1 j → j ≤ 2) ∧
      (1 = k ∨ 2 = k) :=
  ⟨by decide,
   findQueueFamilies_break_index (driverWith [(1, 0), (1, 0), (0, 1)]) App.fresh 1 1 2
     (by decide)⟩

/-- C26: every index `findQueueFamilies` sets is a position of the vector of queue families;
the family at `graphicsFamily` has the graphics bit, and the driver answers that the family at
`presentFamily` can present to the surface. -/
theorem findQueueFamilies_indices_valid :
    (∀ g, (findQueueFamilies drv app device).1.graphicsFamily = some g →
      g < (queueFamiliesOf drv device).length ∧
      ∃ q, (queueFamiliesOf drv device)[g]? = some q ∧
        q.queueFlags &&& VK_QUEUE_GRAPHICS_BIT ≠ 0) ∧
    (∀ p, (findQueueFamilies drv app device).1.presentFamily = some p →
      p < (queueFamiliesOf drv device).length ∧
      drv.vkGetPhysicalDeviceSurfaceSupportKHR device p app.surface ≠ 0) := by
  rw [findQueueFamilies_fst]
  obtain ⟨hA, hB, _, _⟩ := findQueueFamiliesLoop_spec drv app device (queueFamiliesOf drv device)
  exact ⟨fun g hg => ⟨graphicsIn_lt (hA g hg).1, (hA g hg).1⟩, fun p hp => (hB p hp).1⟩

end QueueFamilyResult

/-! ## Families after the point where the loop is left -/

section LaterFamilies

variable (drv drv' : Driver) (app : App) (device : VkPhysicalDevice)

/-- The loop of `findQueueFamilies` depends on the driver only through the presentation answers
for the indices it visits. -/
theorem findQueueFamiliesLoop_congr_driver (l : List VkQueueFamilyProperties) :
    ∀ (i : Nat) (ind : QueueFamilyIndices),
      (∀ j, j < l.length →
        drv'.vkGetPhysicalDeviceSurfaceSupportKHR device (i + j) app.surface =
          drv.vkGetPhysicalDeviceSurfaceSupportKHR device (i + j) app.surface) →
      (findQueueFamiliesLoop drv' app device l i ind).1 =
        (findQueueFamiliesLoop drv app device l i ind).1 := by
  induction l with
  | nil => intro i ind _; rfl
  | cons q rest ih =>
    intro i ind h
    have h0 := h 0 (by simp)
    rw [Nat.add_zero] at h0
    have hrest : ∀ r, (findQueueFamiliesLoop drv' app device rest (i + 1) r).1 =
        (findQueueFamiliesLoop drv app device rest (i + 1) r).1 := by
      intro r
      apply ih
      intro j hj
      have := h (j + 1) (by simp; omega)
      rw [show i + (j + 1) = i + 1 + j by omega] at this
      exact this
    rw [findQueueFamiliesLoop_cons, findQueueFamiliesLoop_cons, h0, hrest]

/-- Once the loop of `findQueueFamilies`, started on an incomplete pair, has produced a complete
pair on a vector, families appended to the vector are not visited. -/
theorem findQueueFamiliesLoop_append_of_complete (l extra : List VkQueueFamilyProperties) :
    ∀ (i : Nat) (ind : QueueFamilyIndices), ind.isComplete = false →
      (findQueueFamiliesLoop drv app device l i ind).1.isComplete = true →
      (findQueueFamiliesLoop drv app device (l ++ extra) i ind).1 =
        (findQueueFamiliesLoop drv app device l i ind).1 := by
  induction l with
  | nil =>
    intro i ind hind hc
    simp only [findQueueFamiliesLoop] at hc
    rw [hind] at hc
    cases hc
  | cons q rest ih =>
    intro i ind hind hc
    rw [List.cons_append, findQueueFamiliesLoop_cons]
    rw [findQueueFamiliesLoop_cons] at hc ⊢
    by_cases hv : (visitFamily (drv.vkGetPhysicalDeviceSurfaceSupportKHR device i app.surface)
        q i ind).isComplete = true
    · simp only [hv, if_true]
    · simp only [hv, Bool.false_eq_true, if_false] at hc ⊢
      exact ih (i + 1) _ (by simpa using hv) hc

/-- C21: when `findQueueFamilies` returns a complete result on a vector `fs` of families, it
returns the same result on every vector `fs ++ extra` (whatever the capabilities and the
presentation answers of the further families, so also when one of them offers both), and this
result is the one the loop produces on the shortest prefix of `fs` on which it is complete. -/
theorem findQueueFamilies_ignores_later_families (extra : List VkQueueFamilyProperties)
    (hfam : queueFamiliesOf drv' device = queueFamiliesOf drv device ++ extra)
    (hsup : ∀ i, i < (queueFamiliesOf drv device).length →
      drv'.vkGetPhysicalDeviceSurfaceSupportKHR device i app.surface =
        drv.vkGetPhysicalDeviceSurfaceSupportKHR device i app.surface)
    (hc : (findQueueFamilies drv app device).1.isComplete = true) :
    (findQueueFamilies drv' app device).1 = (findQueueFamilies drv app device).1 ∧
    ∃ k, k ≤ (queueFamiliesOf drv device).length ∧
      (findQueueFamiliesLoop drv app device ((queueFamiliesOf drv device).take k) 0
        ⟨none, none⟩).1.isComplete = true ∧
      (∀ k', k' < k →
        (findQueueFamiliesLoop drv app device ((queueFamiliesOf drv device).take k') 0
          ⟨none, none⟩).1.isComplete = false) ∧
      (findQueueFamilies drv' app device).1 =
        (findQueueFamiliesLoop drv app device ((queueFamiliesOf drv device).take k) 0
          ⟨none, none⟩).1 := by
  rw [findQueueFamilies_fst] at hc
  have hsame : (findQueueFamilies drv' app device).1 = (findQueueFamilies drv app device).1 := by
    rw [findQueueFamilies_fst, findQueueFamilies_fst, hfam]
    have hcongr := findQueueFamiliesLoop_congr_driver drv drv' app device
      (queueFamiliesOf drv device) 0 ⟨none, none⟩
      (fun j hj => by rw [Nat.zero_add]; exact hsup j hj)
    rw [findQueueFamiliesLoop_append_of_complete drv' app device _ extra 0 ⟨none, none⟩ rfl
      (by rw [hcongr]; exact hc), hcongr]
  have hex : ∃ k, (findQueueFamiliesLoop drv app device ((queueFamiliesOf drv device).take k) 0
      ⟨none, none⟩).1.isComplete = true :=
    ⟨(queueFamiliesOf drv device).length, by rw [List.take_length]; exact hc⟩
  refine ⟨hsame, Nat.find hex, ?_, Nat.find_spec hex, ?_, ?_⟩
  · exact Nat.find_min' hex (by rw [List.take_length]; exact hc)
  · intro k' hk'
    simpa using Nat.find_min hex hk'
  · rw [hsame, findQueueFamilies_fst]
    have happ := findQueueFamiliesLoop_append_of_complete drv app device
      ((queueFamiliesOf drv device).take (Nat.find hex))
      ((queueFamiliesOf drv device).drop (Nat.find hex)) 0 ⟨none, none⟩ rfl (Nat.find_spec hex)
    rw [List.take_append_drop] at happ
    exact happ

/-- C21, witness: `fs` is graphics-only followed by presentation-only; a third family offering
both is appended, and the result stays `(0, 1)`. -/
theorem findQueueFamilies_ignores_later_families_witness :
    (findQueueFamilies (driverWith [(1, 0), (0, 1), (1, 1)]) App.fresh 1).1 = ⟨some 0, some 1⟩ ∧
    (findQueueFamilies (driverWith [(1, 0), (0, 1), (1, 1)]) App.fresh 1).1 =
      (findQueueFamilies (driverWith [(1, 0), (0, 1)]) App.fresh 1).1 :=
  ⟨by decide,
   (findQueueFamilies_ignores_later_families (driverWith [(1, 0), (0, 1)])
     (driverWith [(1, 0), (0, 1), (1, 1)]) App.fresh 1 [⟨1, 1⟩] (by decide) (by decide)
     (by decide)).1⟩

end LaterFamilies

/-! ## `findQueueFamilies` of `src/v3_pre_swapChain.cpp` -/

section PreSwapChain

variable (drv : Driver) (g : Globals) (app : App) (device : VkPhysicalDevice)

theorem graphicsIn_cons_zero (q : VkQueueFamilyProperties) (rest : List VkQueueFamilyProperties) :
    graphicsIn (q :: rest) 0 ↔ q.queueFlags &&& VK_QUEUE_GRAPHICS_BIT ≠ 0 := by
  simp [graphicsIn]

theorem graphicsIn_cons_succ (q : VkQueueFamilyProperties) (rest : List VkQueueFamilyProperties)
    (m : Nat) : graphicsIn (q :: rest) (m + 1) ↔ graphicsIn rest m := by
  simp [graphicsIn]

/-- One iteration of the loop of the earlier `findQueueFamilies`, entered with the shared
variable `presentSupport` false and `presentFamily` empty. -/
theorem v3_findQueueFamiliesLoop_cons (q : VkQueueFamilyProperties)
    (rest : List VkQueueFamilyProperties) (i : Nat) (ind : QueueFamilyIndices)
    (hnone : ind.presentFamily = none) :
    (V3.findQueueFamiliesLoop drv app device (q :: rest) i 0 ind).1 =
      if q.queueFlags &&& VK_QUEUE_GRAPHICS_BIT ≠ 0 then
        if drv.vkGetPhysicalDeviceSurfaceSupportKHR device i app.surface ≠ 0 then
          ⟨some i, some i⟩
        else
          (V3.findQueueFamiliesLoop drv app device rest (i + 1) 0
            { ind with graphicsFamily := some i }).1
      else (V3.findQueueFamiliesLoop drv app device rest (i + 1) 0 ind).1 := by
  obtain ⟨gf, pf⟩ := ind
  simp only at hnone
  subst hnone
  rw [V3.findQueueFamiliesLoop]
  by_cases hq : q.queueFlags &&& VK_QUEUE_GRAPHICS_BIT = 0
  · cases gf <;> simp [hq, QueueFamilyIndices.isComplete]
  · by_cases hS : drv.vkGetPhysicalDeviceSurfaceSupportKHR device i app.surface = 0
    · simp [hq, hS, QueueFamilyIndices.isComplete]
    · simp [hq, hS, QueueFamilyIndices.isComplete]

/-- What the loop of the earlier `findQueueFamilies` establishes: it stops at the first family
that has the graphics bit and is answered to support presentation, with both indices set to
it; when there is no such family, `presentFamily` stays empty. -/
theorem v3_findQueueFamiliesLoop_spec (l : List VkQueueFamilyProperties) :
    ∀ (i : Nat) (ind : QueueFamilyIndices), ind.presentFamily = none →
      (∀ m, graphicsIn l m →
        drv.vkGetPhysicalDeviceSurfaceSupportKHR device (i + m) app.surface ≠ 0 →
        (∀ m', m' < m → graphicsIn l m' →
          drv.vkGetPhysicalDeviceSurfaceSupportKHR device (i + m') app.surface = 0) →
        (V3.findQueueFamiliesLoop drv app device l i 0 ind).1 = ⟨some (i + m), some (i + m)⟩) ∧
      ((∀ m, graphicsIn l m →
          drv.vkGetPhysicalDeviceSurfaceSupportKHR device (i + m) app.surface = 0) →
        (V3.findQueueFamiliesLoop drv app device l i 0 ind).1.presentFamily = none) := by
  induction l with
  | nil =>
    intro i ind hnone
    refine ⟨?_, ?_⟩
    · intro m hm; have := graphicsIn_lt hm; simp at this
    · intro _; simpa [V3.findQueueFamiliesLoop] using hnone
  | cons q rest ih =>
    intro i ind hnone
    rw [v3_findQueueFamiliesLoop_cons drv app device q rest i ind hnone]
    refine ⟨?_, ?_⟩
    · intro m hm hS hfirst
      cases m with
      | zero =>
        rw [Nat.add_zero] at hS ⊢
        rw [if_pos ((graphicsIn_cons_zero q rest).1 hm), if_pos hS]
        rfl
      | succ n =>
        have hm' := (graphicsIn_cons_succ q rest n).1 hm
        have e : i + (n + 1) = i + 1 + n := by omega
        rw [e] at hS ⊢
        have hrest : ∀ m', m' < n → graphicsIn rest m' →
            drv.vkGetPhysicalDeviceSurfaceSupportKHR device (i + 1 + m') app.surface = 0 := by
          intro m' hlt hg'
          have := hfirst (m' + 1) (by omega) ((graphicsIn_cons_succ q rest m').2 hg')
          rw [show i + (m' + 1) = i + 1 + m' by omega] at this
          exact this
        by_cases hq : q.queueFlags &&& VK_QUEUE_GRAPHICS_BIT ≠ 0
        · have h0 := hfirst 0 (by omega) ((graphicsIn_cons_zero q rest).2 hq)
          rw [Nat.add_zero] at h0
          rw [if_pos hq, if_neg (by simpa using h0)]
          exact (ih (i + 1) { ind with graphicsFamily := some i } hnone).1 n hm' hS hrest
        · rw [if_neg hq]
          exact (ih (i + 1) ind hnone).1 n hm' hS hrest
    · intro hall
      have hrest : ∀ m, graphicsIn rest m →
          drv.vkGetPhysicalDeviceSurfaceSupportKHR device (i + 1 + m) app.surface = 0 := by
        intro m hg'
        have := hall (m + 1) ((graphicsIn_cons_succ q rest m).2 hg')
        rw [show i + (m + 1) = i + 1 + m by omega] at this
        exact this
      by_cases hq : q.queueFlags &&& VK_QUEUE_GRAPHICS_BIT ≠ 0
      · have h0 := hall 0 ((graphicsIn_cons_zero q rest).2 hq)
        rw [Nat.add_zero] at h0
        rw [if_pos hq, if_neg (by simpa using h0)]
        exact (ih (i + 1) { ind with graphicsFamily := some i } hnone).2 hrest
      · rw [if_neg hq]
        exact (ih (i + 1) ind hnone).2 hrest

theorem v3_findQueueFamilies_fst :
    (V3.findQueueFamilies drv app device).1 =
      (V3.findQueueFamiliesLoop drv app device (queueFamiliesOf drv device) 0 0 ⟨none, none⟩).1 :=
  rfl

/-- C27: in `src/v3_pre_swapChain.cpp`, `findQueueFamilies` returns a complete result if and
only if some single family has the graphics bit and supports presentation; the result is then
`graphicsFamily = presentFamily =` the lowest such index; and when no single family has both
(for instance when graphics and presentation lie only on different families) the result is
incomplete, `presentFamily` is empty, and `isDeviceSuitable` answers false. -/
theorem v3_findQueueFamilies_spec :
    ((V3.findQueueFamilies drv app device).1.isComplete = true ↔
      ∃ j, graphicsCapable drv device j ∧ presentCapable drv app device j) ∧
    (∀ j, graphicsCapable drv device j → presentCapable drv app device j →
      (∀ j', j' < j → ¬ (graphicsCapable drv device j' ∧ presentCapable drv app device j')) →
      (V3.findQueueFamilies drv app device).1 = ⟨some j, some j⟩) ∧
    ((∀ j, ¬ (graphicsCapable drv device j ∧ presentCapable drv app device j)) →
      (V3.findQueueFamilies drv app device).1.isComplete = false ∧
      (V3.findQueueFamilies drv app device).1.presentFamily = none ∧
      (V3.isDeviceSuitable drv g app device).1 = false) := by
  obtain ⟨hfound, hnone⟩ :=
    v3_findQueueFamiliesLoop_spec drv app device (queueFamiliesOf drv device) 0 ⟨none, none⟩ rfl
  simp only [Nat.zero_add] at hfound hnone
  have hlowest : ∀ j, graphicsCapable drv device j → presentCapable drv app device j →
      (∀ j', j' < j → ¬ (graphicsCapable drv device j' ∧ presentCapable drv app device j')) →
      (V3.findQueueFamilies drv app device).1 = ⟨some j, some j⟩ := by
    intro j hG hP hfirst
    rw [v3_findQueueFamilies_fst]
    refine hfound j hG hP.2 ?_
    intro j' hlt hG'
    by_contra hS
    exact hfirst j' hlt ⟨hG', graphicsIn_lt hG', hS⟩
  have hincomplete : (∀ j, ¬ (graphicsCapable drv device j ∧ presentCapable drv app device j)) →
      (V3.findQueueFamilies drv app device).1.presentFamily = none := by
    intro hno
    rw [v3_findQueueFamilies_fst]
    refine hnone ?_
    intro m hG
    by_contra hS
    exact hno m ⟨hG, graphicsIn_lt hG, hS⟩
  have hfalse : ∀ r : QueueFamilyIndices, r.presentFamily = none → r.isComplete = false := by
    intro r hr
    obtain ⟨rg, rp⟩ := r
    simp only at hr
    subst hr
    cases rg <;> rfl
  refine ⟨⟨?_, ?_⟩, hlowest, ?_⟩
  · intro hc
    by_contra hno
    have hp := hfalse _ (hincomplete (fun j hj => hno ⟨j, hj⟩))
    rw [hp] at hc
    cases hc
  · intro hex
    classical
    have hspec := Nat.find_spec hex
    rw [hlowest (Nat.find hex) hspec.1 hspec.2 (fun j' hlt => Nat.find_min hex hlt)]
    rfl
  · intro hno
    have hp := hincomplete hno
    refine ⟨hfalse _ hp, hp, ?_⟩
    unfold V3.isDeviceSuitable
    simp [hfalse _ hp]

end PreSwapChain

/-! ## The extension check against its specification -/

section ExtensionCheck

variable (drv : Driver) (g : Globals) (device : VkPhysicalDevice)

theorem requiredExtensionsPresent_iff (availableExtensions requiredExtensions : List String) :
    requiredExtensionsPresent availableExtensions requiredExtensions = true ↔
      ∀ name ∈ requiredExtensions, name ∈ availableExtensions := by
  simp [requiredExtensionsPresent, List.all_eq_true]

/-- The erase loop of `checkDeviceExtensionSupport` on arbitrary lists: the set built from the
required names is empty at the end exactly when every required name is available. -/
theorem foldl_erase_isEmpty_iff (availableExtensions requiredExtensions : List String) :
    (availableExtensions.foldl (fun required extension => required.erase extension)
        requiredExtensions.dedup).isEmpty = true ↔
      ∀ name ∈ requiredExtensions, name ∈ availableExtensions := by
  simp only [List.isEmpty_iff, List.eq_nil_iff_forall_not_mem]
  constructor
  · intro h name hname
    by_contra hn
    exact h name ((mem_foldl_erase _ _ (List.nodup_dedup _) name).2 ⟨List.mem_dedup.2 hname, hn⟩)
  · intro h name hmem
    obtain ⟨hreq, hn⟩ := (mem_foldl_erase _ _ (List.nodup_dedup _) name).1 hmem
    exact hn (h name (List.mem_dedup.1 hreq))

/-- C23: `checkDeviceExtensionSupport`, which builds a set of the required names and erases each
available name from it, computes the specified requirement: for every list of available names
(duplicates allowed) and every list of required names the erase loop ends with an empty set if
and only if every required name occurs in the available list, so the member returns true
exactly in that case, and with no required names it returns true whatever is available. -/
theorem checkDeviceExtensionSupport_refines :
    (∀ availableExtensions requiredExtensions : List String,
      (availableExtensions.foldl (fun required extension => required.erase extension)
          requiredExtensions.dedup).isEmpty =
        requiredExtensionsPresent availableExtensions requiredExtensions) ∧
    (checkDeviceExtensionSupport drv g device).1 =
      requiredExtensionsPresent (availableExtensionsOf drv device) g.deviceExtensions ∧
    ((checkDeviceExtensionSupport drv g device).1 = true ↔
      ∀ name ∈ g.deviceExtensions, name ∈ availableExtensionsOf drv device) ∧
    (g.deviceExtensions = [] → (checkDeviceExtensionSupport drv g device).1 = true) := by
  have hcore : ∀ availableExtensions requiredExtensions : List String,
      (availableExtensions.foldl (fun required extension => required.erase extension)
          requiredExtensions.dedup).isEmpty =
        requiredExtensionsPresent availableExtensions requiredExtensions := by
    intro availableExtensions requiredExtensions
    rw [Bool.eq_iff_iff, foldl_erase_isEmpty_iff, requiredExtensionsPresent_iff]
  have hcode : (checkDeviceExtensionSupport drv g device).1 =
      (List.foldl (fun required extension => required.erase extension)
        g.deviceExtensions.dedup (availableExtensionsOf drv device)).isEmpty := rfl
  refine ⟨hcore, ?_, ?_, ?_⟩
  · rw [hcode, hcore]
  · rw [hcode, foldl_erase_isEmpty_iff]
  · intro hnil
    rw [hcode, foldl_erase_isEmpty_iff, hnil]
    intro name hname
    cases hname

end ExtensionCheck

/-! ## Numerical edge cases of the swap-chain settings -/

section EdgeCases

variable (drv : Driver) (app : App)

/-- C28: with the sentinel `currentExtent.width = 0xFFFFFFFF` and
`minImageExtent ≤ maxImageExtent < 2^31` in each dimension, a framebuffer dimension that is a
negative `int` is converted to `uint32_t` modulo `2^32` (it becomes the dimension plus `2^32`)
and the corresponding component of the result is the `maxImageExtent` component; a framebuffer
dimension of 0 gives the `minImageExtent` component. -/
theorem chooseSwapExtent_negative_and_zero (capabilities : VkSurfaceCapabilitiesKHR)
    (hsentinel : capabilities.currentExtent.width = UINT32_MAX)
    (hwidth : capabilities.minImageExtent.width ≤ capabilities.maxImageExtent.width)
    (hheight : capabilities.minImageExtent.height ≤ capabilities.maxImageExtent.height)
    (hmaxw : capabilities.maxImageExtent.width < 2147483648)
    (hmaxh : capabilities.maxImageExtent.height < 2147483648)
    (hintw : -2147483648 ≤ (drv.glfwGetFramebufferSize app.window).1)
    (hinth : -2147483648 ≤ (drv.glfwGetFramebufferSize app.window).2) :
    ((drv.glfwGetFramebufferSize app.window).1 < 0 →
      (toUint32 (drv.glfwGetFramebufferSize app.window).1 : Int) =
        (drv.glfwGetFramebufferSize app.window).1 + 4294967296 ∧
      (chooseSwapExtent drv app capabilities).1.width = capabilities.maxImageExtent.width) ∧
    ((drv.glfwGetFramebufferSize app.window).1 = 0 →
      (chooseSwapExtent drv app capabilities).1.width = capabilities.minImageExtent.width) ∧
    ((drv.glfwGetFramebufferSize app.window).2 < 0 →
      (toUint32 (drv.glfwGetFramebufferSize app.window).2 : Int) =
        (drv.glfwGetFramebufferSize app.window).2 + 4294967296 ∧
      (chooseSwapExtent drv app capabilities).1.height = capabilities.maxImageExtent.height) ∧
    ((drv.glfwGetFramebufferSize app.window).2 = 0 →
      (chooseSwapExtent drv app capabilities).1.height = capabilities.minImageExtent.height) := by
  have hw : (chooseSwapExtent drv app capabilities).1.width =
      stdClamp (toUint32 (drv.glfwGetFramebufferSize app.window).1)
        capabilities.minImageExtent.width capabilities.maxImageExtent.width := by
    unfold chooseSwapExtent
    simp only [hsentinel, ne_eq, not_true_eq_false, if_false]
  have hh : (chooseSwapExtent drv app capabilities).1.height =
      stdClamp (toUint32 (drv.glfwGetFramebufferSize app.window).2)
        capabilities.minImageExtent.height capabilities.maxImageExtent.height := by
    unfold chooseSwapExtent
    simp only [hsentinel, ne_eq, not_true_eq_false, if_false]
  have hneg : ∀ x : Int, -2147483648 ≤ x → x < 0 → (toUint32 x : Int) = x + 4294967296 := by
    intro x h1 h2
    unfold toUint32
    omega
  have hzero : toUint32 0 = 0 := rfl
  refine ⟨?_, ?_, ?_, ?_⟩
  · intro hlt
    have e := hneg _ hintw hlt
    refine ⟨e, ?_⟩
    rw [hw]
    unfold stdClamp
    split_ifs <;> omega
  · intro h0
    rw [hw, h0, hzero]
    unfold stdClamp
    split_ifs <;> omega
  · intro hlt
    have e := hneg _ hinth hlt
    refine ⟨e, ?_⟩
    rw [hh]
    unfold stdClamp
    split_ifs <;> omega
  · intro h0
    rw [hh, h0, hzero]
    unfold stdClamp
    split_ifs <;> omega

/-- C28, witness: a framebuffer of `(-1, 0)` with `minImageExtent = (1, 1)` and
`maxImageExtent = (4096, 4096)` gives the extent `(4096, 1)`. -/
theorem chooseSwapExtent_negative_and_zero_witness :
    (chooseSwapExtent (mockDriver [] (-1, 0) []) App.fresh
      ⟨2, 3, ⟨UINT32_MAX, UINT32_MAX⟩, ⟨1, 1⟩, ⟨4096, 4096⟩, 1⟩).1 = ⟨4096, 1⟩ ∧
    (chooseSwapExtent (mockDriver [] (-1, 0) []) App.fresh
      ⟨2, 3, ⟨UINT32_MAX, UINT32_MAX⟩, ⟨1, 1⟩, ⟨4096, 4096⟩, 1⟩).1.width = 4096 :=
  ⟨by decide,
   ((chooseSwapExtent_negative_and_zero (mockDriver [] (-1, 0) []) App.fresh
      ⟨2, 3, ⟨UINT32_MAX, UINT32_MAX⟩, ⟨1, 1⟩, ⟨4096, 4096⟩, 1⟩
      rfl (by decide) (by decide) (by decide) (by decide) (by decide) (by decide)).1
      (by decide)).2⟩

/-- The image count of every swap-chain create info `createSwapChain` passes is
`requestedImageCount` of the capabilities the driver reports for the adapter and surface. -/
theorem createSwapChain_imageCount :
    ∃ new, swapchainCreateInfos (createSwapChain drv app).app.calls =
        swapchainCreateInfos app.calls ++ new ∧
      (∀ ci ∈ new, ci.minImageCount = requestedImageCount
        (drv.vkGetPhysicalDeviceSurfaceCapabilitiesKHR app.physicalDevice app.surface)) ∧
      ((querySwapChainSupport drv app app.physicalDevice).1.formats ≠ [] →
        (findQueueFamilies drv app app.physicalDevice).1.isComplete = true → new.length = 1) := by
  refine ⟨_, createSwapChain_createInfos drv app, ?_, ?_⟩
  · intro ci hci
    split at hci
    · rw [List.mem_singleton] at hci
      rw [hci]
      rfl
    · cases hci
  · intro hne hcomplete
    obtain ⟨sf, hsf⟩ := chooseSwapSurfaceFormat_isSome _ hne
    obtain ⟨gf, pf, hg, hp⟩ := (isComplete_iff _).1 hcomplete
    rw [hsf, hg, hp]
    rfl

/-- C29: in 32-bit unsigned arithmetic, with `minImageCount < 2^32 - 1` and `maxImageCount = 0`
or `minImageCount ≤ maxImageCount`, the image count of every swap-chain create info that
`createSwapChain` passes is at least `minImageCount` and, when `maxImageCount > 0`, at most
`maxImageCount`; at `minImageCount = 2^32 - 1` with `maxImageCount = 0` the sum wraps and the
requested count is 0, below `minImageCount`. -/
theorem createSwapChain_imageCount_bounds (capabilities : VkSurfaceCapabilitiesKHR)
    (hcap : drv.vkGetPhysicalDeviceSurfaceCapabilitiesKHR app.physicalDevice app.surface =
      capabilities)
    (hmin : capabilities.minImageCount < 4294967295)
    (hmax : capabilities.maxImageCount = 0 ∨
      capabilities.minImageCount ≤ capabilities.maxImageCount) :
    (∃ new, swapchainCreateInfos (createSwapChain drv app).app.calls =
        swapchainCreateInfos app.calls ++ new ∧
      (∀ ci ∈ new, capabilities.minImageCount ≤ ci.minImageCount ∧
        (0 < capabilities.maxImageCount → ci.minImageCount ≤ capabilities.maxImageCount)) ∧
      ((querySwapChainSupport drv app app.physicalDevice).1.formats ≠ [] →
        (findQueueFamilies drv app app.physicalDevice).1.isComplete = true → new.length = 1)) ∧
    (∀ wrapping : VkSurfaceCapabilitiesKHR, wrapping.minImageCount = 4294967295 →
      wrapping.maxImageCount = 0 →
      requestedImageCount wrapping = 0 ∧ requestedImageCount wrapping < wrapping.minImageCount) := by
  refine ⟨?_, ?_⟩
  · obtain ⟨new, hnew, hcount, hone⟩ := createSwapChain_imageCount drv app
    refine ⟨new, hnew, ?_, hone⟩
    intro ci hci
    rw [hcount ci hci, hcap]
    unfold requestedImageCount
    simp only [gt_iff_lt]
    rw [Nat.mod_eq_of_lt (by omega)]
    split_ifs <;> omega
  · intro wrapping hw hz
    unfold requestedImageCount
    rw [hw, hz]
    decide

/-- C29, witness: `minImageCount = 2` and `maxImageCount = 2`: the requested count is 2. -/
theorem createSwapChain_imageCount_bounds_witness :
    (swapchainCreateInfos (createSwapChain tightDriver pickedApp).app.calls).map
        (fun ci => decide (2 ≤ ci.minImageCount ∧ ci.minImageCount ≤ 2)) = [true] ∧
    ∀ wrapping : VkSurfaceCapabilitiesKHR, wrapping.minImageCount = 4294967295 →
      wrapping.maxImageCount = 0 →
      requestedImageCount wrapping = 0 ∧ requestedImageCount wrapping < wrapping.minImageCount :=
  ⟨by decide,
   (createSwapChain_imageCount_bounds tightDriver pickedApp
     ⟨2, 2, ⟨800, 600⟩, ⟨1, 1⟩, ⟨4096, 4096⟩, 1⟩ rfl (by decide) (Or.inr (by decide))).2⟩

end EdgeCases

/-! ## Accesses after adapter selection -/

section SelectedAdapter

variable (drv : Driver) (g : Globals) (app : App)

theorem querySwapChainSupport_congr (app' : App) (device : VkPhysicalDevice)
    (hs : app.surface = app'.surface) :
    querySwapChainSupport drv app device = querySwapChainSupport drv app' device := by
  unfold querySwapChainSupport
  rw [hs]

/-- The adapter a successful `pickPhysicalDevice` stores, starting from
`physicalDevice = VK_NULL_HANDLE`, has passed `isDeviceSuitable`; the surface is unchanged. -/
theorem pickPhysicalDevice_ok_suitable (app' : App)
    (hfresh : app.physicalDevice = VK_NULL_HANDLE)
    (h : pickPhysicalDevice drv g app = .ok app') :
    (isDeviceSuitable drv g app app'.physicalDevice).1 = true ∧ app'.surface = app.surface := by
  have hspec := pickPhysicalDeviceLoop_spec drv g app (devicesOf drv app) app.physicalDevice
  unfold pickPhysicalDevice at h
  simp only at h
  split_ifs at h with hcount hnull
  cases h
  simp only at hnull
  rcases hspec with ⟨_, hpd⟩ | ⟨k, _, hs, _⟩
  · exact absurd (by rw [hpd, hfresh]) hnull
  · exact ⟨hs, rfl⟩

/-- The member `createLogicDevice` changes neither `physicalDevice` nor `surface`. -/
theorem createLogicDevice_keeps (a a' : App) (h : createLogicDevice drv g a = .ok a') :
    a'.physicalDevice = a.physicalDevice ∧ a'.surface = a.surface := by
  unfold createLogicDevice at h
  simp only [findQueueFamilies_log, App.log_physicalDevice] at h
  generalize findQueueFamilies drv a a.physicalDevice = fq at h
  obtain ⟨⟨gfo, pfo⟩, fc⟩ := fq
  cases gfo with
  | none => cases h
  | some gf =>
    cases pfo with
    | none => cases h
    | some pf =>
      simp only at h
      split_ifs at h <;> (cases h; exact ⟨rfl, rfl⟩)

/-- C22: for the adapter stored by a successful `pickPhysicalDevice` (started, as in the
program, from `physicalDevice = VK_NULL_HANDLE`; the driver's answers are functions of the
query, so they are the same every time), on every later state with that adapter and the same
surface `findQueueFamilies` gives a complete pair and the surface-format list is not empty,
so `chooseSwapSurfaceFormat` returns an entry of it, `createLogicDevice` does not throw
`bad_optional_access`, and `createSwapChain` neither throws `bad_optional_access` nor reads
`availableFormats[0]` of an empty vector; the states on which `initVulkan` calls the two
members are such states. -/
theorem selected_adapter_accesses_defined (app' : App)
    (hfresh : app.physicalDevice = VK_NULL_HANDLE)
    (h : pickPhysicalDevice drv g app = .ok app') :
    (∀ a : App, a.physicalDevice = app'.physicalDevice → a.surface = app.surface →
      (findQueueFamilies drv a a.physicalDevice).1.isComplete = true ∧
      (querySwapChainSupport drv a a.physicalDevice).1.formats ≠ [] ∧
      (∃ surfaceFormat,
        chooseSwapSurfaceFormat (querySwapChainSupport drv a a.physicalDevice).1.formats =
          some surfaceFormat ∧
        surfaceFormat ∈ (querySwapChainSupport drv a a.physicalDevice).1.formats) ∧
      (∀ a', createLogicDevice drv g a ≠ .thrown badOptionalAccess a') ∧
      (∀ a', createSwapChain drv a ≠ .thrown badOptionalAccess a' ∧
        createSwapChain drv a ≠ .undefinedBehaviour a')) ∧
    (app'.surface = app.surface ∧
      ∀ a1, createLogicDevice drv g app' = .ok a1 →
        a1.physicalDevice = app'.physicalDevice ∧ a1.surface = app.surface) := by
  obtain ⟨hsuit, hsurf⟩ := pickPhysicalDevice_ok_suitable drv g app app' hfresh h
  obtain ⟨hcomplete, _, hformats, _⟩ :=
    (isDeviceSuitable_iff drv g app app'.physicalDevice).1.1 hsuit
  have hlogic : ¬ ("Failed to create logical device!" = badOptionalAccess) := by decide
  have hswap : ¬ ("\n\tCould not create SwapChain!" = badOptionalAccess) := by decide
  refine ⟨?_, hsurf, ?_⟩
  · intro a hpd hs
    have hc : (findQueueFamilies drv a a.physicalDevice).1.isComplete = true := by
      rw [hpd, findQueueFamilies_congr drv a app _ hs]
      exact hcomplete
    have hf : (querySwapChainSupport drv a a.physicalDevice).1.formats ≠ [] := by
      rw [hpd, querySwapChainSupport_congr drv a app _ hs]
      exact hformats
    obtain ⟨gf, pf, hg, hp⟩ := (isComplete_iff _).1 hc
    obtain ⟨sf, hsf⟩ := chooseSwapSurfaceFormat_isSome _ hf
    have hmem : sf ∈ (querySwapChainSupport drv a a.physicalDevice).1.formats := by
      unfold chooseSwapSurfaceFormat at hsf
      split at hsf
      · rename_i x hx
        cases hsf
        exact List.mem_of_find?_eq_some hx
      · exact List.getElem?_mem hsf
    refine ⟨hc, hf, ⟨sf, hsf, hmem⟩, ?_, ?_⟩
    · intro a' hthrown
      unfold createLogicDevice at hthrown
      simp only [findQueueFamilies_log, App.log_physicalDevice] at hthrown
      rw [hg, hp] at hthrown
      simp only at hthrown
      split_ifs at hthrown <;> (injection hthrown with hmsg _; exact hlogic hmsg)
    · intro a'
      rw [createSwapChain_eq, hsf, hg, hp]
      simp only
      refine ⟨?_, ?_⟩
      · intro hthrown
        split_ifs at hthrown
        injection hthrown with hmsg _
        exact hswap hmsg
      · intro hub
        split_ifs at hub
  · intro a1 h1
    obtain ⟨e1, e2⟩ := createLogicDevice_keeps drv g app' a1 h1
    exact ⟨e1, e2.trans hsurf⟩

/-- C22, witness: the single adapter of the mock driver is selected, and both members return
normally on it. -/
theorem selected_adapter_accesses_defined_witness :
    (∃ a1, createLogicDevice (driverWith [(1, 1)]) (globals true)
        (pickPhysicalDevice (driverWith [(1, 1)]) (globals true) App.fresh).app = .ok a1) ∧
    (findQueueFamilies (driverWith [(1, 1)])
      (pickPhysicalDevice (driverWith [(1, 1)]) (globals true) App.fresh).app
      (pickPhysicalDevice (driverWith [(1, 1)]) (globals true) App.fresh).app.physicalDevice
        ).1.isComplete = true :=
  ⟨⟨_, rfl⟩,
   ((selected_adapter_accesses_defined (driverWith [(1, 1)]) (globals true) App.fresh
      (pickPhysicalDevice (driverWith [(1, 1)]) (globals true) App.fresh).app rfl rfl).1
      (pickPhysicalDevice (driverWith [(1, 1)]) (globals true) App.fresh).app rfl rfl).1⟩

end SelectedAdapter

end HelloTriangleApplication
